import Mathlib

/-!
Verification of the media indexing core (internal/photoprism/index_mediafile.go).

The Go code is shallowly embedded: entities are records, the relational store
is a record of row lists, external collaborators (thumbnailer, classifier,
geocoder, text helpers) are parameters collected in an environment record,
and `Index.MediaFile` is a pure function from the environment, the store and
the media-file observations to the result, the new store and the list of
published events.
-/

set_option maxHeartbeats 1000000

/-- Shallow embedding of Go time.Time as the record of observations the
indexer makes of a time value: an abstract instant, the derived year, month
and hour, and the IsZero flag. -/
structure GoTime where
  unix : Int
  year : Int
  month : Int
  hour : Int
  zero : Bool
deriving DecidableEq, Repr

/-- Go zero time: IsZero is true, Year() is 1, Month() is January. -/
def GoTime.zeroTime : GoTime := { unix := 0, year := 1, month := 1, hour := 0, zero := true }

instance : Inhabited GoTime := ⟨GoTime.zeroTime⟩

/-- Model of t.Format with layout 2006, i.e. the four-digit year. -/
def GoTime.formatYear (t : GoTime) : String := toString t.year

/-- Go integer division truncates toward zero, which is Int.tdiv. -/
def goDiv (a b : Int) : Int := Int.tdiv a b

/-- classify.Label, with the fields the indexer uses (the classify package is
outside the given sources; the field set is taken from its uses in
index_mediafile.go). -/
structure classify.Label where
  Name : String
  Source : String
  Uncertainty : Int
  Priority : Int
  Categories : List String
deriving DecidableEq, Repr

instance : Inhabited classify.Label :=
  ⟨{ Name := "", Source := "", Uncertainty := 0, Priority := 0, Categories := [] }⟩

/-- Modelled from the spec: classify.LocationLabel (absent from the given
sources) builds a synthetic label with source "location"; it is called as
LocationLabel(name, uncertainty, priority). -/
def classify.LocationLabel (name : String) (uncertainty : Int) (priority : Int) : classify.Label :=
  { Name := name, Source := "location", Uncertainty := uncertainty, Priority := priority,
    Categories := [] }

/-- Modelled from the spec: the order used by sort.Sort(labels), which the
spec gives as lexicographic (priority descending, uncertainty ascending) with
ties kept in input order (classify.Labels.Less is absent from the given
sources). -/
def classify.labelBefore (a b : classify.Label) : Bool :=
  decide (b.Priority < a.Priority) ||
    (a.Priority == b.Priority && decide (a.Uncertainty ≤ b.Uncertainty))

/-- Ordered insertion used by the stable sort of labels. -/
def classify.insertLabel (l : classify.Label) : List classify.Label → List classify.Label
  | [] => [l]
  | x :: xs => if classify.labelBefore l x then l :: x :: xs else x :: classify.insertLabel l xs

/-- Modelled from the spec: stable sort of labels by (priority descending,
uncertainty ascending). -/
def classify.sortLabels (labels : List classify.Label) : List classify.Label :=
  labels.foldr classify.insertLabel []

/-- The label retention loop of Index.classifyImage (lines 474-484): the
running confidence starts at 0, latches 100-uncertainty of the current label
while it is still 0, and a label is kept when its confidence is strictly
greater than a third (Go integer division) of the running confidence. -/
def classifyLoop (confidence : Int) : List classify.Label → List classify.Label
  | [] => []
  | label :: rest =>
    let c := if confidence = 0 then 100 - label.Uncertainty else confidence
    if 100 - label.Uncertainty > goDiv c 3 then label :: classifyLoop c rest
    else classifyLoop c rest

/-- Sorting plus the retention loop, as applied by Index.classifyImage to the
concatenated per-thumbnail label lists. -/
def classifySelect (labels : List classify.Label) : List classify.Label :=
  classifyLoop 0 (classify.sortLabels labels)

/-- Modelled from the spec: the claimed behaviour of Index.classifyImage,
"retain labels whose confidence 100-uncertainty is strictly greater than
conf0/3 (integer division), where conf0 is the confidence of the first label
of the sorted list". This definition follows the spec text and is compared
against classifySelect, which follows the code. -/
def classifySpecSelect (labels : List classify.Label) : List classify.Label :=
  match classify.sortLabels labels with
  | [] => []
  | l0 :: _ =>
    (classify.sortLabels labels).filter
      (fun l => decide (100 - l.Uncertainty > goDiv (100 - l0.Uncertainty) 3))

/-- The confidence the retention loop actually latches: that of the first
label of the list whose confidence 100-uncertainty is nonzero (0 when there
is none). -/
def classify.firstConf (labels : List classify.Label) : Int :=
  match labels.find? (fun l => !((100 - l.Uncertainty) == 0)) with
  | some l => 100 - l.Uncertainty
  | none => 0

lemma classifyLoop_of_ne_zero (c : Int) (hc : c ≠ 0) (L : List classify.Label) :
    classifyLoop c L = L.filter (fun l => decide (100 - l.Uncertainty > goDiv c 3)) := by
  induction L with
  | nil => simp [classifyLoop]
  | cons x xs ih =>
    simp only [classifyLoop, if_neg hc, List.filter]
    by_cases h : 100 - x.Uncertainty > goDiv c 3
    · simp [h, ih]
    · simp [h, ih]

lemma firstConf_nonneg (L : List classify.Label)
    (h : ∀ l ∈ L, (0:Int) ≤ 100 - l.Uncertainty) : 0 ≤ classify.firstConf L := by
  unfold classify.firstConf
  cases hf : L.find? (fun l => !((100 - l.Uncertainty) == 0)) with
  | none => simp
  | some l => exact h l (List.mem_of_find?_eq_some hf)

lemma firstConf_cons_zero (x : classify.Label) (xs : List classify.Label)
    (hx : 100 - x.Uncertainty = 0) :
    classify.firstConf (x :: xs) = classify.firstConf xs := by
  unfold classify.firstConf
  simp [List.find?, hx]

lemma firstConf_cons_ne_zero (x : classify.Label) (xs : List classify.Label)
    (hx : 100 - x.Uncertainty ≠ 0) :
    classify.firstConf (x :: xs) = 100 - x.Uncertainty := by
  unfold classify.firstConf
  have : (!((100 - x.Uncertainty) == 0)) = true := by simpa using hx
  simp [List.find?, this]

lemma classifyLoop_zero_cons (x : classify.Label) (xs : List classify.Label) :
    classifyLoop 0 (x :: xs) =
      (if 100 - x.Uncertainty > goDiv (100 - x.Uncertainty) 3
       then x :: classifyLoop (100 - x.Uncertainty) xs
       else classifyLoop (100 - x.Uncertainty) xs) := by
  simp [classifyLoop]

lemma classifyLoop_zero (L : List classify.Label)
    (h : ∀ l ∈ L, (0:Int) ≤ 100 - l.Uncertainty) :
    classifyLoop 0 L =
      L.filter (fun l => decide (100 - l.Uncertainty > goDiv (classify.firstConf L) 3)) := by
  induction L with
  | nil => simp [classifyLoop]
  | cons x xs ih =>
    rw [classifyLoop_zero_cons, List.filter_cons]
    have htail : ∀ l ∈ xs, (0:Int) ≤ 100 - l.Uncertainty :=
      fun l hl => h l (List.mem_cons_of_mem _ hl)
    by_cases hx : 100 - x.Uncertainty = 0
    · have hfc := firstConf_cons_zero x xs hx
      have hnn : 0 ≤ classify.firstConf xs := firstConf_nonneg xs htail
      have hdiv : 0 ≤ goDiv (classify.firstConf xs) 3 := Int.tdiv_nonneg hnn (by decide)
      rw [hx]
      have h03 : goDiv (0:Int) 3 = 0 := by decide
      rw [h03, if_neg (by omega : ¬ ((0:Int) > 0))]
      have hcond : (decide ((0:Int) > goDiv (classify.firstConf (x :: xs)) 3)) = false := by
        rw [hfc]; exact decide_eq_false (by omega)
      rw [hcond, if_neg Bool.false_ne_true]
      simp only [ih htail, hfc]
    · have hfc := firstConf_cons_ne_zero x xs hx
      rw [classifyLoop_of_ne_zero _ hx, hfc]
      by_cases hk : (100:Int) - x.Uncertainty > goDiv (100 - x.Uncertainty) 3
      · rw [if_pos hk, decide_eq_true hk, if_pos rfl]
      · rw [if_neg hk, decide_eq_false hk, if_neg Bool.false_ne_true]

lemma mem_insertLabel {l x : classify.Label} {L : List classify.Label}
    (h : x ∈ classify.insertLabel l L) : x = l ∨ x ∈ L := by
  induction L with
  | nil => simpa [classify.insertLabel] using h
  | cons y ys ih =>
    unfold classify.insertLabel at h
    by_cases hb : classify.labelBefore l y
    · rw [if_pos hb] at h
      rcases List.mem_cons.mp h with h1 | h1
      · exact Or.inl h1
      · exact Or.inr h1
    · rw [if_neg hb] at h
      rcases List.mem_cons.mp h with h1 | h1
      · exact Or.inr (by simp [h1])
      · rcases ih h1 with h2 | h2
        · exact Or.inl h2
        · exact Or.inr (List.mem_cons_of_mem _ h2)

lemma mem_sortLabels {x : classify.Label} {L : List classify.Label}
    (h : x ∈ classify.sortLabels L) : x ∈ L := by
  induction L with
  | nil => simpa [classify.sortLabels] using h
  | cons y ys ih =>
    simp only [classify.sortLabels, List.foldr] at h
    rcases mem_insertLabel h with h' | h'
    · simp [h']
    · exact List.mem_cons_of_mem _ (ih h')

/-- entity.Description, the embedded child of Photo (entity package is
outside the given sources; fields as used by the indexer). -/
structure entity.Description where
  PhotoDescription : String
  PhotoNotes : String
  PhotoSubject : String
  PhotoKeywords : String
  PhotoArtist : String
  PhotoCopyright : String
deriving DecidableEq, Repr, Inhabited

/-- Modelled from the spec: the No...() predicates mean "field is
empty/default" (entity package is outside the given sources). -/
def entity.Description.NoDescription (d : entity.Description) : Bool := d.PhotoDescription == ""

/-- Modelled from the spec: NoNotes means the notes field is empty. -/
def entity.Description.NoNotes (d : entity.Description) : Bool := d.PhotoNotes == ""

/-- Modelled from the spec: NoSubject means the subject field is empty. -/
def entity.Description.NoSubject (d : entity.Description) : Bool := d.PhotoSubject == ""

/-- Modelled from the spec: NoKeywords means the keywords field is empty. -/
def entity.Description.NoKeywords (d : entity.Description) : Bool := d.PhotoKeywords == ""

/-- Modelled from the spec: NoArtist means the artist field is empty. -/
def entity.Description.NoArtist (d : entity.Description) : Bool := d.PhotoArtist == ""

/-- Modelled from the spec: NoCopyright means the copyright field is empty. -/
def entity.Description.NoCopyright (d : entity.Description) : Bool := d.PhotoCopyright == ""

/-- entity.Camera dimension row, interned by (model, make). -/
structure entity.Camera where
  ID : Nat
  CameraModel : String
  CameraMake : String
deriving DecidableEq, Repr, Inhabited

/-- entity.Lens dimension row, interned by (model, make). -/
structure entity.Lens where
  ID : Nat
  LensModel : String
  LensMake : String
deriving DecidableEq, Repr, Inhabited

/-- entity.Place reverse-geocoded record (outside the given sources; fields
as used by the indexer, plus the gorm New flag read after FirstOrCreate). -/
structure entity.Place where
  ID : String
  LocCountry : String
  New : Bool
deriving DecidableEq, Repr, Inhabited

/-- Modelled from the spec: UnknownPlace is a well-known singleton with id
"zz". -/
def entity.UnknownPlace : entity.Place := { ID := "zz", LocCountry := "zz", New := false }

/-- entity.Country dimension row, interned by country code. -/
structure entity.Country where
  Code : String
  Name : String
  New : Bool
deriving DecidableEq, Repr, Inhabited

/-- entity.Label row (outside the given sources; fields as used by the
indexer, plus the gorm New flag). -/
structure entity.Label where
  ID : Nat
  LabelName : String
  LabelPriority : Int
  New : Bool
deriving DecidableEq, Repr, Inhabited

/-- entity.PhotoLabel edge between a photo and a label. -/
structure entity.PhotoLabel where
  PhotoID : Nat
  LabelID : Nat
  LabelUncertainty : Int
  LabelSource : String
deriving DecidableEq, Repr, Inhabited

/-- entity.Photo row with the attributes Index.MediaFile reads or writes. -/
structure entity.Photo where
  ID : Nat
  PhotoUUID : String
  PhotoPath : String
  PhotoName : String
  PhotoTitle : String
  PhotoFavorite : Bool
  PhotoNSFW : Bool
  PhotoYear : Int
  PhotoMonth : Int
  TakenAt : GoTime
  TakenAtLocal : GoTime
  TimeZone : String
  PhotoLat : Int
  PhotoLng : Int
  PhotoAltitude : Int
  ModifiedTitle : Bool
  ModifiedDate : Bool
  ModifiedLocation : Bool
  ModifiedCamera : Bool
  Camera : entity.Camera
  Lens : entity.Lens
  PhotoFocalLength : Int
  PhotoFNumber : Int
  PhotoIso : Int
  PhotoExposure : String
  CameraSerial : String
  LocationID : Nat
  PlaceID : String
  Place : entity.Place
  LocationEstimated : Bool
  PhotoCountry : String
  Description : entity.Description
deriving DecidableEq, Repr, Inhabited

/-- Modelled from the spec: NoTitle means the photo title is empty. -/
def entity.Photo.NoTitle (p : entity.Photo) : Bool := p.PhotoTitle == ""

/-- Modelled from the spec: NoCameraSerial means the camera serial is empty. -/
def entity.Photo.NoCameraSerial (p : entity.Photo) : Bool := p.CameraSerial == ""

/-- Modelled from the spec: NoLocation means no location row is attached. -/
def entity.Photo.NoLocation (p : entity.Photo) : Bool := p.LocationID == 0

/-- Modelled from the spec: HasPlace means a real (non-unknown) place is
attached; UnknownPlace has id "zz". -/
def entity.Photo.HasPlace (p : entity.Photo) : Bool :=
  !(p.Place.ID == "") && !(p.Place.ID == "zz")

/-- entity.File row with the attributes Index.MediaFile reads or writes.
The CreatedIn/UpdatedIn wall-clock timings are not modelled. The source
field FileAspectRatio is embedded under the name FileAspect. -/
structure entity.File where
  ID : Nat
  PhotoID : Nat
  PhotoUUID : String
  FileUUID : String
  FileName : String
  OriginalName : String
  FileHash : String
  FileSize : Int
  FileModified : GoTime
  FilePrimary : Bool
  FileSidecar : Bool
  FileVideo : Bool
  FileMissing : Bool
  FileType : String
  FileMime : String
  FileOrientation : Int
  FileMainColor : String
  FileColors : String
  FileLuminance : String
  FileDiff : Int
  FileChroma : Int
  FileWidth : Int
  FileHeight : Int
  FileAspect : Int
  FilePortrait : Bool
deriving DecidableEq, Repr, Inhabited

/-- Modelled from the spec: File.Changed reports that the stat size or
modification time differs from the stored values (entity.File.Changed is
outside the given sources; the spec states fileChanged = size differs or
modified differs). -/
def entity.File.Changed (f : entity.File) (fileSize : Int) (fileModified : GoTime) : Bool :=
  !(f.FileSize == fileSize) || !(f.FileModified == fileModified)

/-- meta.Data, the normalized metadata record (meta package is outside the
given sources; fields as used by the indexer). -/
structure MetaData where
  Lat : Int
  Lng : Int
  Altitude : Int
  TakenAt : GoTime
  TakenAtLocal : GoTime
  TimeZone : String
  Title : String
  Description : String
  Comment : String
  Subject : String
  Keywords : String
  Artist : String
  CameraOwner : String
  CameraSerial : String
  UniqueID : String
deriving DecidableEq, Repr, Inhabited

/-- The XMP data read by meta.XMP for the sidecar branch. -/
structure XmpData where
  Title : String
  Copyright : String
  Artist : String
  Description : String
  Comment : String
deriving DecidableEq, Repr, Inhabited

/-- The palette returned by m.Colors. -/
structure ColorData where
  MainColor : String
  Colors : String
  Luminance : String
  Diff : Int
  Chroma : Int
deriving DecidableEq, Repr, Inhabited

/-- The MediaFile descriptor as the record of the observations its lazy
accessors yield for one file (the MediaFile type itself is outside the given
sources; this lists exactly the accessors Index.MediaFile calls). relPath,
relName are relative to the originals root; metaData is none when MetaData()
returns an error; colors is none when Colors() fails; xmp is none when
meta.XMP fails. The source accessor AspectRatio is embedded as the field
aspect. -/
structure MediaFile where
  base : String
  relPath : String
  relName : String
  hash : String
  statSize : Int
  statModified : GoTime
  isSidecar : Bool
  isJpeg : Bool
  isXMP : Bool
  isVideo : Bool
  hasTimeAndPlace : Bool
  metaData : Option MetaData
  dateCreated : GoTime
  fileType : String
  mimeType : String
  orientation : Int
  cameraModel : String
  cameraMake : String
  lensModel : String
  lensMake : String
  focalLength : Int
  fNumber : Int
  iso : Int
  exposure : String
  width : Int
  height : Int
  aspect : Int
  colors : Option ColorData
  xmp : Option XmpData
deriving Inhabited

/-- The outcome of resolving a location for a file: mediaFile.Location()
followed by location.Find (both outside the given sources); none models any
error on that path. The Bool fields NoCity/LongCity and the CityContains
predicate model the corresponding Location methods. -/
structure LocationResult where
  ID : Nat
  PlaceID : String
  Place : entity.Place
  Name : String
  City : String
  CountryCode : String
  CountryName : String
  Category : String
  Keywords : List String
  NoCity : Bool
  LongCity : Bool
  CityContains : String → Bool

/-- IndexOptions switches (the type is outside the given sources; the spec
lists the nine booleans; SkipUnchanged is a method in the source and a plain
field here). -/
structure IndexOptions where
  SkipUnchanged : Bool
  UpdateExif : Bool
  UpdateCamera : Bool
  UpdateColors : Bool
  UpdateSize : Bool
  UpdateKeywords : Bool
  UpdateLabels : Bool
  UpdateTitle : Bool
  UpdateLocation : Bool
deriving DecidableEq, Repr, Inhabited

/-- IndexStatus is a string type in the source. -/
abbrev IndexStatus := String

def IndexUpdated : IndexStatus := "updated"
def IndexAdded : IndexStatus := "added"
def IndexSkipped : IndexStatus := "skipped"
def IndexFailed : IndexStatus := "failed"

/-- IndexResult as returned by Index.MediaFile; the Go zero value has an
empty status string, nil error and zero ids. -/
structure IndexResult where
  Status : IndexStatus
  Error : Option String
  FileID : Nat
  FileUUID : String
  PhotoID : Nat
  PhotoUUID : String
deriving DecidableEq, Repr

instance : Inhabited IndexResult :=
  ⟨{ Status := "", Error := none, FileID := 0, FileUUID := "", PhotoID := 0, PhotoUUID := "" }⟩

/-- r.Success() of the source: no error and a positive file id. -/
def IndexResult.Success (r : IndexResult) : Bool :=
  r.Error.isNone && decide (r.FileID > 0)

/-- The events Index.MediaFile and its helpers publish on the event bus. -/
inductive Event where
  | indexing (fileHash : String) (fileSize : Int) (fileName : String) (baseName : String)
  | countPhotos (count : Int)
  | countPlaces (count : Int)
  | countCountries (count : Int)
  | countLabels (count : Int)
  | entitiesCreatedPhotos
  | entitiesCreatedLabels
deriving DecidableEq, Repr

/-- Model of Go filepath.Base for the event payload: the last slash-separated
component. -/
def filepathBase (s : String) : String := (s.splitOn "/").getLastD ""

/-- The relational catalog store: one list of rows per table touched by the
indexer, plus auto-increment counters. The keyword index table maintained by
photo.IndexKeywords and gorm soft-delete bookkeeping are not modelled. -/
structure DB where
  photos : List entity.Photo
  files : List entity.File
  labels : List entity.Label
  photoLabels : List entity.PhotoLabel
  categories : List (Nat × Nat)
  cameras : List entity.Camera
  lenses : List entity.Lens
  countries : List entity.Country
  downloads : List (String × Nat)
  nextPhotoID : Nat
  nextFileID : Nat
  nextLabelID : Nat
  nextCameraID : Nat
  nextLensID : Nat
deriving DecidableEq, Repr, Inhabited

/-- First file row by file_name (Unscoped lookup of line 80). -/
def DB.firstFileByName (db : DB) (fileName : String) : Option entity.File :=
  db.files.find? (fun f => f.FileName == fileName)

/-- First file row by file_hash (Unscoped lookup of line 85). -/
def DB.firstFileByHash (db : DB) (fileHash : String) : Option entity.File :=
  db.files.find? (fun f => f.FileHash == fileHash)

/-- First photo row by (photo_path, photo_name) (line 90). -/
def DB.firstPhotoByPathName (db : DB) (filePath fileBase : String) : Option entity.Photo :=
  db.photos.find? (fun p => p.PhotoPath == filePath && p.PhotoName == fileBase)

/-- First photo row by (photo_lat, photo_lng, taken_at) (line 94). -/
def DB.firstPhotoByLatLngTakenAt (db : DB) (lat lng : Int) (takenAt : GoTime) :
    Option entity.Photo :=
  db.photos.find? (fun p => p.PhotoLat == lat && p.PhotoLng == lng && p.TakenAt == takenAt)

/-- First photo row by id (line 97). -/
def DB.photoById (db : DB) (id : Nat) : Option entity.Photo :=
  db.photos.find? (fun p => p.ID == id)

/-- First file row by id (used to state properties of the saved file row). -/
def DB.fileById (db : DB) (id : Nat) : Option entity.File :=
  db.files.find? (fun f => f.ID == id)

/-- The primary-jpg probe of line 126: first file row with file_type = 'jpg',
file_primary set and the given photo_id. -/
def DB.firstPrimaryJpgFile (db : DB) (photoId : Nat) : Option entity.File :=
  db.files.find? (fun f => f.FileType == "jpg" && f.FilePrimary && f.PhotoID == photoId)

/-- The photo-label edge for a (photo, label) pair. -/
def DB.photoLabelBy (db : DB) (photoId labelId : Nat) : Option entity.PhotoLabel :=
  db.photoLabels.find? (fun pl => pl.PhotoID == photoId && pl.LabelID == labelId)

/-- gorm Save of an existing photo row: replace the row with the same id. -/
def DB.savePhoto (db : DB) (photo : entity.Photo) : DB :=
  { db with photos := db.photos.map (fun q => if q.ID == photo.ID then photo else q) }

/-- gorm Create of a photo row: assign the next id and append. The
PhotoUUID-assigning BeforeCreate hook is outside the given sources and is
not modelled; the struct is stored as passed. -/
def DB.createPhoto (db : DB) (photo : entity.Photo) : entity.Photo × DB :=
  let photo := { photo with ID := db.nextPhotoID }
  (photo, { db with photos := db.photos ++ [photo], nextPhotoID := db.nextPhotoID + 1 })

/-- gorm Save of an existing file row: replace the row with the same id. -/
def DB.saveFile (db : DB) (file : entity.File) : DB :=
  { db with files := db.files.map (fun g => if g.ID == file.ID then file else g) }

/-- gorm Create of a file row: assign the next id and append. -/
def DB.createFile (db : DB) (file : entity.File) : entity.File × DB :=
  let file := { file with ID := db.nextFileID }
  (file, { db with files := db.files ++ [file], nextFileID := db.nextFileID + 1 })

/-- gorm Save of a label row: replace the row with the same id. -/
def DB.saveLabel (db : DB) (label : entity.Label) : DB :=
  { db with labels := db.labels.map (fun l => if l.ID == label.ID then label else l) }

/-- gorm Save of a photo-label edge: replace the edge with the same key. -/
def DB.savePhotoLabel (db : DB) (plm : entity.PhotoLabel) : DB :=
  { db with photoLabels := db.photoLabels.map (fun pl =>
      if pl.PhotoID == plm.PhotoID && pl.LabelID == plm.LabelID then plm else pl) }

/-- entity.NewCamera(model, make).FirstOrCreate: intern a camera row by
(model, make). -/
def entity.Camera.firstOrCreate (db : DB) (model make : String) : entity.Camera × DB :=
  match db.cameras.find? (fun c => c.CameraModel == model && c.CameraMake == make) with
  | some c => (c, db)
  | none =>
    let c : entity.Camera := { ID := db.nextCameraID, CameraModel := model, CameraMake := make }
    (c, { db with cameras := db.cameras ++ [c], nextCameraID := db.nextCameraID + 1 })

/-- entity.NewLens(model, make).FirstOrCreate: intern a lens row. -/
def entity.Lens.firstOrCreate (db : DB) (model make : String) : entity.Lens × DB :=
  match db.lenses.find? (fun l => l.LensModel == model && l.LensMake == make) with
  | some l => (l, db)
  | none =>
    let l : entity.Lens := { ID := db.nextLensID, LensModel := model, LensMake := make }
    (l, { db with lenses := db.lenses ++ [l], nextLensID := db.nextLensID + 1 })

/-- entity.NewLabel(name, priority).FirstOrCreate: intern a label row by
name; the returned New flag says whether the row was created. -/
def entity.Label.firstOrCreate (db : DB) (name : String) (priority : Int) :
    entity.Label × DB :=
  match db.labels.find? (fun l => l.LabelName == name) with
  | some l => ({ l with New := false }, db)
  | none =>
    let l : entity.Label :=
      { ID := db.nextLabelID, LabelName := name, LabelPriority := priority, New := false }
    ({ l with New := true },
     { db with labels := db.labels ++ [l], nextLabelID := db.nextLabelID + 1 })

/-- entity.NewPhotoLabel(photoId, labelId, uncertainty, source).FirstOrCreate:
intern the edge by (photoId, labelId). -/
def entity.PhotoLabel.firstOrCreate (db : DB) (photoId labelId : Nat)
    (uncertainty : Int) (source : String) : entity.PhotoLabel × DB :=
  match db.photoLabelBy photoId labelId with
  | some pl => (pl, db)
  | none =>
    let pl : entity.PhotoLabel :=
      { PhotoID := photoId, LabelID := labelId, LabelUncertainty := uncertainty,
        LabelSource := source }
    (pl, { db with photoLabels := db.photoLabels ++ [pl] })

/-- entity.NewCountry(code, name).FirstOrCreate: intern a country row by
code; the returned New flag says whether the row was created. -/
def entity.Country.firstOrCreate (db : DB) (code name : String) : entity.Country × DB :=
  match db.countries.find? (fun c => c.Code == code) with
  | some c => ({ c with New := false }, db)
  | none =>
    let c : entity.Country := { Code := code, Name := name, New := false }
    ({ c with New := true }, { db with countries := db.countries ++ [c] })

/-- The set-backed category association of line 520: append the edge unless
it is already present (the spec notes the store deduplicates these edges). -/
def DB.appendCategory (db : DB) (labelId categoryId : Nat) : DB :=
  if (labelId, categoryId) ∈ db.categories then db
  else { db with categories := db.categories ++ [(labelId, categoryId)] }

/-- SetDownloadFileID of line 406: associate the downloaded name with the
file id (ind.q is outside the given sources; errors there are logged and
non-fatal). -/
def DB.setDownloadFileID (db : DB) (name : String) (fileId : Nat) : DB :=
  { db with downloads := db.downloads ++ [(name, fileId)] }

/-- The indexer's environment: configuration switches and the external
collaborators (classifier, NSFW detector, geocoder composite, text helpers)
that live outside the given sources, modelled as parameters. tensorFlowFile
is the per-thumbnail composition of Thumbnail and tensorFlow.File, none on
either error; recentPhoto is the DATEDIFF-ordered query of estimateLocation;
labelsTitle is classify.Labels.Title; txtTitle, txtKeywords, uniqueWords,
labelsKeywords and nonCanonical model txt.Title, txt.Keywords,
txt.UniqueWords, Labels.Keywords and NonCanonical. -/
structure Env where
  tensorFlowDisabled : Bool
  detectNSFW : Bool
  tensorFlowFile : String → Option (List classify.Label)
  nsfwResult : Bool
  findLocation : Option LocationResult
  recentPhoto : DB → Option entity.Photo
  labelsTitle : List classify.Label → String → String
  txtTitle : String → String
  txtKeywords : String → List String
  uniqueWords : List String → List String
  labelsKeywords : List classify.Label → List String
  nonCanonical : String → Bool

/-- Model of strings.Contains for the nonempty needles used by the title
formats of indexLocation. -/
def strContains (s sub : String) : Bool := decide ((s.splitOn sub).length > 1)

/-- Index.isNSFW (lines 414-437): false when detection is disabled or on any
error; otherwise the detector's verdict (thumbnail and detector errors are
folded into nsfwResult being false). -/
def Index.isNSFW (env : Env) (_jpeg : MediaFile) : Bool :=
  if !env.detectNSFW then false else env.nsfwResult

/-- Index.classifyImage (lines 440-491): pick thumbnails by aspect ratio,
concatenate the classifier's labels over them (errors are logged and
skipped), sort and retain by the confidence loop. -/
def Index.classifyImage (env : Env) (jpeg : MediaFile) : List classify.Label :=
  let thumbs := if jpeg.aspect == 1 then ["tile_224"] else ["tile_224", "left_224", "right_224"]
  let labels := thumbs.foldl (fun acc thumb =>
    match env.tensorFlowFile thumb with
    | some imageLabels => acc ++ imageLabels
    | none => acc) []
  classifySelect labels

/-- The EXIF merge of lines 145-195, applied when m.MetaData() succeeds:
every copy is guarded by the matching No...() predicate or Modified flag;
a long meta UniqueID is adopted as the file's FileUUID. -/
def Index.indexExif (m : MediaFile) (photo0 : entity.Photo) (file0 : entity.File) :
    entity.Photo × entity.File :=
  match m.metaData with
  | none => (photo0, file0)
  | some metaData =>
    let photo := if !photo0.ModifiedLocation then
        { photo0 with PhotoLat := metaData.Lat, PhotoLng := metaData.Lng,
                      PhotoAltitude := metaData.Altitude }
      else photo0
    let photo := if !photo.ModifiedDate then
        { photo with TakenAt := metaData.TakenAt, TakenAtLocal := metaData.TakenAtLocal,
                     TimeZone := metaData.TimeZone }
      else photo
    let photo := if photo.NoTitle then { photo with PhotoTitle := metaData.Title } else photo
    let photo := if photo.Description.NoDescription then
        { photo with Description := { photo.Description with PhotoDescription := metaData.Description } }
      else photo
    let photo := if photo.Description.NoNotes then
        { photo with Description := { photo.Description with PhotoNotes := metaData.Comment } }
      else photo
    let photo := if photo.Description.NoSubject then
        { photo with Description := { photo.Description with PhotoSubject := metaData.Subject } }
      else photo
    let photo := if photo.Description.NoKeywords then
        { photo with Description := { photo.Description with PhotoKeywords := metaData.Keywords } }
      else photo
    let photo := if photo.Description.NoArtist && !(metaData.Artist == "") then
        { photo with Description := { photo.Description with PhotoArtist := metaData.Artist } }
      else photo
    let photo := if photo.Description.NoArtist && !(metaData.CameraOwner == "") then
        { photo with Description := { photo.Description with PhotoArtist := metaData.CameraOwner } }
      else photo
    let photo := if photo.NoCameraSerial then
        { photo with CameraSerial := metaData.CameraSerial }
      else photo
    let file := if metaData.UniqueID.length > 15 then
        { file0 with FileUUID := metaData.UniqueID }
      else file0
    (photo, file)

/-- The camera/lens block of lines 200-205: intern camera and lens and copy
focal length, F number, ISO and exposure. -/
def Index.indexCamera (db : DB) (m : MediaFile) (photo : entity.Photo) :
    entity.Photo × DB :=
  let (camera, db) := entity.Camera.firstOrCreate db m.cameraModel m.cameraMake
  let (lens, db) := entity.Lens.firstOrCreate db m.lensModel m.lensMake
  ({ photo with Camera := camera, Lens := lens, PhotoFocalLength := m.focalLength,
                PhotoFNumber := m.fNumber, PhotoIso := m.iso, PhotoExposure := m.exposure },
   db)

/-- Index.indexLocation (lines 535-616): on success attach location, place
and country (publishing counters for new rows), append the synthetic
category label and the location keywords, and synthesize a location title
unless the title is user-modified; on failure attach UnknownPlace. Either
way the photo country is copied from the place. -/
def Index.indexLocation (env : Env) (db : DB) (_mediaFile : MediaFile)
    (photo0 : entity.Photo) (labels0 : List classify.Label) (fileChanged : Bool)
    (o : IndexOptions) :
    List String × List classify.Label × entity.Photo × DB × List Event :=
  match env.findLocation with
  | some location =>
    let events := if location.Place.New then [Event.countPlaces 1] else []
    let photo := { photo0 with
      LocationID := location.ID, Place := location.Place,
      PlaceID := location.PlaceID, LocationEstimated := false }
    let (country, db) := entity.Country.firstOrCreate db location.CountryCode location.CountryName
    let events := events ++ (if country.New then [Event.countCountries 1] else [])
    let locCategory := location.Category
    let keywords := location.Keywords
    let labels := labels0 ++
      (if !(locCategory == "") then [classify.LocationLabel locCategory 0 (-1)] else [])
    let photo :=
      if (fileChanged || o.UpdateTitle) && !photo.ModifiedTitle then
        let title := env.labelsTitle labels location.Name
        if !(title == "") then
          if location.NoCity || location.LongCity || location.CityContains title then
            { photo with PhotoTitle := env.txtTitle title ++ " / " ++ location.CountryName ++
                " / " ++ photo.TakenAt.formatYear }
          else
            { photo with PhotoTitle := env.txtTitle title ++ " / " ++ location.City ++
                " / " ++ photo.TakenAt.formatYear }
        else if !(location.Name == "") && !(location.City == "") then
          if location.Name.length > 45 then
            { photo with PhotoTitle := env.txtTitle location.Name }
          else if location.Name.length > 20 || location.City.length > 16 ||
              strContains location.Name location.City then
            { photo with PhotoTitle := location.Name ++ " / " ++ photo.TakenAt.formatYear }
          else
            { photo with PhotoTitle := location.Name ++ " / " ++ location.City ++ " / " ++
                photo.TakenAt.formatYear }
        else if !(location.City == "") && !(location.CountryName == "") then
          if location.City.length > 20 then
            { photo with PhotoTitle := location.City ++ " / " ++ photo.TakenAt.formatYear }
          else
            { photo with PhotoTitle := location.City ++ " / " ++ location.CountryName ++
                " / " ++ photo.TakenAt.formatYear }
        else photo
      else photo
    let photo := { photo with PhotoCountry := photo.Place.LocCountry }
    (keywords, labels, photo, db, events)
  | none =>
    let photo := { photo0 with
      Place := entity.UnknownPlace, PlaceID := entity.UnknownPlace.ID }
    let photo := { photo with PhotoCountry := photo.Place.LocCountry }
    ([], labels0, photo, db, [])

/-- Index.estimateLocation (lines 618-629): copy place and country of the
temporally closest photo when it has a place. -/
def Index.estimateLocation (env : Env) (db : DB) (photo : entity.Photo) : entity.Photo :=
  match env.recentPhoto db with
  | some recentPhoto =>
    if recentPhoto.HasPlace then
      { photo with Place := recentPhoto.Place, PhotoCountry := recentPhoto.Place.LocCountry,
                   LocationEstimated := true }
    else photo
  | none => photo

/-- The daytime fallback of lines 217-233: a daytime word plus the local
year when TakenAtLocal is set, else the literal Unknown. -/
def Index.titleFallback (photo : entity.Photo) : entity.Photo :=
  if !photo.TakenAtLocal.zero then
    let hour := photo.TakenAtLocal.hour
    let daytimeString := if hour < 17 then "Unknown" else if hour < 20 then "Sunset" else "Unknown"
    { photo with PhotoTitle := daytimeString ++ " / " ++ photo.TakenAtLocal.formatYear }
  else
    { photo with PhotoTitle := "Unknown" }

/-- The title synthesis of lines 214-236 (body): use the top label when it
is salient and confident enough, else the daytime fallback. -/
def Index.indexTitle (env : Env) (m : MediaFile) (photo : entity.Photo)
    (labels : List classify.Label) : entity.Photo :=
  match labels with
  | l0 :: _ =>
    if l0.Priority ≥ -1 && l0.Uncertainty ≤ 85 && !(l0.Name == "") then
      { photo with PhotoTitle := env.txtTitle l0.Name ++ " / " ++ m.dateCreated.formatYear }
    else Index.titleFallback photo
  | [] => Index.titleFallback photo

/-- The keyword synthesis of lines 307-327 (body): gather words from the
existing keywords, the non-canonical file name, the location, the original
name, the main color and the labels; deduplicate and join. -/
def Index.indexKeywords (env : Env) (fileBase filePath : String) (photo : entity.Photo)
    (file : entity.File) (locKeywords : List String) (labels : List classify.Label) :
    entity.Photo :=
  let w := env.txtKeywords photo.Description.PhotoKeywords
  let w := if env.nonCanonical fileBase then
      w ++ env.txtKeywords filePath ++ env.txtKeywords fileBase
    else w
  let w := w ++ locKeywords
  let w := w ++ env.txtKeywords file.OriginalName
  let w := w ++ [file.FileMainColor]
  let w := w ++ env.labelsKeywords labels
  { photo with Description := { photo.Description with
      PhotoKeywords := String.intercalate ", " (env.uniqueWords w) } }

/-- The XMP sidecar branch of lines 242-265: copy title, copyright, artist,
description and notes when the matching guard holds. -/
def Index.indexXMP (m : MediaFile) (photo0 : entity.Photo) : entity.Photo :=
  match m.xmp with
  | none => photo0
  | some data =>
    let photo := if !(data.Title == "") && !photo0.ModifiedTitle then
        { photo0 with PhotoTitle := data.Title }
      else photo0
    let photo := if photo.Description.NoCopyright && !(data.Copyright == "") then
        { photo with Description := { photo.Description with PhotoCopyright := data.Copyright } }
      else photo
    let photo := if photo.Description.NoArtist && !(data.Artist == "") then
        { photo with Description := { photo.Description with PhotoArtist := data.Artist } }
      else photo
    let photo := if photo.Description.NoDescription && !(data.Description == "") then
        { photo with Description := { photo.Description with PhotoDescription := data.Description } }
      else photo
    let photo := if photo.Description.NoNotes && !(data.Comment == "") then
        { photo with Description := { photo.Description with PhotoNotes := data.Comment } }
      else photo
    photo

/-- Index.addLabels (lines 493-533) for one incoming label: intern the label
row (publishing events for new visible labels), update its priority, intern
the photo-label edge, append category edges, and overwrite uncertainty and
source only when the stored uncertainty is strictly greater. -/
def Index.addLabel (env : Env) (photoId : Nat) (db : DB) (label : classify.Label) :
    DB × List Event :=
  let lmF := entity.Label.firstOrCreate db (env.txtTitle label.Name) label.Priority
  let lm := lmF.1
  let db1 := lmF.2
  let events := if lm.New then
      [Event.entitiesCreatedLabels] ++ (if label.Priority ≥ 0 then [Event.countLabels 1] else [])
    else []
  let lm2 := if !(lm.LabelPriority == label.Priority) then
      { lm with LabelPriority := label.Priority } else lm
  let db2 := if !(lm.LabelPriority == label.Priority) then
      db1.saveLabel { lm with LabelPriority := label.Priority } else db1
  let plmF := entity.PhotoLabel.firstOrCreate db2 photoId lm2.ID label.Uncertainty label.Source
  let plm := plmF.1
  let db3 := plmF.2
  let db4 := label.Categories.foldl (fun db category =>
    let (sn, db) := entity.Label.firstOrCreate db (env.txtTitle category) (-3)
    db.appendCategory lm2.ID sn.ID) db3
  let db5 :=
    if plm.LabelUncertainty > label.Uncertainty then
      db4.savePhotoLabel { plm with
        LabelUncertainty := label.Uncertainty, LabelSource := label.Source }
    else db4
  (db5, events)

/-- Index.addLabels over the label list. -/
def Index.addLabels (env : Env) (photoId : Nat) : DB → List classify.Label → DB × List Event
  | db, [] => (db, [])
  | db, label :: rest =>
    let (db, events) := Index.addLabel env photoId db label
    let (db2, events2) := Index.addLabels env photoId db rest
    (db2, events ++ events2)

/-- The file lookup of lines 80-87: by name, then (for non-sidecars) by
content hash. Returns the found row (or the zero value), the hash computed
so far (empty unless the hash path ran) and the existence flag. -/
def Index.lookupFile (db : DB) (m : MediaFile) : entity.File × String × Bool :=
  match db.firstFileByName m.relName with
  | some file => (file, "", true)
  | none =>
    if !m.isSidecar then
      let fileHash := m.hash
      match db.firstFileByHash fileHash with
      | some file => (file, fileHash, true)
      | none => (default, fileHash, false)
    else (default, "", false)

/-- The photo lookup of lines 89-104: when no file row matched, by
(path, name) and then by the metadata (lat, lng, taken_at) triple; when a
file row matched, its owning photo by id, also computing fileChanged.
Returns the photo (or the zero value), photoExists and fileChanged. -/
def Index.lookupPhoto (db : DB) (m : MediaFile) (file : entity.File) (fileExists : Bool)
    (fileSize : Int) (fileModified : GoTime) : entity.Photo × Bool × Bool :=
  if !fileExists then
    let pq := db.firstPhotoByPathName m.relPath m.base
    let pq := match pq with
      | some p => some p
      | none =>
        if m.hasTimeAndPlace then
          let metaData := m.metaData.getD default
          db.firstPhotoByLatLngTakenAt metaData.Lat metaData.Lng metaData.TakenAt
        else none
    (pq.getD default, pq.isSome, true)
  else
    let pq := db.photoById file.PhotoID
    (pq.getD default, pq.isSome, file.Changed fileSize fileModified)

/-- The primary-file election of lines 124-132: a file becomes primary when
it already was, or when it is a JPEG and the photo has no primary jpg row
(or does not exist yet). -/
def Index.electPrimary (db : DB) (m : MediaFile) (photo : entity.Photo)
    (file : entity.File) (photoExists : Bool) : entity.File :=
  if !file.FilePrimary then
    if photoExists then
      match db.firstPrimaryJpgFile photo.ID with
      | some _ => file
      | none => { file with FilePrimary := m.isJpeg }
    else { file with FilePrimary := m.isJpeg }
  else file

/-- The primary-file analyses of lines 134-241: classification and NSFW,
EXIF merge, camera/lens, location, title synthesis and the zero-date
adoption. Returns the updated photo and file, the labels, the location
keywords, the store and the published events. -/
def Index.indexPrimary (env : Env) (db : DB) (m : MediaFile) (o : IndexOptions)
    (photo0 : entity.Photo) (file0 : entity.File) (fileChanged : Bool) :
    entity.Photo × entity.File × List classify.Label × List String × DB × List Event :=
  let tfRun := !env.tensorFlowDisabled &&
    (fileChanged || o.UpdateKeywords || o.UpdateLabels || o.UpdateTitle)
  let labels := if tfRun then Index.classifyImage env m else []
  let photo1 := if tfRun then { photo0 with PhotoNSFW := Index.isNSFW env m } else photo0
  let exifRun := fileChanged || o.UpdateExif
  let photo2 := if exifRun then (Index.indexExif m photo1 file0).1 else photo1
  let file1 := if exifRun then (Index.indexExif m photo1 file0).2 else file0
  let camRun := !photo2.ModifiedCamera && (fileChanged || o.UpdateCamera)
  let photo3 := if camRun then (Index.indexCamera db m photo2).1 else photo2
  let db1 := if camRun then (Index.indexCamera db m photo2).2 else db
  let locRun := fileChanged || o.UpdateKeywords || o.UpdateLocation || o.UpdateTitle
  let locR := Index.indexLocation env db1 m photo3 labels fileChanged o
  let locKeywords := if locRun then locR.1 else []
  let labels2 := if locRun then locR.2.1 else labels
  let photo4 := if locRun then locR.2.2.1 else photo3
  let db2 := if locRun then locR.2.2.2.1 else db1
  let events := if locRun then locR.2.2.2.2 else []
  let titleRun := photo4.NoTitle || ((fileChanged || o.UpdateTitle) && !photo4.ModifiedTitle &&
    photo4.NoLocation)
  let photo5 := if titleRun then Index.indexTitle env m photo4 labels2 else photo4
  let zeroRun := photo5.TakenAt.zero || photo5.TakenAtLocal.zero
  let photo6 := if zeroRun then
      { photo5 with TakenAt := m.dateCreated, TakenAtLocal := m.dateCreated }
    else photo5
  (photo6, file1, labels2, locKeywords, db2, events)

/-- The update phase of lines 113-327: path/name stamping, primary election,
the primary or XMP branch, year/month derivation, the file attribute copies,
colors and size, and keyword synthesis. Persistence is not yet performed. -/
def Index.indexUpdates (env : Env) (db : DB) (m : MediaFile) (o : IndexOptions)
    (originalName : String) (photo0 : entity.Photo) (file0 : entity.File)
    (fileHash0 : String) (fileChanged photoExists : Bool) :
    entity.Photo × entity.File × List classify.Label × DB × List Event :=
  let fileBase := m.base
  let filePath := m.relPath
  let fileName := m.relName
  let fileHash := if fileHash0 == "" then m.hash else fileHash0
  let photoP := { photo0 with PhotoPath := filePath, PhotoName := fileBase }
  let fileE := Index.electPrimary db m photoP file0 photoExists
  let pr := Index.indexPrimary env db m o photoP fileE fileChanged
  let photo := if fileE.FilePrimary then pr.1
    else if m.isXMP then Index.indexXMP m photoP else photoP
  let file := if fileE.FilePrimary then pr.2.1 else fileE
  let labels := if fileE.FilePrimary then pr.2.2.1 else []
  let locKeywords := if fileE.FilePrimary then pr.2.2.2.1 else []
  let db := if fileE.FilePrimary then pr.2.2.2.2.1 else db
  let events := if fileE.FilePrimary then pr.2.2.2.2.2 else []
  let photo := { photo with PhotoYear := photo.TakenAt.year, PhotoMonth := photo.TakenAt.month }
  let file := if !(originalName == "") then { file with OriginalName := originalName } else file
  let file := { file with
    FileSidecar := m.isSidecar, FileVideo := m.isVideo, FileMissing := false,
    FileName := fileName, FileHash := fileHash, FileSize := m.statSize,
    FileModified := m.statModified, FileType := m.fileType, FileMime := m.mimeType,
    FileOrientation := m.orientation }
  let file :=
    if m.isJpeg && (fileChanged || o.UpdateColors) then
      match m.colors with
      | some p => { file with
          FileMainColor := p.MainColor, FileColors := p.Colors, FileLuminance := p.Luminance,
          FileDiff := p.Diff, FileChroma := p.Chroma }
      | none => file
    else file
  let file :=
    if m.isJpeg && (fileChanged || o.UpdateSize) then
      if m.width > 0 && m.height > 0 then
        { file with
          FileWidth := m.width, FileHeight := m.height, FileAspect := m.aspect,
          FilePortrait := decide (m.width < m.height) }
      else file
    else file
  let photo :=
    if file.FilePrimary && (fileChanged || o.UpdateKeywords) then
      Index.indexKeywords env fileBase filePath photo file locKeywords labels
    else photo
  (photo, file, labels, db, events)

/-- The persistence phase of lines 329-410: estimate the location and save
the photo, or create it (publishing counters); attach the labels; stamp the
file with the photo's id and uuid; save or create the file row; record the
download association; build the result. -/
def Index.indexPersist (env : Env) (db : DB) (o : IndexOptions)
    (originalName fileName : String) (photo0 : entity.Photo) (file0 : entity.File)
    (labels : List classify.Label) (fileExists photoExists : Bool) :
    IndexResult × DB × List Event :=
  let estPhoto :=
    if o.UpdateLocation && photo0.NoLocation then Index.estimateLocation env db photo0
    else photo0
  let newPhoto := { photo0 with PhotoFavorite := false }
  let photo := if photoExists then estPhoto else (db.createPhoto newPhoto).1
  let db1 := if photoExists then db.savePhoto estPhoto else (db.createPhoto newPhoto).2
  let events := if photoExists then ([] : List Event)
    else [Event.countPhotos 1, Event.entitiesCreatedPhotos]
  let aL := Index.addLabels env photo.ID db1 labels
  let db2 := if !labels.isEmpty then aL.1 else db1
  let events := events ++ (if !labels.isEmpty then aL.2 else [])
  let file := { file0 with PhotoID := photo.ID, PhotoUUID := photo.PhotoUUID }
  let file1 := if fileExists then file else (db2.createFile file).1
  let db3 := if fileExists then db2.saveFile file else (db2.createFile file).2
  let status := if fileExists then IndexUpdated else IndexAdded
  let downloadedAs := if !(originalName == "") then originalName else fileName
  let db4 := db3.setDownloadFileID downloadedAs file1.ID
  ({ Status := status, Error := none, FileID := file1.ID, FileUUID := file1.FileUUID,
     PhotoID := photo.ID, PhotoUUID := photo.PhotoUUID }, db4, events)

/-- Index.MediaFile (lines 45-411): the per-file indexing pipeline. Returns
the IndexResult together with the new catalog state and the list of events
published during the call. The nil media file is the none case. -/
def Index.MediaFile (env : Env) (db : DB) (mopt : Option MediaFile) (o : IndexOptions)
    (originalName : String) : IndexResult × DB × List Event :=
  match mopt with
  | none =>
    ({ Status := IndexFailed,
       Error := some "index: media file is nil - you might have found a bug",
       FileID := 0, FileUUID := "", PhotoID := 0, PhotoUUID := "" }, db, [])
  | some m =>
    let fileSize := m.statSize
    let fileModified := m.statModified
    let fileName := m.relName
    let events := [Event.indexing "" fileSize fileName (filepathBase fileName)]
    let lf := Index.lookupFile db m
    let file := lf.1
    let fileHash := lf.2.1
    let fileExists := lf.2.2
    let lp := Index.lookupPhoto db m file fileExists fileSize fileModified
    let photo := lp.1
    let photoExists := lp.2.1
    let fileChanged := lp.2.2
    if !fileChanged && photoExists && o.SkipUnchanged then
      ({ Status := IndexSkipped, Error := none, FileID := 0, FileUUID := "",
         PhotoID := 0, PhotoUUID := "" }, db, events)
    else
      let u := Index.indexUpdates env db m o originalName photo file fileHash
        fileChanged photoExists
      let pr := Index.indexPersist env u.2.2.2.1 o originalName fileName u.1 u.2.1 u.2.2.1
        fileExists photoExists
      (pr.1, pr.2.1, events ++ u.2.2.2.2 ++ pr.2.2)

/-! Projection-through-ite helper lemmas, used to push record projections
through the guarded updates of the pipeline. -/

@[simp] lemma entity.Photo.ite_ID (c : Prop) [Decidable c] (a b : entity.Photo) :
    (if c then a else b).ID = if c then a.ID else b.ID := apply_ite _ c a b

@[simp] lemma entity.Photo.ite_PhotoUUID (c : Prop) [Decidable c] (a b : entity.Photo) :
    (if c then a else b).PhotoUUID = if c then a.PhotoUUID else b.PhotoUUID := apply_ite _ c a b

@[simp] lemma entity.Photo.ite_PhotoPath (c : Prop) [Decidable c] (a b : entity.Photo) :
    (if c then a else b).PhotoPath = if c then a.PhotoPath else b.PhotoPath := apply_ite _ c a b

@[simp] lemma entity.Photo.ite_PhotoName (c : Prop) [Decidable c] (a b : entity.Photo) :
    (if c then a else b).PhotoName = if c then a.PhotoName else b.PhotoName := apply_ite _ c a b

@[simp] lemma entity.Photo.ite_PhotoTitle (c : Prop) [Decidable c] (a b : entity.Photo) :
    (if c then a else b).PhotoTitle = if c then a.PhotoTitle else b.PhotoTitle := apply_ite _ c a b

@[simp] lemma entity.Photo.ite_PhotoFavorite (c : Prop) [Decidable c] (a b : entity.Photo) :
    (if c then a else b).PhotoFavorite = if c then a.PhotoFavorite else b.PhotoFavorite := apply_ite _ c a b

@[simp] lemma entity.Photo.ite_PhotoNSFW (c : Prop) [Decidable c] (a b : entity.Photo) :
    (if c then a else b).PhotoNSFW = if c then a.PhotoNSFW else b.PhotoNSFW := apply_ite _ c a b

@[simp] lemma entity.Photo.ite_PhotoYear (c : Prop) [Decidable c] (a b : entity.Photo) :
    (if c then a else b).PhotoYear = if c then a.PhotoYear else b.PhotoYear := apply_ite _ c a b

@[simp] lemma entity.Photo.ite_PhotoMonth (c : Prop) [Decidable c] (a b : entity.Photo) :
    (if c then a else b).PhotoMonth = if c then a.PhotoMonth else b.PhotoMonth := apply_ite _ c a b

@[simp] lemma entity.Photo.ite_TakenAt (c : Prop) [Decidable c] (a b : entity.Photo) :
    (if c then a else b).TakenAt = if c then a.TakenAt else b.TakenAt := apply_ite _ c a b

@[simp] lemma entity.Photo.ite_TakenAtLocal (c : Prop) [Decidable c] (a b : entity.Photo) :
    (if c then a else b).TakenAtLocal = if c then a.TakenAtLocal else b.TakenAtLocal := apply_ite _ c a b

@[simp] lemma entity.Photo.ite_TimeZone (c : Prop) [Decidable c] (a b : entity.Photo) :
    (if c then a else b).TimeZone = if c then a.TimeZone else b.TimeZone := apply_ite _ c a b

@[simp] lemma entity.Photo.ite_PhotoLat (c : Prop) [Decidable c] (a b : entity.Photo) :
    (if c then a else b).PhotoLat = if c then a.PhotoLat else b.PhotoLat := apply_ite _ c a b

@[simp] lemma entity.Photo.ite_PhotoLng (c : Prop) [Decidable c] (a b : entity.Photo) :
    (if c then a else b).PhotoLng = if c then a.PhotoLng else b.PhotoLng := apply_ite _ c a b

@[simp] lemma entity.Photo.ite_PhotoAltitude (c : Prop) [Decidable c] (a b : entity.Photo) :
    (if c then a else b).PhotoAltitude = if c then a.PhotoAltitude else b.PhotoAltitude := apply_ite _ c a b

@[simp] lemma entity.Photo.ite_ModifiedTitle (c : Prop) [Decidable c] (a b : entity.Photo) :
    (if c then a else b).ModifiedTitle = if c then a.ModifiedTitle else b.ModifiedTitle := apply_ite _ c a b

@[simp] lemma entity.Photo.ite_ModifiedDate (c : Prop) [Decidable c] (a b : entity.Photo) :
    (if c then a else b).ModifiedDate = if c then a.ModifiedDate else b.ModifiedDate := apply_ite _ c a b

@[simp] lemma entity.Photo.ite_ModifiedLocation (c : Prop) [Decidable c] (a b : entity.Photo) :
    (if c then a else b).ModifiedLocation = if c then a.ModifiedLocation else b.ModifiedLocation := apply_ite _ c a b

@[simp] lemma entity.Photo.ite_ModifiedCamera (c : Prop) [Decidable c] (a b : entity.Photo) :
    (if c then a else b).ModifiedCamera = if c then a.ModifiedCamera else b.ModifiedCamera := apply_ite _ c a b

@[simp] lemma entity.Photo.ite_Camera (c : Prop) [Decidable c] (a b : entity.Photo) :
    (if c then a else b).Camera = if c then a.Camera else b.Camera := apply_ite _ c a b

@[simp] lemma entity.Photo.ite_Lens (c : Prop) [Decidable c] (a b : entity.Photo) :
    (if c then a else b).Lens = if c then a.Lens else b.Lens := apply_ite _ c a b

@[simp] lemma entity.Photo.ite_PhotoFocalLength (c : Prop) [Decidable c] (a b : entity.Photo) :
    (if c then a else b).PhotoFocalLength = if c then a.PhotoFocalLength else b.PhotoFocalLength := apply_ite _ c a b

@[simp] lemma entity.Photo.ite_PhotoFNumber (c : Prop) [Decidable c] (a b : entity.Photo) :
    (if c then a else b).PhotoFNumber = if c then a.PhotoFNumber else b.PhotoFNumber := apply_ite _ c a b

@[simp] lemma entity.Photo.ite_PhotoIso (c : Prop) [Decidable c] (a b : entity.Photo) :
    (if c then a else b).PhotoIso = if c then a.PhotoIso else b.PhotoIso := apply_ite _ c a b

@[simp] lemma entity.Photo.ite_PhotoExposure (c : Prop) [Decidable c] (a b : entity.Photo) :
    (if c then a else b).PhotoExposure = if c then a.PhotoExposure else b.PhotoExposure := apply_ite _ c a b

@[simp] lemma entity.Photo.ite_CameraSerial (c : Prop) [Decidable c] (a b : entity.Photo) :
    (if c then a else b).CameraSerial = if c then a.CameraSerial else b.CameraSerial := apply_ite _ c a b

@[simp] lemma entity.Photo.ite_LocationID (c : Prop) [Decidable c] (a b : entity.Photo) :
    (if c then a else b).LocationID = if c then a.LocationID else b.LocationID := apply_ite _ c a b

@[simp] lemma entity.Photo.ite_PlaceID (c : Prop) [Decidable c] (a b : entity.Photo) :
    (if c then a else b).PlaceID = if c then a.PlaceID else b.PlaceID := apply_ite _ c a b

@[simp] lemma entity.Photo.ite_Place (c : Prop) [Decidable c] (a b : entity.Photo) :
    (if c then a else b).Place = if c then a.Place else b.Place := apply_ite _ c a b

@[simp] lemma entity.Photo.ite_LocationEstimated (c : Prop) [Decidable c] (a b : entity.Photo) :
    (if c then a else b).LocationEstimated = if c then a.LocationEstimated else b.LocationEstimated := apply_ite _ c a b

@[simp] lemma entity.Photo.ite_PhotoCountry (c : Prop) [Decidable c] (a b : entity.Photo) :
    (if c then a else b).PhotoCountry = if c then a.PhotoCountry else b.PhotoCountry := apply_ite _ c a b

@[simp] lemma entity.Photo.ite_Description (c : Prop) [Decidable c] (a b : entity.Photo) :
    (if c then a else b).Description = if c then a.Description else b.Description := apply_ite _ c a b

@[simp] lemma entity.File.ite_FileRowID (c : Prop) [Decidable c] (a b : entity.File) :
    (if c then a else b).ID = if c then a.ID else b.ID := apply_ite _ c a b

@[simp] lemma entity.File.ite_PhotoID (c : Prop) [Decidable c] (a b : entity.File) :
    (if c then a else b).PhotoID = if c then a.PhotoID else b.PhotoID := apply_ite _ c a b

@[simp] lemma entity.File.ite_FilePhotoUUID (c : Prop) [Decidable c] (a b : entity.File) :
    (if c then a else b).PhotoUUID = if c then a.PhotoUUID else b.PhotoUUID := apply_ite _ c a b

@[simp] lemma entity.File.ite_FileUUID (c : Prop) [Decidable c] (a b : entity.File) :
    (if c then a else b).FileUUID = if c then a.FileUUID else b.FileUUID := apply_ite _ c a b

@[simp] lemma entity.File.ite_FileName (c : Prop) [Decidable c] (a b : entity.File) :
    (if c then a else b).FileName = if c then a.FileName else b.FileName := apply_ite _ c a b

@[simp] lemma entity.File.ite_OriginalName (c : Prop) [Decidable c] (a b : entity.File) :
    (if c then a else b).OriginalName = if c then a.OriginalName else b.OriginalName := apply_ite _ c a b

@[simp] lemma entity.File.ite_FileHash (c : Prop) [Decidable c] (a b : entity.File) :
    (if c then a else b).FileHash = if c then a.FileHash else b.FileHash := apply_ite _ c a b

@[simp] lemma entity.File.ite_FileSize (c : Prop) [Decidable c] (a b : entity.File) :
    (if c then a else b).FileSize = if c then a.FileSize else b.FileSize := apply_ite _ c a b

@[simp] lemma entity.File.ite_FileModified (c : Prop) [Decidable c] (a b : entity.File) :
    (if c then a else b).FileModified = if c then a.FileModified else b.FileModified := apply_ite _ c a b

@[simp] lemma entity.File.ite_FilePrimary (c : Prop) [Decidable c] (a b : entity.File) :
    (if c then a else b).FilePrimary = if c then a.FilePrimary else b.FilePrimary := apply_ite _ c a b

@[simp] lemma entity.File.ite_FileSidecar (c : Prop) [Decidable c] (a b : entity.File) :
    (if c then a else b).FileSidecar = if c then a.FileSidecar else b.FileSidecar := apply_ite _ c a b

@[simp] lemma entity.File.ite_FileVideo (c : Prop) [Decidable c] (a b : entity.File) :
    (if c then a else b).FileVideo = if c then a.FileVideo else b.FileVideo := apply_ite _ c a b

@[simp] lemma entity.File.ite_FileMissing (c : Prop) [Decidable c] (a b : entity.File) :
    (if c then a else b).FileMissing = if c then a.FileMissing else b.FileMissing := apply_ite _ c a b

@[simp] lemma entity.File.ite_FileType (c : Prop) [Decidable c] (a b : entity.File) :
    (if c then a else b).FileType = if c then a.FileType else b.FileType := apply_ite _ c a b

@[simp] lemma entity.File.ite_FileMime (c : Prop) [Decidable c] (a b : entity.File) :
    (if c then a else b).FileMime = if c then a.FileMime else b.FileMime := apply_ite _ c a b

@[simp] lemma entity.File.ite_FileOrientation (c : Prop) [Decidable c] (a b : entity.File) :
    (if c then a else b).FileOrientation = if c then a.FileOrientation else b.FileOrientation := apply_ite _ c a b

@[simp] lemma entity.File.ite_FileMainColor (c : Prop) [Decidable c] (a b : entity.File) :
    (if c then a else b).FileMainColor = if c then a.FileMainColor else b.FileMainColor := apply_ite _ c a b

@[simp] lemma entity.File.ite_FileColors (c : Prop) [Decidable c] (a b : entity.File) :
    (if c then a else b).FileColors = if c then a.FileColors else b.FileColors := apply_ite _ c a b

@[simp] lemma entity.File.ite_FileLuminance (c : Prop) [Decidable c] (a b : entity.File) :
    (if c then a else b).FileLuminance = if c then a.FileLuminance else b.FileLuminance := apply_ite _ c a b

@[simp] lemma entity.File.ite_FileDiff (c : Prop) [Decidable c] (a b : entity.File) :
    (if c then a else b).FileDiff = if c then a.FileDiff else b.FileDiff := apply_ite _ c a b

@[simp] lemma entity.File.ite_FileChroma (c : Prop) [Decidable c] (a b : entity.File) :
    (if c then a else b).FileChroma = if c then a.FileChroma else b.FileChroma := apply_ite _ c a b

@[simp] lemma entity.File.ite_FileWidth (c : Prop) [Decidable c] (a b : entity.File) :
    (if c then a else b).FileWidth = if c then a.FileWidth else b.FileWidth := apply_ite _ c a b

@[simp] lemma entity.File.ite_FileHeight (c : Prop) [Decidable c] (a b : entity.File) :
    (if c then a else b).FileHeight = if c then a.FileHeight else b.FileHeight := apply_ite _ c a b

@[simp] lemma entity.File.ite_FileAspect (c : Prop) [Decidable c] (a b : entity.File) :
    (if c then a else b).FileAspect = if c then a.FileAspect else b.FileAspect := apply_ite _ c a b

@[simp] lemma entity.File.ite_FilePortrait (c : Prop) [Decidable c] (a b : entity.File) :
    (if c then a else b).FilePortrait = if c then a.FilePortrait else b.FilePortrait := apply_ite _ c a b

@[simp] lemma entity.Description.ite_PhotoDescription (c : Prop) [Decidable c] (a b : entity.Description) :
    (if c then a else b).PhotoDescription = if c then a.PhotoDescription else b.PhotoDescription := apply_ite _ c a b

@[simp] lemma entity.Description.ite_PhotoNotes (c : Prop) [Decidable c] (a b : entity.Description) :
    (if c then a else b).PhotoNotes = if c then a.PhotoNotes else b.PhotoNotes := apply_ite _ c a b

@[simp] lemma entity.Description.ite_PhotoSubject (c : Prop) [Decidable c] (a b : entity.Description) :
    (if c then a else b).PhotoSubject = if c then a.PhotoSubject else b.PhotoSubject := apply_ite _ c a b

@[simp] lemma entity.Description.ite_PhotoKeywords (c : Prop) [Decidable c] (a b : entity.Description) :
    (if c then a else b).PhotoKeywords = if c then a.PhotoKeywords else b.PhotoKeywords := apply_ite _ c a b

@[simp] lemma entity.Description.ite_PhotoArtist (c : Prop) [Decidable c] (a b : entity.Description) :
    (if c then a else b).PhotoArtist = if c then a.PhotoArtist else b.PhotoArtist := apply_ite _ c a b

@[simp] lemma entity.Description.ite_PhotoCopyright (c : Prop) [Decidable c] (a b : entity.Description) :
    (if c then a else b).PhotoCopyright = if c then a.PhotoCopyright else b.PhotoCopyright := apply_ite _ c a b

/-! Store-projection lemmas: which tables each operation leaves unchanged. -/

@[simp] lemma DB.savePhoto_files (db : DB) (p : entity.Photo) :
    (db.savePhoto p).files = db.files := rfl

@[simp] lemma DB.savePhoto_photoLabels (db : DB) (p : entity.Photo) :
    (db.savePhoto p).photoLabels = db.photoLabels := rfl

@[simp] lemma DB.createPhoto_files (db : DB) (p : entity.Photo) :
    ((db.createPhoto p).2).files = db.files := rfl

@[simp] lemma DB.createPhoto_photoLabels (db : DB) (p : entity.Photo) :
    ((db.createPhoto p).2).photoLabels = db.photoLabels := rfl

@[simp] lemma DB.saveFile_photos (db : DB) (f : entity.File) :
    (db.saveFile f).photos = db.photos := rfl

@[simp] lemma DB.saveFile_photoLabels (db : DB) (f : entity.File) :
    (db.saveFile f).photoLabels = db.photoLabels := rfl

@[simp] lemma DB.createFile_photos (db : DB) (f : entity.File) :
    ((db.createFile f).2).photos = db.photos := rfl

@[simp] lemma DB.createFile_photoLabels (db : DB) (f : entity.File) :
    ((db.createFile f).2).photoLabels = db.photoLabels := rfl

@[simp] lemma DB.saveLabel_photos (db : DB) (l : entity.Label) :
    (db.saveLabel l).photos = db.photos := rfl

@[simp] lemma DB.saveLabel_files (db : DB) (l : entity.Label) :
    (db.saveLabel l).files = db.files := rfl

@[simp] lemma DB.saveLabel_photoLabels (db : DB) (l : entity.Label) :
    (db.saveLabel l).photoLabels = db.photoLabels := rfl

@[simp] lemma DB.savePhotoLabel_photos (db : DB) (pl : entity.PhotoLabel) :
    (db.savePhotoLabel pl).photos = db.photos := rfl

@[simp] lemma DB.savePhotoLabel_files (db : DB) (pl : entity.PhotoLabel) :
    (db.savePhotoLabel pl).files = db.files := rfl

@[simp] lemma DB.appendCategory_photos (db : DB) (a b : Nat) :
    (db.appendCategory a b).photos = db.photos := by
  unfold DB.appendCategory; split <;> rfl

@[simp] lemma DB.appendCategory_files (db : DB) (a b : Nat) :
    (db.appendCategory a b).files = db.files := by
  unfold DB.appendCategory; split <;> rfl

@[simp] lemma DB.appendCategory_photoLabels (db : DB) (a b : Nat) :
    (db.appendCategory a b).photoLabels = db.photoLabels := by
  unfold DB.appendCategory; split <;> rfl

@[simp] lemma DB.setDownloadFileID_photos (db : DB) (n : String) (i : Nat) :
    (db.setDownloadFileID n i).photos = db.photos := rfl

@[simp] lemma DB.setDownloadFileID_files (db : DB) (n : String) (i : Nat) :
    (db.setDownloadFileID n i).files = db.files := rfl

@[simp] lemma entity.Camera.cameraFOC_photos (db : DB) (a b : String) :
    ((entity.Camera.firstOrCreate db a b).2).photos = db.photos := by
  unfold entity.Camera.firstOrCreate; split <;> rfl

@[simp] lemma entity.Camera.cameraFOC_files (db : DB) (a b : String) :
    ((entity.Camera.firstOrCreate db a b).2).files = db.files := by
  unfold entity.Camera.firstOrCreate; split <;> rfl

@[simp] lemma entity.Camera.cameraFOC_photoLabels (db : DB) (a b : String) :
    ((entity.Camera.firstOrCreate db a b).2).photoLabels = db.photoLabels := by
  unfold entity.Camera.firstOrCreate; split <;> rfl

@[simp] lemma entity.Lens.lensFOC_photos (db : DB) (a b : String) :
    ((entity.Lens.firstOrCreate db a b).2).photos = db.photos := by
  unfold entity.Lens.firstOrCreate; split <;> rfl

@[simp] lemma entity.Lens.lensFOC_files (db : DB) (a b : String) :
    ((entity.Lens.firstOrCreate db a b).2).files = db.files := by
  unfold entity.Lens.firstOrCreate; split <;> rfl

@[simp] lemma entity.Lens.lensFOC_photoLabels (db : DB) (a b : String) :
    ((entity.Lens.firstOrCreate db a b).2).photoLabels = db.photoLabels := by
  unfold entity.Lens.firstOrCreate; split <;> rfl

@[simp] lemma entity.Label.labelFOC_photos (db : DB) (a : String) (p : Int) :
    ((entity.Label.firstOrCreate db a p).2).photos = db.photos := by
  unfold entity.Label.firstOrCreate; split <;> rfl

@[simp] lemma entity.Label.labelFOC_files (db : DB) (a : String) (p : Int) :
    ((entity.Label.firstOrCreate db a p).2).files = db.files := by
  unfold entity.Label.firstOrCreate; split <;> rfl

@[simp] lemma entity.Label.labelFOC_photoLabels (db : DB) (a : String) (p : Int) :
    ((entity.Label.firstOrCreate db a p).2).photoLabels = db.photoLabels := by
  unfold entity.Label.firstOrCreate; split <;> rfl

@[simp] lemma entity.PhotoLabel.photoLabelFOC_photos (db : DB) (a b : Nat) (u : Int) (s : String) :
    ((entity.PhotoLabel.firstOrCreate db a b u s).2).photos = db.photos := by
  unfold entity.PhotoLabel.firstOrCreate; split <;> rfl

@[simp] lemma entity.PhotoLabel.photoLabelFOC_files (db : DB) (a b : Nat) (u : Int) (s : String) :
    ((entity.PhotoLabel.firstOrCreate db a b u s).2).files = db.files := by
  unfold entity.PhotoLabel.firstOrCreate; split <;> rfl

@[simp] lemma entity.Country.countryFOC_photos (db : DB) (a b : String) :
    ((entity.Country.firstOrCreate db a b).2).photos = db.photos := by
  unfold entity.Country.firstOrCreate; split <;> rfl

@[simp] lemma entity.Country.countryFOC_files (db : DB) (a b : String) :
    ((entity.Country.firstOrCreate db a b).2).files = db.files := by
  unfold entity.Country.firstOrCreate; split <;> rfl

@[simp] lemma entity.Country.countryFOC_photoLabels (db : DB) (a b : String) :
    ((entity.Country.firstOrCreate db a b).2).photoLabels = db.photoLabels := by
  unfold entity.Country.firstOrCreate; split <;> rfl

lemma categoriesFold_photos (env : Env) (lmId : Nat) (cats : List String) (db : DB) :
    (cats.foldl (fun db category =>
      let (sn, db) := entity.Label.firstOrCreate db (env.txtTitle category) (-3)
      db.appendCategory lmId sn.ID) db).photos = db.photos := by
  induction cats generalizing db with
  | nil => rfl
  | cons c cs ih => rw [List.foldl_cons, ih]; simp

lemma categoriesFold_files (env : Env) (lmId : Nat) (cats : List String) (db : DB) :
    (cats.foldl (fun db category =>
      let (sn, db) := entity.Label.firstOrCreate db (env.txtTitle category) (-3)
      db.appendCategory lmId sn.ID) db).files = db.files := by
  induction cats generalizing db with
  | nil => rfl
  | cons c cs ih => rw [List.foldl_cons, ih]; simp

lemma categoriesFold_photoLabels (env : Env) (lmId : Nat) (cats : List String) (db : DB) :
    (cats.foldl (fun db category =>
      let (sn, db) := entity.Label.firstOrCreate db (env.txtTitle category) (-3)
      db.appendCategory lmId sn.ID) db).photoLabels = db.photoLabels := by
  induction cats generalizing db with
  | nil => rfl
  | cons c cs ih => rw [List.foldl_cons, ih]; simp

@[simp] lemma Index.addLabel_photos (env : Env) (photoId : Nat) (db : DB)
    (label : classify.Label) : ((Index.addLabel env photoId db label).1).photos = db.photos := by
  unfold Index.addLabel
  simp only []
  split <;> simp_all [categoriesFold_photos] <;> split <;> simp_all [categoriesFold_photos]

@[simp] lemma Index.addLabel_files (env : Env) (photoId : Nat) (db : DB)
    (label : classify.Label) : ((Index.addLabel env photoId db label).1).files = db.files := by
  unfold Index.addLabel
  simp only []
  split <;> simp_all [categoriesFold_files] <;> split <;> simp_all [categoriesFold_files]

@[simp] lemma Index.addLabels_photos (env : Env) (photoId : Nat) (db : DB)
    (labels : List classify.Label) :
    ((Index.addLabels env photoId db labels).1).photos = db.photos := by
  induction labels generalizing db with
  | nil => rfl
  | cons l ls ih => simp [Index.addLabels, ih]

@[simp] lemma Index.addLabels_files (env : Env) (photoId : Nat) (db : DB)
    (labels : List classify.Label) :
    ((Index.addLabels env photoId db labels).1).files = db.files := by
  induction labels generalizing db with
  | nil => rfl
  | cons l ls ih => simp [Index.addLabels, ih]

/-- Identity, uuid and the four user-edit flags survive a pipeline step. -/
def photoCore (p q : entity.Photo) : Prop :=
  q.ID = p.ID ∧ q.PhotoUUID = p.PhotoUUID ∧ q.ModifiedTitle = p.ModifiedTitle ∧
  q.ModifiedDate = p.ModifiedDate ∧ q.ModifiedLocation = p.ModifiedLocation ∧
  q.ModifiedCamera = p.ModifiedCamera

/-- The taken-at triple survives a pipeline step. -/
def photoDate (p q : entity.Photo) : Prop :=
  q.TakenAt = p.TakenAt ∧ q.TakenAtLocal = p.TakenAtLocal ∧ q.TimeZone = p.TimeZone

/-- The coordinates survive a pipeline step. -/
def photoLoc (p q : entity.Photo) : Prop :=
  q.PhotoLat = p.PhotoLat ∧ q.PhotoLng = p.PhotoLng ∧ q.PhotoAltitude = p.PhotoAltitude

/-- The camera block fields survive a pipeline step. -/
def photoCam (p q : entity.Photo) : Prop :=
  q.Camera = p.Camera ∧ q.Lens = p.Lens ∧ q.PhotoFocalLength = p.PhotoFocalLength ∧
  q.PhotoFNumber = p.PhotoFNumber ∧ q.PhotoIso = p.PhotoIso ∧
  q.PhotoExposure = p.PhotoExposure

lemma indexExif_core (m : MediaFile) (p : entity.Photo) (f : entity.File) :
    photoCore p ((Index.indexExif m p f).1) := by
  unfold Index.indexExif photoCore
  cases m.metaData <;> simp

lemma indexExif_title (m : MediaFile) (p : entity.Photo) (f : entity.File)
    (h : ¬ p.PhotoTitle = "") :
    ((Index.indexExif m p f).1).PhotoTitle = p.PhotoTitle := by
  unfold Index.indexExif
  cases m.metaData <;> simp [entity.Photo.NoTitle, h]

lemma indexExif_date (m : MediaFile) (p : entity.Photo) (f : entity.File)
    (h : p.ModifiedDate = true) :
    photoDate p ((Index.indexExif m p f).1) := by
  unfold Index.indexExif photoDate
  cases m.metaData <;> simp [h]

lemma indexExif_loc (m : MediaFile) (p : entity.Photo) (f : entity.File)
    (h : p.ModifiedLocation = true) :
    photoLoc p ((Index.indexExif m p f).1) := by
  unfold Index.indexExif photoLoc
  cases m.metaData <;> simp [h]

lemma indexExif_cam (m : MediaFile) (p : entity.Photo) (f : entity.File) :
    photoCam p ((Index.indexExif m p f).1) := by
  unfold Index.indexExif photoCam
  cases m.metaData <;> simp

lemma indexExif_file_core (m : MediaFile) (p : entity.Photo) (f : entity.File) :
    ((Index.indexExif m p f).2).ID = f.ID ∧
    ((Index.indexExif m p f).2).FilePrimary = f.FilePrimary := by
  unfold Index.indexExif
  cases m.metaData <;> simp

/-- The extracted metadata carries no UniqueID longer than 15 characters
(so line 190 never fires). -/
def shortUID (m : MediaFile) : Prop :=
  ∀ md, m.metaData = some md → ¬ md.UniqueID.length > 15

@[simp] lemma indexExif_fileUUID (m : MediaFile) (p : entity.Photo) (f : entity.File)
    (h : shortUID m) :
    ((Index.indexExif m p f).2).FileUUID = f.FileUUID := by
  unfold Index.indexExif
  cases hm : m.metaData with
  | none => simp
  | some md => simp [h md hm]

lemma indexCamera_photo (db : DB) (m : MediaFile) (p : entity.Photo) :
    photoCore p ((Index.indexCamera db m p).1) ∧
    ((Index.indexCamera db m p).1).PhotoTitle = p.PhotoTitle ∧
    photoDate p ((Index.indexCamera db m p).1) ∧
    photoLoc p ((Index.indexCamera db m p).1) := by
  unfold Index.indexCamera photoCore photoDate photoLoc
  simp

@[simp] lemma indexCamera_photos (db : DB) (m : MediaFile) (p : entity.Photo) :
    ((Index.indexCamera db m p).2).photos = db.photos := by
  unfold Index.indexCamera
  simp

@[simp] lemma indexCamera_files (db : DB) (m : MediaFile) (p : entity.Photo) :
    ((Index.indexCamera db m p).2).files = db.files := by
  unfold Index.indexCamera
  simp

lemma indexLocation_photo (env : Env) (db : DB) (m : MediaFile) (p : entity.Photo)
    (labels : List classify.Label) (fc : Bool) (o : IndexOptions) :
    photoCore p ((Index.indexLocation env db m p labels fc o).2.2.1) ∧
    photoDate p ((Index.indexLocation env db m p labels fc o).2.2.1) ∧
    photoLoc p ((Index.indexLocation env db m p labels fc o).2.2.1) ∧
    photoCam p ((Index.indexLocation env db m p labels fc o).2.2.1) := by
  unfold Index.indexLocation photoCore photoDate photoLoc photoCam
  cases env.findLocation <;> simp

lemma indexLocation_title (env : Env) (db : DB) (m : MediaFile) (p : entity.Photo)
    (labels : List classify.Label) (fc : Bool) (o : IndexOptions)
    (h : p.ModifiedTitle = true) :
    ((Index.indexLocation env db m p labels fc o).2.2.1).PhotoTitle = p.PhotoTitle := by
  unfold Index.indexLocation
  cases env.findLocation <;> simp [h]

@[simp] lemma indexLocation_photos (env : Env) (db : DB) (m : MediaFile) (p : entity.Photo)
    (labels : List classify.Label) (fc : Bool) (o : IndexOptions) :
    ((Index.indexLocation env db m p labels fc o).2.2.2.1).photos = db.photos := by
  unfold Index.indexLocation
  cases env.findLocation <;> simp

@[simp] lemma indexLocation_files (env : Env) (db : DB) (m : MediaFile) (p : entity.Photo)
    (labels : List classify.Label) (fc : Bool) (o : IndexOptions) :
    ((Index.indexLocation env db m p labels fc o).2.2.2.1).files = db.files := by
  unfold Index.indexLocation
  cases env.findLocation <;> simp

lemma indexLocation_events (env : Env) (db : DB) (m : MediaFile) (p : entity.Photo)
    (labels : List classify.Label) (fc : Bool) (o : IndexOptions) :
    ∀ h s n b, Event.indexing h s n b ∉ (Index.indexLocation env db m p labels fc o).2.2.2.2 := by
  unfold Index.indexLocation
  intro h s n b
  cases env.findLocation <;> simp

lemma titleFallback_photo (p : entity.Photo) :
    photoCore p (Index.titleFallback p) ∧ photoDate p (Index.titleFallback p) ∧
    photoLoc p (Index.titleFallback p) ∧ photoCam p (Index.titleFallback p) ∧
    (Index.titleFallback p).PhotoYear = p.PhotoYear ∧
    (Index.titleFallback p).PhotoMonth = p.PhotoMonth := by
  unfold Index.titleFallback photoCore photoDate photoLoc photoCam
  simp

lemma indexTitle_photo (env : Env) (m : MediaFile) (p : entity.Photo)
    (labels : List classify.Label) :
    photoCore p (Index.indexTitle env m p labels) ∧
    photoDate p (Index.indexTitle env m p labels) ∧
    photoLoc p (Index.indexTitle env m p labels) ∧
    photoCam p (Index.indexTitle env m p labels) := by
  unfold Index.indexTitle Index.titleFallback photoCore photoDate photoLoc photoCam
  cases labels <;> simp

lemma indexXMP_photo (m : MediaFile) (p : entity.Photo) :
    photoCore p (Index.indexXMP m p) ∧ photoDate p (Index.indexXMP m p) ∧
    photoLoc p (Index.indexXMP m p) ∧ photoCam p (Index.indexXMP m p) := by
  unfold Index.indexXMP photoCore photoDate photoLoc photoCam
  cases m.xmp <;> simp

lemma indexXMP_title (m : MediaFile) (p : entity.Photo) (h : p.ModifiedTitle = true) :
    (Index.indexXMP m p).PhotoTitle = p.PhotoTitle := by
  unfold Index.indexXMP
  cases m.xmp <;> simp [h]

lemma indexKeywords_photo (env : Env) (fileBase filePath : String) (p : entity.Photo)
    (f : entity.File) (kw : List String) (labels : List classify.Label) :
    photoCore p (Index.indexKeywords env fileBase filePath p f kw labels) ∧
    photoDate p (Index.indexKeywords env fileBase filePath p f kw labels) ∧
    photoLoc p (Index.indexKeywords env fileBase filePath p f kw labels) ∧
    photoCam p (Index.indexKeywords env fileBase filePath p f kw labels) ∧
    (Index.indexKeywords env fileBase filePath p f kw labels).PhotoTitle = p.PhotoTitle ∧
    (Index.indexKeywords env fileBase filePath p f kw labels).PhotoYear = p.PhotoYear ∧
    (Index.indexKeywords env fileBase filePath p f kw labels).PhotoMonth = p.PhotoMonth := by
  unfold Index.indexKeywords photoCore photoDate photoLoc photoCam
  simp

lemma estimateLocation_photo (env : Env) (db : DB) (p : entity.Photo) :
    photoCore p (Index.estimateLocation env db p) ∧
    photoDate p (Index.estimateLocation env db p) ∧
    photoLoc p (Index.estimateLocation env db p) ∧
    photoCam p (Index.estimateLocation env db p) ∧
    (Index.estimateLocation env db p).PhotoTitle = p.PhotoTitle ∧
    (Index.estimateLocation env db p).PhotoYear = p.PhotoYear ∧
    (Index.estimateLocation env db p).PhotoMonth = p.PhotoMonth ∧
    (Index.estimateLocation env db p).TakenAt = p.TakenAt := by
  unfold Index.estimateLocation photoCore photoDate photoLoc photoCam
  cases env.recentPhoto db <;> simp

/-! Per-field equations derived from the bundle lemmas, for simp. -/

@[simp] lemma indexExif_eq_ID (m : MediaFile) (p : entity.Photo) (f : entity.File)  :
    ((Index.indexExif m p f).1).ID = p.ID := (indexExif_core m p f).1

@[simp] lemma indexExif_eq_PhotoUUID (m : MediaFile) (p : entity.Photo) (f : entity.File)  :
    ((Index.indexExif m p f).1).PhotoUUID = p.PhotoUUID := (indexExif_core m p f).2.1

@[simp] lemma indexExif_eq_ModifiedTitle (m : MediaFile) (p : entity.Photo) (f : entity.File)  :
    ((Index.indexExif m p f).1).ModifiedTitle = p.ModifiedTitle := (indexExif_core m p f).2.2.1

@[simp] lemma indexExif_eq_ModifiedDate (m : MediaFile) (p : entity.Photo) (f : entity.File)  :
    ((Index.indexExif m p f).1).ModifiedDate = p.ModifiedDate := (indexExif_core m p f).2.2.2.1

@[simp] lemma indexExif_eq_ModifiedLocation (m : MediaFile) (p : entity.Photo) (f : entity.File)  :
    ((Index.indexExif m p f).1).ModifiedLocation = p.ModifiedLocation := (indexExif_core m p f).2.2.2.2.1

@[simp] lemma indexExif_eq_ModifiedCamera (m : MediaFile) (p : entity.Photo) (f : entity.File)  :
    ((Index.indexExif m p f).1).ModifiedCamera = p.ModifiedCamera := (indexExif_core m p f).2.2.2.2.2

@[simp] lemma indexExif_eq_Camera (m : MediaFile) (p : entity.Photo) (f : entity.File)  :
    ((Index.indexExif m p f).1).Camera = p.Camera := (indexExif_cam m p f).1

@[simp] lemma indexExif_eq_Lens (m : MediaFile) (p : entity.Photo) (f : entity.File)  :
    ((Index.indexExif m p f).1).Lens = p.Lens := (indexExif_cam m p f).2.1

@[simp] lemma indexExif_eq_PhotoFocalLength (m : MediaFile) (p : entity.Photo) (f : entity.File)  :
    ((Index.indexExif m p f).1).PhotoFocalLength = p.PhotoFocalLength := (indexExif_cam m p f).2.2.1

@[simp] lemma indexExif_eq_PhotoFNumber (m : MediaFile) (p : entity.Photo) (f : entity.File)  :
    ((Index.indexExif m p f).1).PhotoFNumber = p.PhotoFNumber := (indexExif_cam m p f).2.2.2.1

@[simp] lemma indexExif_eq_PhotoIso (m : MediaFile) (p : entity.Photo) (f : entity.File)  :
    ((Index.indexExif m p f).1).PhotoIso = p.PhotoIso := (indexExif_cam m p f).2.2.2.2.1

@[simp] lemma indexExif_eq_PhotoExposure (m : MediaFile) (p : entity.Photo) (f : entity.File)  :
    ((Index.indexExif m p f).1).PhotoExposure = p.PhotoExposure := (indexExif_cam m p f).2.2.2.2.2

@[simp] lemma indexExifD_eq_TakenAt (m : MediaFile) (p : entity.Photo) (f : entity.File) (h : p.ModifiedDate = true) :
    ((Index.indexExif m p f).1).TakenAt = p.TakenAt := (indexExif_date m p f h).1

@[simp] lemma indexExifD_eq_TakenAtLocal (m : MediaFile) (p : entity.Photo) (f : entity.File) (h : p.ModifiedDate = true) :
    ((Index.indexExif m p f).1).TakenAtLocal = p.TakenAtLocal := (indexExif_date m p f h).2.1

@[simp] lemma indexExifD_eq_TimeZone (m : MediaFile) (p : entity.Photo) (f : entity.File) (h : p.ModifiedDate = true) :
    ((Index.indexExif m p f).1).TimeZone = p.TimeZone := (indexExif_date m p f h).2.2

@[simp] lemma indexExifL_eq_PhotoLat (m : MediaFile) (p : entity.Photo) (f : entity.File) (h : p.ModifiedLocation = true) :
    ((Index.indexExif m p f).1).PhotoLat = p.PhotoLat := (indexExif_loc m p f h).1

@[simp] lemma indexExifL_eq_PhotoLng (m : MediaFile) (p : entity.Photo) (f : entity.File) (h : p.ModifiedLocation = true) :
    ((Index.indexExif m p f).1).PhotoLng = p.PhotoLng := (indexExif_loc m p f h).2.1

@[simp] lemma indexExifL_eq_PhotoAltitude (m : MediaFile) (p : entity.Photo) (f : entity.File) (h : p.ModifiedLocation = true) :
    ((Index.indexExif m p f).1).PhotoAltitude = p.PhotoAltitude := (indexExif_loc m p f h).2.2

@[simp] lemma indexCamera_eq_ID (db : DB) (m : MediaFile) (p : entity.Photo)  :
    ((Index.indexCamera db m p).1).ID = p.ID := ((indexCamera_photo db m p).1).1

@[simp] lemma indexCamera_eq_PhotoUUID (db : DB) (m : MediaFile) (p : entity.Photo)  :
    ((Index.indexCamera db m p).1).PhotoUUID = p.PhotoUUID := ((indexCamera_photo db m p).1).2.1

@[simp] lemma indexCamera_eq_ModifiedTitle (db : DB) (m : MediaFile) (p : entity.Photo)  :
    ((Index.indexCamera db m p).1).ModifiedTitle = p.ModifiedTitle := ((indexCamera_photo db m p).1).2.2.1

@[simp] lemma indexCamera_eq_ModifiedDate (db : DB) (m : MediaFile) (p : entity.Photo)  :
    ((Index.indexCamera db m p).1).ModifiedDate = p.ModifiedDate := ((indexCamera_photo db m p).1).2.2.2.1

@[simp] lemma indexCamera_eq_ModifiedLocation (db : DB) (m : MediaFile) (p : entity.Photo)  :
    ((Index.indexCamera db m p).1).ModifiedLocation = p.ModifiedLocation := ((indexCamera_photo db m p).1).2.2.2.2.1

@[simp] lemma indexCamera_eq_ModifiedCamera (db : DB) (m : MediaFile) (p : entity.Photo)  :
    ((Index.indexCamera db m p).1).ModifiedCamera = p.ModifiedCamera := ((indexCamera_photo db m p).1).2.2.2.2.2

@[simp] lemma indexCamera_eq_TakenAt (db : DB) (m : MediaFile) (p : entity.Photo)  :
    ((Index.indexCamera db m p).1).TakenAt = p.TakenAt := ((indexCamera_photo db m p).2.2.1).1

@[simp] lemma indexCamera_eq_TakenAtLocal (db : DB) (m : MediaFile) (p : entity.Photo)  :
    ((Index.indexCamera db m p).1).TakenAtLocal = p.TakenAtLocal := ((indexCamera_photo db m p).2.2.1).2.1

@[simp] lemma indexCamera_eq_TimeZone (db : DB) (m : MediaFile) (p : entity.Photo)  :
    ((Index.indexCamera db m p).1).TimeZone = p.TimeZone := ((indexCamera_photo db m p).2.2.1).2.2

@[simp] lemma indexCamera_eq_PhotoLat (db : DB) (m : MediaFile) (p : entity.Photo)  :
    ((Index.indexCamera db m p).1).PhotoLat = p.PhotoLat := ((indexCamera_photo db m p).2.2.2).1

@[simp] lemma indexCamera_eq_PhotoLng (db : DB) (m : MediaFile) (p : entity.Photo)  :
    ((Index.indexCamera db m p).1).PhotoLng = p.PhotoLng := ((indexCamera_photo db m p).2.2.2).2.1

@[simp] lemma indexCamera_eq_PhotoAltitude (db : DB) (m : MediaFile) (p : entity.Photo)  :
    ((Index.indexCamera db m p).1).PhotoAltitude = p.PhotoAltitude := ((indexCamera_photo db m p).2.2.2).2.2

@[simp] lemma indexLocation_eq_ID (env : Env) (db : DB) (m : MediaFile) (p : entity.Photo) (labels : List classify.Label) (fc : Bool) (o : IndexOptions)  :
    ((Index.indexLocation env db m p labels fc o).2.2.1).ID = p.ID := ((indexLocation_photo env db m p labels fc o).1).1

@[simp] lemma indexLocation_eq_PhotoUUID (env : Env) (db : DB) (m : MediaFile) (p : entity.Photo) (labels : List classify.Label) (fc : Bool) (o : IndexOptions)  :
    ((Index.indexLocation env db m p labels fc o).2.2.1).PhotoUUID = p.PhotoUUID := ((indexLocation_photo env db m p labels fc o).1).2.1

@[simp] lemma indexLocation_eq_ModifiedTitle (env : Env) (db : DB) (m : MediaFile) (p : entity.Photo) (labels : List classify.Label) (fc : Bool) (o : IndexOptions)  :
    ((Index.indexLocation env db m p labels fc o).2.2.1).ModifiedTitle = p.ModifiedTitle := ((indexLocation_photo env db m p labels fc o).1).2.2.1

@[simp] lemma indexLocation_eq_ModifiedDate (env : Env) (db : DB) (m : MediaFile) (p : entity.Photo) (labels : List classify.Label) (fc : Bool) (o : IndexOptions)  :
    ((Index.indexLocation env db m p labels fc o).2.2.1).ModifiedDate = p.ModifiedDate := ((indexLocation_photo env db m p labels fc o).1).2.2.2.1

@[simp] lemma indexLocation_eq_ModifiedLocation (env : Env) (db : DB) (m : MediaFile) (p : entity.Photo) (labels : List classify.Label) (fc : Bool) (o : IndexOptions)  :
    ((Index.indexLocation env db m p labels fc o).2.2.1).ModifiedLocation = p.ModifiedLocation := ((indexLocation_photo env db m p labels fc o).1).2.2.2.2.1

@[simp] lemma indexLocation_eq_ModifiedCamera (env : Env) (db : DB) (m : MediaFile) (p : entity.Photo) (labels : List classify.Label) (fc : Bool) (o : IndexOptions)  :
    ((Index.indexLocation env db m p labels fc o).2.2.1).ModifiedCamera = p.ModifiedCamera := ((indexLocation_photo env db m p labels fc o).1).2.2.2.2.2

@[simp] lemma indexLocation_eq_TakenAt (env : Env) (db : DB) (m : MediaFile) (p : entity.Photo) (labels : List classify.Label) (fc : Bool) (o : IndexOptions)  :
    ((Index.indexLocation env db m p labels fc o).2.2.1).TakenAt = p.TakenAt := ((indexLocation_photo env db m p labels fc o).2.1).1

@[simp] lemma indexLocation_eq_TakenAtLocal (env : Env) (db : DB) (m : MediaFile) (p : entity.Photo) (labels : List classify.Label) (fc : Bool) (o : IndexOptions)  :
    ((Index.indexLocation env db m p labels fc o).2.2.1).TakenAtLocal = p.TakenAtLocal := ((indexLocation_photo env db m p labels fc o).2.1).2.1

@[simp] lemma indexLocation_eq_TimeZone (env : Env) (db : DB) (m : MediaFile) (p : entity.Photo) (labels : List classify.Label) (fc : Bool) (o : IndexOptions)  :
    ((Index.indexLocation env db m p labels fc o).2.2.1).TimeZone = p.TimeZone := ((indexLocation_photo env db m p labels fc o).2.1).2.2

@[simp] lemma indexLocation_eq_PhotoLat (env : Env) (db : DB) (m : MediaFile) (p : entity.Photo) (labels : List classify.Label) (fc : Bool) (o : IndexOptions)  :
    ((Index.indexLocation env db m p labels fc o).2.2.1).PhotoLat = p.PhotoLat := ((indexLocation_photo env db m p labels fc o).2.2.1).1

@[simp] lemma indexLocation_eq_PhotoLng (env : Env) (db : DB) (m : MediaFile) (p : entity.Photo) (labels : List classify.Label) (fc : Bool) (o : IndexOptions)  :
    ((Index.indexLocation env db m p labels fc o).2.2.1).PhotoLng = p.PhotoLng := ((indexLocation_photo env db m p labels fc o).2.2.1).2.1

@[simp] lemma indexLocation_eq_PhotoAltitude (env : Env) (db : DB) (m : MediaFile) (p : entity.Photo) (labels : List classify.Label) (fc : Bool) (o : IndexOptions)  :
    ((Index.indexLocation env db m p labels fc o).2.2.1).PhotoAltitude = p.PhotoAltitude := ((indexLocation_photo env db m p labels fc o).2.2.1).2.2

@[simp] lemma indexLocation_eq_Camera (env : Env) (db : DB) (m : MediaFile) (p : entity.Photo) (labels : List classify.Label) (fc : Bool) (o : IndexOptions)  :
    ((Index.indexLocation env db m p labels fc o).2.2.1).Camera = p.Camera := ((indexLocation_photo env db m p labels fc o).2.2.2).1

@[simp] lemma indexLocation_eq_Lens (env : Env) (db : DB) (m : MediaFile) (p : entity.Photo) (labels : List classify.Label) (fc : Bool) (o : IndexOptions)  :
    ((Index.indexLocation env db m p labels fc o).2.2.1).Lens = p.Lens := ((indexLocation_photo env db m p labels fc o).2.2.2).2.1

@[simp] lemma indexLocation_eq_PhotoFocalLength (env : Env) (db : DB) (m : MediaFile) (p : entity.Photo) (labels : List classify.Label) (fc : Bool) (o : IndexOptions)  :
    ((Index.indexLocation env db m p labels fc o).2.2.1).PhotoFocalLength = p.PhotoFocalLength := ((indexLocation_photo env db m p labels fc o).2.2.2).2.2.1

@[simp] lemma indexLocation_eq_PhotoFNumber (env : Env) (db : DB) (m : MediaFile) (p : entity.Photo) (labels : List classify.Label) (fc : Bool) (o : IndexOptions)  :
    ((Index.indexLocation env db m p labels fc o).2.2.1).PhotoFNumber = p.PhotoFNumber := ((indexLocation_photo env db m p labels fc o).2.2.2).2.2.2.1

@[simp] lemma indexLocation_eq_PhotoIso (env : Env) (db : DB) (m : MediaFile) (p : entity.Photo) (labels : List classify.Label) (fc : Bool) (o : IndexOptions)  :
    ((Index.indexLocation env db m p labels fc o).2.2.1).PhotoIso = p.PhotoIso := ((indexLocation_photo env db m p labels fc o).2.2.2).2.2.2.2.1

@[simp] lemma indexLocation_eq_PhotoExposure (env : Env) (db : DB) (m : MediaFile) (p : entity.Photo) (labels : List classify.Label) (fc : Bool) (o : IndexOptions)  :
    ((Index.indexLocation env db m p labels fc o).2.2.1).PhotoExposure = p.PhotoExposure := ((indexLocation_photo env db m p labels fc o).2.2.2).2.2.2.2.2

@[simp] lemma indexTitle_eq_ID (env : Env) (m : MediaFile) (p : entity.Photo) (labels : List classify.Label)  :
    (Index.indexTitle env m p labels).ID = p.ID := ((indexTitle_photo env m p labels).1).1

@[simp] lemma indexTitle_eq_PhotoUUID (env : Env) (m : MediaFile) (p : entity.Photo) (labels : List classify.Label)  :
    (Index.indexTitle env m p labels).PhotoUUID = p.PhotoUUID := ((indexTitle_photo env m p labels).1).2.1

@[simp] lemma indexTitle_eq_ModifiedTitle (env : Env) (m : MediaFile) (p : entity.Photo) (labels : List classify.Label)  :
    (Index.indexTitle env m p labels).ModifiedTitle = p.ModifiedTitle := ((indexTitle_photo env m p labels).1).2.2.1

@[simp] lemma indexTitle_eq_ModifiedDate (env : Env) (m : MediaFile) (p : entity.Photo) (labels : List classify.Label)  :
    (Index.indexTitle env m p labels).ModifiedDate = p.ModifiedDate := ((indexTitle_photo env m p labels).1).2.2.2.1

@[simp] lemma indexTitle_eq_ModifiedLocation (env : Env) (m : MediaFile) (p : entity.Photo) (labels : List classify.Label)  :
    (Index.indexTitle env m p labels).ModifiedLocation = p.ModifiedLocation := ((indexTitle_photo env m p labels).1).2.2.2.2.1

@[simp] lemma indexTitle_eq_ModifiedCamera (env : Env) (m : MediaFile) (p : entity.Photo) (labels : List classify.Label)  :
    (Index.indexTitle env m p labels).ModifiedCamera = p.ModifiedCamera := ((indexTitle_photo env m p labels).1).2.2.2.2.2

@[simp] lemma indexTitle_eq_TakenAt (env : Env) (m : MediaFile) (p : entity.Photo) (labels : List classify.Label)  :
    (Index.indexTitle env m p labels).TakenAt = p.TakenAt := ((indexTitle_photo env m p labels).2.1).1

@[simp] lemma indexTitle_eq_TakenAtLocal (env : Env) (m : MediaFile) (p : entity.Photo) (labels : List classify.Label)  :
    (Index.indexTitle env m p labels).TakenAtLocal = p.TakenAtLocal := ((indexTitle_photo env m p labels).2.1).2.1

@[simp] lemma indexTitle_eq_TimeZone (env : Env) (m : MediaFile) (p : entity.Photo) (labels : List classify.Label)  :
    (Index.indexTitle env m p labels).TimeZone = p.TimeZone := ((indexTitle_photo env m p labels).2.1).2.2

@[simp] lemma indexTitle_eq_PhotoLat (env : Env) (m : MediaFile) (p : entity.Photo) (labels : List classify.Label)  :
    (Index.indexTitle env m p labels).PhotoLat = p.PhotoLat := ((indexTitle_photo env m p labels).2.2.1).1

@[simp] lemma indexTitle_eq_PhotoLng (env : Env) (m : MediaFile) (p : entity.Photo) (labels : List classify.Label)  :
    (Index.indexTitle env m p labels).PhotoLng = p.PhotoLng := ((indexTitle_photo env m p labels).2.2.1).2.1

@[simp] lemma indexTitle_eq_PhotoAltitude (env : Env) (m : MediaFile) (p : entity.Photo) (labels : List classify.Label)  :
    (Index.indexTitle env m p labels).PhotoAltitude = p.PhotoAltitude := ((indexTitle_photo env m p labels).2.2.1).2.2

@[simp] lemma indexTitle_eq_Camera (env : Env) (m : MediaFile) (p : entity.Photo) (labels : List classify.Label)  :
    (Index.indexTitle env m p labels).Camera = p.Camera := ((indexTitle_photo env m p labels).2.2.2).1

@[simp] lemma indexTitle_eq_Lens (env : Env) (m : MediaFile) (p : entity.Photo) (labels : List classify.Label)  :
    (Index.indexTitle env m p labels).Lens = p.Lens := ((indexTitle_photo env m p labels).2.2.2).2.1

@[simp] lemma indexTitle_eq_PhotoFocalLength (env : Env) (m : MediaFile) (p : entity.Photo) (labels : List classify.Label)  :
    (Index.indexTitle env m p labels).PhotoFocalLength = p.PhotoFocalLength := ((indexTitle_photo env m p labels).2.2.2).2.2.1

@[simp] lemma indexTitle_eq_PhotoFNumber (env : Env) (m : MediaFile) (p : entity.Photo) (labels : List classify.Label)  :
    (Index.indexTitle env m p labels).PhotoFNumber = p.PhotoFNumber := ((indexTitle_photo env m p labels).2.2.2).2.2.2.1

@[simp] lemma indexTitle_eq_PhotoIso (env : Env) (m : MediaFile) (p : entity.Photo) (labels : List classify.Label)  :
    (Index.indexTitle env m p labels).PhotoIso = p.PhotoIso := ((indexTitle_photo env m p labels).2.2.2).2.2.2.2.1

@[simp] lemma indexTitle_eq_PhotoExposure (env : Env) (m : MediaFile) (p : entity.Photo) (labels : List classify.Label)  :
    (Index.indexTitle env m p labels).PhotoExposure = p.PhotoExposure := ((indexTitle_photo env m p labels).2.2.2).2.2.2.2.2

@[simp] lemma indexXMP_eq_ID (m : MediaFile) (p : entity.Photo)  :
    (Index.indexXMP m p).ID = p.ID := ((indexXMP_photo m p).1).1

@[simp] lemma indexXMP_eq_PhotoUUID (m : MediaFile) (p : entity.Photo)  :
    (Index.indexXMP m p).PhotoUUID = p.PhotoUUID := ((indexXMP_photo m p).1).2.1

@[simp] lemma indexXMP_eq_ModifiedTitle (m : MediaFile) (p : entity.Photo)  :
    (Index.indexXMP m p).ModifiedTitle = p.ModifiedTitle := ((indexXMP_photo m p).1).2.2.1

@[simp] lemma indexXMP_eq_ModifiedDate (m : MediaFile) (p : entity.Photo)  :
    (Index.indexXMP m p).ModifiedDate = p.ModifiedDate := ((indexXMP_photo m p).1).2.2.2.1

@[simp] lemma indexXMP_eq_ModifiedLocation (m : MediaFile) (p : entity.Photo)  :
    (Index.indexXMP m p).ModifiedLocation = p.ModifiedLocation := ((indexXMP_photo m p).1).2.2.2.2.1

@[simp] lemma indexXMP_eq_ModifiedCamera (m : MediaFile) (p : entity.Photo)  :
    (Index.indexXMP m p).ModifiedCamera = p.ModifiedCamera := ((indexXMP_photo m p).1).2.2.2.2.2

@[simp] lemma indexXMP_eq_TakenAt (m : MediaFile) (p : entity.Photo)  :
    (Index.indexXMP m p).TakenAt = p.TakenAt := ((indexXMP_photo m p).2.1).1

@[simp] lemma indexXMP_eq_TakenAtLocal (m : MediaFile) (p : entity.Photo)  :
    (Index.indexXMP m p).TakenAtLocal = p.TakenAtLocal := ((indexXMP_photo m p).2.1).2.1

@[simp] lemma indexXMP_eq_TimeZone (m : MediaFile) (p : entity.Photo)  :
    (Index.indexXMP m p).TimeZone = p.TimeZone := ((indexXMP_photo m p).2.1).2.2

@[simp] lemma indexXMP_eq_PhotoLat (m : MediaFile) (p : entity.Photo)  :
    (Index.indexXMP m p).PhotoLat = p.PhotoLat := ((indexXMP_photo m p).2.2.1).1

@[simp] lemma indexXMP_eq_PhotoLng (m : MediaFile) (p : entity.Photo)  :
    (Index.indexXMP m p).PhotoLng = p.PhotoLng := ((indexXMP_photo m p).2.2.1).2.1

@[simp] lemma indexXMP_eq_PhotoAltitude (m : MediaFile) (p : entity.Photo)  :
    (Index.indexXMP m p).PhotoAltitude = p.PhotoAltitude := ((indexXMP_photo m p).2.2.1).2.2

@[simp] lemma indexXMP_eq_Camera (m : MediaFile) (p : entity.Photo)  :
    (Index.indexXMP m p).Camera = p.Camera := ((indexXMP_photo m p).2.2.2).1

@[simp] lemma indexXMP_eq_Lens (m : MediaFile) (p : entity.Photo)  :
    (Index.indexXMP m p).Lens = p.Lens := ((indexXMP_photo m p).2.2.2).2.1

@[simp] lemma indexXMP_eq_PhotoFocalLength (m : MediaFile) (p : entity.Photo)  :
    (Index.indexXMP m p).PhotoFocalLength = p.PhotoFocalLength := ((indexXMP_photo m p).2.2.2).2.2.1

@[simp] lemma indexXMP_eq_PhotoFNumber (m : MediaFile) (p : entity.Photo)  :
    (Index.indexXMP m p).PhotoFNumber = p.PhotoFNumber := ((indexXMP_photo m p).2.2.2).2.2.2.1

@[simp] lemma indexXMP_eq_PhotoIso (m : MediaFile) (p : entity.Photo)  :
    (Index.indexXMP m p).PhotoIso = p.PhotoIso := ((indexXMP_photo m p).2.2.2).2.2.2.2.1

@[simp] lemma indexXMP_eq_PhotoExposure (m : MediaFile) (p : entity.Photo)  :
    (Index.indexXMP m p).PhotoExposure = p.PhotoExposure := ((indexXMP_photo m p).2.2.2).2.2.2.2.2

@[simp] lemma indexKeywords_eq_ID (env : Env) (fb fp : String) (p : entity.Photo) (f : entity.File) (kw : List String) (labels : List classify.Label)  :
    (Index.indexKeywords env fb fp p f kw labels).ID = p.ID := ((indexKeywords_photo env fb fp p f kw labels).1).1

@[simp] lemma indexKeywords_eq_PhotoUUID (env : Env) (fb fp : String) (p : entity.Photo) (f : entity.File) (kw : List String) (labels : List classify.Label)  :
    (Index.indexKeywords env fb fp p f kw labels).PhotoUUID = p.PhotoUUID := ((indexKeywords_photo env fb fp p f kw labels).1).2.1

@[simp] lemma indexKeywords_eq_ModifiedTitle (env : Env) (fb fp : String) (p : entity.Photo) (f : entity.File) (kw : List String) (labels : List classify.Label)  :
    (Index.indexKeywords env fb fp p f kw labels).ModifiedTitle = p.ModifiedTitle := ((indexKeywords_photo env fb fp p f kw labels).1).2.2.1

@[simp] lemma indexKeywords_eq_ModifiedDate (env : Env) (fb fp : String) (p : entity.Photo) (f : entity.File) (kw : List String) (labels : List classify.Label)  :
    (Index.indexKeywords env fb fp p f kw labels).ModifiedDate = p.ModifiedDate := ((indexKeywords_photo env fb fp p f kw labels).1).2.2.2.1

@[simp] lemma indexKeywords_eq_ModifiedLocation (env : Env) (fb fp : String) (p : entity.Photo) (f : entity.File) (kw : List String) (labels : List classify.Label)  :
    (Index.indexKeywords env fb fp p f kw labels).ModifiedLocation = p.ModifiedLocation := ((indexKeywords_photo env fb fp p f kw labels).1).2.2.2.2.1

@[simp] lemma indexKeywords_eq_ModifiedCamera (env : Env) (fb fp : String) (p : entity.Photo) (f : entity.File) (kw : List String) (labels : List classify.Label)  :
    (Index.indexKeywords env fb fp p f kw labels).ModifiedCamera = p.ModifiedCamera := ((indexKeywords_photo env fb fp p f kw labels).1).2.2.2.2.2

@[simp] lemma indexKeywords_eq_TakenAt (env : Env) (fb fp : String) (p : entity.Photo) (f : entity.File) (kw : List String) (labels : List classify.Label)  :
    (Index.indexKeywords env fb fp p f kw labels).TakenAt = p.TakenAt := ((indexKeywords_photo env fb fp p f kw labels).2.1).1

@[simp] lemma indexKeywords_eq_TakenAtLocal (env : Env) (fb fp : String) (p : entity.Photo) (f : entity.File) (kw : List String) (labels : List classify.Label)  :
    (Index.indexKeywords env fb fp p f kw labels).TakenAtLocal = p.TakenAtLocal := ((indexKeywords_photo env fb fp p f kw labels).2.1).2.1

@[simp] lemma indexKeywords_eq_TimeZone (env : Env) (fb fp : String) (p : entity.Photo) (f : entity.File) (kw : List String) (labels : List classify.Label)  :
    (Index.indexKeywords env fb fp p f kw labels).TimeZone = p.TimeZone := ((indexKeywords_photo env fb fp p f kw labels).2.1).2.2

@[simp] lemma indexKeywords_eq_PhotoLat (env : Env) (fb fp : String) (p : entity.Photo) (f : entity.File) (kw : List String) (labels : List classify.Label)  :
    (Index.indexKeywords env fb fp p f kw labels).PhotoLat = p.PhotoLat := ((indexKeywords_photo env fb fp p f kw labels).2.2.1).1

@[simp] lemma indexKeywords_eq_PhotoLng (env : Env) (fb fp : String) (p : entity.Photo) (f : entity.File) (kw : List String) (labels : List classify.Label)  :
    (Index.indexKeywords env fb fp p f kw labels).PhotoLng = p.PhotoLng := ((indexKeywords_photo env fb fp p f kw labels).2.2.1).2.1

@[simp] lemma indexKeywords_eq_PhotoAltitude (env : Env) (fb fp : String) (p : entity.Photo) (f : entity.File) (kw : List String) (labels : List classify.Label)  :
    (Index.indexKeywords env fb fp p f kw labels).PhotoAltitude = p.PhotoAltitude := ((indexKeywords_photo env fb fp p f kw labels).2.2.1).2.2

@[simp] lemma indexKeywords_eq_Camera (env : Env) (fb fp : String) (p : entity.Photo) (f : entity.File) (kw : List String) (labels : List classify.Label)  :
    (Index.indexKeywords env fb fp p f kw labels).Camera = p.Camera := ((indexKeywords_photo env fb fp p f kw labels).2.2.2.1).1

@[simp] lemma indexKeywords_eq_Lens (env : Env) (fb fp : String) (p : entity.Photo) (f : entity.File) (kw : List String) (labels : List classify.Label)  :
    (Index.indexKeywords env fb fp p f kw labels).Lens = p.Lens := ((indexKeywords_photo env fb fp p f kw labels).2.2.2.1).2.1

@[simp] lemma indexKeywords_eq_PhotoFocalLength (env : Env) (fb fp : String) (p : entity.Photo) (f : entity.File) (kw : List String) (labels : List classify.Label)  :
    (Index.indexKeywords env fb fp p f kw labels).PhotoFocalLength = p.PhotoFocalLength := ((indexKeywords_photo env fb fp p f kw labels).2.2.2.1).2.2.1

@[simp] lemma indexKeywords_eq_PhotoFNumber (env : Env) (fb fp : String) (p : entity.Photo) (f : entity.File) (kw : List String) (labels : List classify.Label)  :
    (Index.indexKeywords env fb fp p f kw labels).PhotoFNumber = p.PhotoFNumber := ((indexKeywords_photo env fb fp p f kw labels).2.2.2.1).2.2.2.1

@[simp] lemma indexKeywords_eq_PhotoIso (env : Env) (fb fp : String) (p : entity.Photo) (f : entity.File) (kw : List String) (labels : List classify.Label)  :
    (Index.indexKeywords env fb fp p f kw labels).PhotoIso = p.PhotoIso := ((indexKeywords_photo env fb fp p f kw labels).2.2.2.1).2.2.2.2.1

@[simp] lemma indexKeywords_eq_PhotoExposure (env : Env) (fb fp : String) (p : entity.Photo) (f : entity.File) (kw : List String) (labels : List classify.Label)  :
    (Index.indexKeywords env fb fp p f kw labels).PhotoExposure = p.PhotoExposure := ((indexKeywords_photo env fb fp p f kw labels).2.2.2.1).2.2.2.2.2

@[simp] lemma estimateLocation_eq_ID (env : Env) (db : DB) (p : entity.Photo)  :
    (Index.estimateLocation env db p).ID = p.ID := ((estimateLocation_photo env db p).1).1

@[simp] lemma estimateLocation_eq_PhotoUUID (env : Env) (db : DB) (p : entity.Photo)  :
    (Index.estimateLocation env db p).PhotoUUID = p.PhotoUUID := ((estimateLocation_photo env db p).1).2.1

@[simp] lemma estimateLocation_eq_ModifiedTitle (env : Env) (db : DB) (p : entity.Photo)  :
    (Index.estimateLocation env db p).ModifiedTitle = p.ModifiedTitle := ((estimateLocation_photo env db p).1).2.2.1

@[simp] lemma estimateLocation_eq_ModifiedDate (env : Env) (db : DB) (p : entity.Photo)  :
    (Index.estimateLocation env db p).ModifiedDate = p.ModifiedDate := ((estimateLocation_photo env db p).1).2.2.2.1

@[simp] lemma estimateLocation_eq_ModifiedLocation (env : Env) (db : DB) (p : entity.Photo)  :
    (Index.estimateLocation env db p).ModifiedLocation = p.ModifiedLocation := ((estimateLocation_photo env db p).1).2.2.2.2.1

@[simp] lemma estimateLocation_eq_ModifiedCamera (env : Env) (db : DB) (p : entity.Photo)  :
    (Index.estimateLocation env db p).ModifiedCamera = p.ModifiedCamera := ((estimateLocation_photo env db p).1).2.2.2.2.2

@[simp] lemma estimateLocation_eq_TakenAt (env : Env) (db : DB) (p : entity.Photo)  :
    (Index.estimateLocation env db p).TakenAt = p.TakenAt := ((estimateLocation_photo env db p).2.1).1

@[simp] lemma estimateLocation_eq_TakenAtLocal (env : Env) (db : DB) (p : entity.Photo)  :
    (Index.estimateLocation env db p).TakenAtLocal = p.TakenAtLocal := ((estimateLocation_photo env db p).2.1).2.1

@[simp] lemma estimateLocation_eq_TimeZone (env : Env) (db : DB) (p : entity.Photo)  :
    (Index.estimateLocation env db p).TimeZone = p.TimeZone := ((estimateLocation_photo env db p).2.1).2.2

@[simp] lemma estimateLocation_eq_PhotoLat (env : Env) (db : DB) (p : entity.Photo)  :
    (Index.estimateLocation env db p).PhotoLat = p.PhotoLat := ((estimateLocation_photo env db p).2.2.1).1

@[simp] lemma estimateLocation_eq_PhotoLng (env : Env) (db : DB) (p : entity.Photo)  :
    (Index.estimateLocation env db p).PhotoLng = p.PhotoLng := ((estimateLocation_photo env db p).2.2.1).2.1

@[simp] lemma estimateLocation_eq_PhotoAltitude (env : Env) (db : DB) (p : entity.Photo)  :
    (Index.estimateLocation env db p).PhotoAltitude = p.PhotoAltitude := ((estimateLocation_photo env db p).2.2.1).2.2

@[simp] lemma estimateLocation_eq_Camera (env : Env) (db : DB) (p : entity.Photo)  :
    (Index.estimateLocation env db p).Camera = p.Camera := ((estimateLocation_photo env db p).2.2.2.1).1

@[simp] lemma estimateLocation_eq_Lens (env : Env) (db : DB) (p : entity.Photo)  :
    (Index.estimateLocation env db p).Lens = p.Lens := ((estimateLocation_photo env db p).2.2.2.1).2.1

@[simp] lemma estimateLocation_eq_PhotoFocalLength (env : Env) (db : DB) (p : entity.Photo)  :
    (Index.estimateLocation env db p).PhotoFocalLength = p.PhotoFocalLength := ((estimateLocation_photo env db p).2.2.2.1).2.2.1

@[simp] lemma estimateLocation_eq_PhotoFNumber (env : Env) (db : DB) (p : entity.Photo)  :
    (Index.estimateLocation env db p).PhotoFNumber = p.PhotoFNumber := ((estimateLocation_photo env db p).2.2.2.1).2.2.2.1

@[simp] lemma estimateLocation_eq_PhotoIso (env : Env) (db : DB) (p : entity.Photo)  :
    (Index.estimateLocation env db p).PhotoIso = p.PhotoIso := ((estimateLocation_photo env db p).2.2.2.1).2.2.2.2.1

@[simp] lemma estimateLocation_eq_PhotoExposure (env : Env) (db : DB) (p : entity.Photo)  :
    (Index.estimateLocation env db p).PhotoExposure = p.PhotoExposure := ((estimateLocation_photo env db p).2.2.2.1).2.2.2.2.2

@[simp] lemma indexKeywords_eq_PhotoTitle (env : Env) (fb fp : String) (p : entity.Photo)
    (f : entity.File) (kw : List String) (labels : List classify.Label) :
    (Index.indexKeywords env fb fp p f kw labels).PhotoTitle = p.PhotoTitle :=
  (indexKeywords_photo env fb fp p f kw labels).2.2.2.2.1

@[simp] lemma indexKeywords_eq_PhotoYear (env : Env) (fb fp : String) (p : entity.Photo)
    (f : entity.File) (kw : List String) (labels : List classify.Label) :
    (Index.indexKeywords env fb fp p f kw labels).PhotoYear = p.PhotoYear :=
  (indexKeywords_photo env fb fp p f kw labels).2.2.2.2.2.1

@[simp] lemma indexKeywords_eq_PhotoMonth (env : Env) (fb fp : String) (p : entity.Photo)
    (f : entity.File) (kw : List String) (labels : List classify.Label) :
    (Index.indexKeywords env fb fp p f kw labels).PhotoMonth = p.PhotoMonth :=
  (indexKeywords_photo env fb fp p f kw labels).2.2.2.2.2.2

@[simp] lemma estimateLocation_eq_PhotoTitle (env : Env) (db : DB) (p : entity.Photo) :
    (Index.estimateLocation env db p).PhotoTitle = p.PhotoTitle :=
  (estimateLocation_photo env db p).2.2.2.2.1

@[simp] lemma estimateLocation_eq_PhotoYear (env : Env) (db : DB) (p : entity.Photo) :
    (Index.estimateLocation env db p).PhotoYear = p.PhotoYear :=
  (estimateLocation_photo env db p).2.2.2.2.2.1

@[simp] lemma estimateLocation_eq_PhotoMonth (env : Env) (db : DB) (p : entity.Photo) :
    (Index.estimateLocation env db p).PhotoMonth = p.PhotoMonth :=
  (estimateLocation_photo env db p).2.2.2.2.2.2.1

@[simp] lemma indexExif_file_ID (m : MediaFile) (p : entity.Photo) (f : entity.File) :
    ((Index.indexExif m p f).2).ID = f.ID := (indexExif_file_core m p f).1

@[simp] lemma indexExif_file_Primary (m : MediaFile) (p : entity.Photo) (f : entity.File) :
    ((Index.indexExif m p f).2).FilePrimary = f.FilePrimary := (indexExif_file_core m p f).2

@[simp] lemma indexCamera_eq_PhotoTitle (db : DB) (m : MediaFile) (p : entity.Photo) :
    ((Index.indexCamera db m p).1).PhotoTitle = p.PhotoTitle := (indexCamera_photo db m p).2.1


@[simp] lemma DB.ite_photos (c : Prop) [Decidable c] (a b : DB) :
    (if c then a else b).photos = if c then a.photos else b.photos := apply_ite _ c a b

@[simp] lemma DB.ite_files (c : Prop) [Decidable c] (a b : DB) :
    (if c then a else b).files = if c then a.files else b.files := apply_ite _ c a b

@[simp] lemma DB.ite_photoLabels (c : Prop) [Decidable c] (a b : DB) :
    (if c then a else b).photoLabels = if c then a.photoLabels else b.photoLabels :=
  apply_ite _ c a b

lemma indexPrimary_core (env : Env) (db : DB) (m : MediaFile) (o : IndexOptions)
    (p : entity.Photo) (f : entity.File) (fc : Bool) :
    photoCore p (Index.indexPrimary env db m o p f fc).1 := by
  unfold Index.indexPrimary photoCore
  simp

lemma indexPrimary_title (env : Env) (db : DB) (m : MediaFile) (o : IndexOptions)
    (p : entity.Photo) (f : entity.File) (fc : Bool)
    (hMT : p.ModifiedTitle = true) (hTit : ¬ p.PhotoTitle = "") :
    ((Index.indexPrimary env db m o p f fc).1).PhotoTitle = p.PhotoTitle := by
  unfold Index.indexPrimary
  simp [indexExif_title, indexLocation_title, entity.Photo.NoTitle, hMT, hTit]

lemma indexPrimary_date (env : Env) (db : DB) (m : MediaFile) (o : IndexOptions)
    (p : entity.Photo) (f : entity.File) (fc : Bool)
    (hMD : p.ModifiedDate = true) (hz1 : p.TakenAt.zero = false)
    (hz2 : p.TakenAtLocal.zero = false) :
    photoDate p (Index.indexPrimary env db m o p f fc).1 := by
  unfold Index.indexPrimary photoDate
  simp [hMD, hz1, hz2]

lemma indexPrimary_loc (env : Env) (db : DB) (m : MediaFile) (o : IndexOptions)
    (p : entity.Photo) (f : entity.File) (fc : Bool)
    (hML : p.ModifiedLocation = true) :
    photoLoc p (Index.indexPrimary env db m o p f fc).1 := by
  unfold Index.indexPrimary photoLoc
  simp [hML]

lemma indexPrimary_cam (env : Env) (db : DB) (m : MediaFile) (o : IndexOptions)
    (p : entity.Photo) (f : entity.File) (fc : Bool)
    (hMC : p.ModifiedCamera = true) :
    photoCam p (Index.indexPrimary env db m o p f fc).1 := by
  unfold Index.indexPrimary photoCam
  simp [hMC]

lemma indexPrimary_file (env : Env) (db : DB) (m : MediaFile) (o : IndexOptions)
    (p : entity.Photo) (f : entity.File) (fc : Bool) :
    ((Index.indexPrimary env db m o p f fc).2.1).ID = f.ID ∧
    ((Index.indexPrimary env db m o p f fc).2.1).FilePrimary = f.FilePrimary := by
  unfold Index.indexPrimary
  simp

@[simp] lemma indexPrimary_fileUUID (env : Env) (db : DB) (m : MediaFile) (o : IndexOptions)
    (p : entity.Photo) (f : entity.File) (fc : Bool)
    (hU : shortUID m) :
    ((Index.indexPrimary env db m o p f fc).2.1).FileUUID = f.FileUUID := by
  unfold Index.indexPrimary
  simp [hU]

lemma indexPrimary_db (env : Env) (db : DB) (m : MediaFile) (o : IndexOptions)
    (p : entity.Photo) (f : entity.File) (fc : Bool) :
    ((Index.indexPrimary env db m o p f fc).2.2.2.2.1).photos = db.photos ∧
    ((Index.indexPrimary env db m o p f fc).2.2.2.2.1).files = db.files := by
  unfold Index.indexPrimary
  simp

lemma indexPrimary_events (env : Env) (db : DB) (m : MediaFile) (o : IndexOptions)
    (p : entity.Photo) (f : entity.File) (fc : Bool) :
    ∀ h s n b, Event.indexing h s n b ∉ (Index.indexPrimary env db m o p f fc).2.2.2.2.2 := by
  intro h s n b
  unfold Index.indexPrimary
  simp only []
  split
  · exact indexLocation_events env _ m _ _ fc o h s n b
  · simp

@[simp] lemma indexPrimary_eq_ID (env : Env) (db : DB) (m : MediaFile) (o : IndexOptions) (p : entity.Photo) (f : entity.File) (fc : Bool)  :
    ((Index.indexPrimary env db m o p f fc).1).ID = p.ID := (indexPrimary_core env db m o p f fc).1

@[simp] lemma indexPrimary_eq_PhotoUUID (env : Env) (db : DB) (m : MediaFile) (o : IndexOptions) (p : entity.Photo) (f : entity.File) (fc : Bool)  :
    ((Index.indexPrimary env db m o p f fc).1).PhotoUUID = p.PhotoUUID := (indexPrimary_core env db m o p f fc).2.1

@[simp] lemma indexPrimary_eq_ModifiedTitle (env : Env) (db : DB) (m : MediaFile) (o : IndexOptions) (p : entity.Photo) (f : entity.File) (fc : Bool)  :
    ((Index.indexPrimary env db m o p f fc).1).ModifiedTitle = p.ModifiedTitle := (indexPrimary_core env db m o p f fc).2.2.1

@[simp] lemma indexPrimary_eq_ModifiedDate (env : Env) (db : DB) (m : MediaFile) (o : IndexOptions) (p : entity.Photo) (f : entity.File) (fc : Bool)  :
    ((Index.indexPrimary env db m o p f fc).1).ModifiedDate = p.ModifiedDate := (indexPrimary_core env db m o p f fc).2.2.2.1

@[simp] lemma indexPrimary_eq_ModifiedLocation (env : Env) (db : DB) (m : MediaFile) (o : IndexOptions) (p : entity.Photo) (f : entity.File) (fc : Bool)  :
    ((Index.indexPrimary env db m o p f fc).1).ModifiedLocation = p.ModifiedLocation := (indexPrimary_core env db m o p f fc).2.2.2.2.1

@[simp] lemma indexPrimary_eq_ModifiedCamera (env : Env) (db : DB) (m : MediaFile) (o : IndexOptions) (p : entity.Photo) (f : entity.File) (fc : Bool)  :
    ((Index.indexPrimary env db m o p f fc).1).ModifiedCamera = p.ModifiedCamera := (indexPrimary_core env db m o p f fc).2.2.2.2.2

@[simp] lemma indexPrimaryD_eq_TakenAt (env : Env) (db : DB) (m : MediaFile) (o : IndexOptions) (p : entity.Photo) (f : entity.File) (fc : Bool) (h : p.ModifiedDate = true) (h1 : p.TakenAt.zero = false) (h2 : p.TakenAtLocal.zero = false) :
    ((Index.indexPrimary env db m o p f fc).1).TakenAt = p.TakenAt := (indexPrimary_date env db m o p f fc h h1 h2).1

@[simp] lemma indexPrimaryD_eq_TakenAtLocal (env : Env) (db : DB) (m : MediaFile) (o : IndexOptions) (p : entity.Photo) (f : entity.File) (fc : Bool) (h : p.ModifiedDate = true) (h1 : p.TakenAt.zero = false) (h2 : p.TakenAtLocal.zero = false) :
    ((Index.indexPrimary env db m o p f fc).1).TakenAtLocal = p.TakenAtLocal := (indexPrimary_date env db m o p f fc h h1 h2).2.1

@[simp] lemma indexPrimaryD_eq_TimeZone (env : Env) (db : DB) (m : MediaFile) (o : IndexOptions) (p : entity.Photo) (f : entity.File) (fc : Bool) (h : p.ModifiedDate = true) (h1 : p.TakenAt.zero = false) (h2 : p.TakenAtLocal.zero = false) :
    ((Index.indexPrimary env db m o p f fc).1).TimeZone = p.TimeZone := (indexPrimary_date env db m o p f fc h h1 h2).2.2

@[simp] lemma indexPrimaryL_eq_PhotoLat (env : Env) (db : DB) (m : MediaFile) (o : IndexOptions) (p : entity.Photo) (f : entity.File) (fc : Bool) (h : p.ModifiedLocation = true) :
    ((Index.indexPrimary env db m o p f fc).1).PhotoLat = p.PhotoLat := (indexPrimary_loc env db m o p f fc h).1

@[simp] lemma indexPrimaryL_eq_PhotoLng (env : Env) (db : DB) (m : MediaFile) (o : IndexOptions) (p : entity.Photo) (f : entity.File) (fc : Bool) (h : p.ModifiedLocation = true) :
    ((Index.indexPrimary env db m o p f fc).1).PhotoLng = p.PhotoLng := (indexPrimary_loc env db m o p f fc h).2.1

@[simp] lemma indexPrimaryL_eq_PhotoAltitude (env : Env) (db : DB) (m : MediaFile) (o : IndexOptions) (p : entity.Photo) (f : entity.File) (fc : Bool) (h : p.ModifiedLocation = true) :
    ((Index.indexPrimary env db m o p f fc).1).PhotoAltitude = p.PhotoAltitude := (indexPrimary_loc env db m o p f fc h).2.2

@[simp] lemma indexPrimaryC_eq_Camera (env : Env) (db : DB) (m : MediaFile) (o : IndexOptions) (p : entity.Photo) (f : entity.File) (fc : Bool) (h : p.ModifiedCamera = true) :
    ((Index.indexPrimary env db m o p f fc).1).Camera = p.Camera := (indexPrimary_cam env db m o p f fc h).1

@[simp] lemma indexPrimaryC_eq_Lens (env : Env) (db : DB) (m : MediaFile) (o : IndexOptions) (p : entity.Photo) (f : entity.File) (fc : Bool) (h : p.ModifiedCamera = true) :
    ((Index.indexPrimary env db m o p f fc).1).Lens = p.Lens := (indexPrimary_cam env db m o p f fc h).2.1

@[simp] lemma indexPrimaryC_eq_PhotoFocalLength (env : Env) (db : DB) (m : MediaFile) (o : IndexOptions) (p : entity.Photo) (f : entity.File) (fc : Bool) (h : p.ModifiedCamera = true) :
    ((Index.indexPrimary env db m o p f fc).1).PhotoFocalLength = p.PhotoFocalLength := (indexPrimary_cam env db m o p f fc h).2.2.1

@[simp] lemma indexPrimaryC_eq_PhotoFNumber (env : Env) (db : DB) (m : MediaFile) (o : IndexOptions) (p : entity.Photo) (f : entity.File) (fc : Bool) (h : p.ModifiedCamera = true) :
    ((Index.indexPrimary env db m o p f fc).1).PhotoFNumber = p.PhotoFNumber := (indexPrimary_cam env db m o p f fc h).2.2.2.1

@[simp] lemma indexPrimaryC_eq_PhotoIso (env : Env) (db : DB) (m : MediaFile) (o : IndexOptions) (p : entity.Photo) (f : entity.File) (fc : Bool) (h : p.ModifiedCamera = true) :
    ((Index.indexPrimary env db m o p f fc).1).PhotoIso = p.PhotoIso := (indexPrimary_cam env db m o p f fc h).2.2.2.2.1

@[simp] lemma indexPrimaryC_eq_PhotoExposure (env : Env) (db : DB) (m : MediaFile) (o : IndexOptions) (p : entity.Photo) (f : entity.File) (fc : Bool) (h : p.ModifiedCamera = true) :
    ((Index.indexPrimary env db m o p f fc).1).PhotoExposure = p.PhotoExposure := (indexPrimary_cam env db m o p f fc h).2.2.2.2.2

@[simp] lemma indexPrimary_file_ID (env : Env) (db : DB) (m : MediaFile) (o : IndexOptions)
    (p : entity.Photo) (f : entity.File) (fc : Bool) :
    ((Index.indexPrimary env db m o p f fc).2.1).ID = f.ID :=
  (indexPrimary_file env db m o p f fc).1

@[simp] lemma indexPrimary_file_Primary (env : Env) (db : DB) (m : MediaFile)
    (o : IndexOptions) (p : entity.Photo) (f : entity.File) (fc : Bool) :
    ((Index.indexPrimary env db m o p f fc).2.1).FilePrimary = f.FilePrimary :=
  (indexPrimary_file env db m o p f fc).2

@[simp] lemma indexPrimary_db_photos (env : Env) (db : DB) (m : MediaFile)
    (o : IndexOptions) (p : entity.Photo) (f : entity.File) (fc : Bool) :
    ((Index.indexPrimary env db m o p f fc).2.2.2.2.1).photos = db.photos :=
  (indexPrimary_db env db m o p f fc).1

@[simp] lemma indexPrimary_db_files (env : Env) (db : DB) (m : MediaFile)
    (o : IndexOptions) (p : entity.Photo) (f : entity.File) (fc : Bool) :
    ((Index.indexPrimary env db m o p f fc).2.2.2.2.1).files = db.files :=
  (indexPrimary_db env db m o p f fc).2

/-- The primary election as a boolean formula over the inputs. -/
lemma electPrimary_FilePrimary (db : DB) (m : MediaFile) (q : entity.Photo)
    (f : entity.File) (pe : Bool) :
    (Index.electPrimary db m q f pe).FilePrimary =
      (f.FilePrimary || (m.isJpeg && (!pe || (db.firstPrimaryJpgFile q.ID).isNone))) := by
  unfold Index.electPrimary
  cases hf : f.FilePrimary with
  | true => simp [hf]
  | false =>
    cases pe with
    | false => simp [hf]
    | true => cases hq : db.firstPrimaryJpgFile q.ID <;> simp [hf, hq]

@[simp] lemma electPrimary_eq_ID (db : DB) (m : MediaFile) (q : entity.Photo)
    (f : entity.File) (pe : Bool) :
    (Index.electPrimary db m q f pe).ID = f.ID := by
  unfold Index.electPrimary
  cases f.FilePrimary with
  | true => simp
  | false => cases pe with
    | false => simp
    | true => cases db.firstPrimaryJpgFile q.ID <;> simp

@[simp] lemma electPrimary_eq_FileUUID (db : DB) (m : MediaFile) (q : entity.Photo)
    (f : entity.File) (pe : Bool) :
    (Index.electPrimary db m q f pe).FileUUID = f.FileUUID := by
  unfold Index.electPrimary
  cases f.FilePrimary with
  | true => simp
  | false => cases pe with
    | false => simp
    | true => cases db.firstPrimaryJpgFile q.ID <;> simp

lemma zeroAdopt (q : entity.Photo) (d : GoTime) :
    ((if q.TakenAt.zero || q.TakenAtLocal.zero then
        { q with TakenAt := d, TakenAtLocal := d } else q).TakenAt.zero = true ∨
     (if q.TakenAt.zero || q.TakenAtLocal.zero then
        { q with TakenAt := d, TakenAtLocal := d } else q).TakenAtLocal.zero = true) →
    (if q.TakenAt.zero || q.TakenAtLocal.zero then
        { q with TakenAt := d, TakenAtLocal := d } else q).TakenAt = d ∧
    (if q.TakenAt.zero || q.TakenAtLocal.zero then
        { q with TakenAt := d, TakenAtLocal := d } else q).TakenAtLocal = d := by
  by_cases h : (q.TakenAt.zero || q.TakenAtLocal.zero) = true
  · simp [h]
  · rw [if_neg h]
    intro hc
    exfalso
    simp only [Bool.or_eq_true, not_or, Bool.not_eq_true] at h
    rcases hc with hc | hc
    · rw [h.1] at hc; exact Bool.false_ne_true hc
    · rw [h.2] at hc; exact Bool.false_ne_true hc

lemma indexPrimary_zeroDate (env : Env) (db : DB) (m : MediaFile) (o : IndexOptions)
    (p : entity.Photo) (f : entity.File) (fc : Bool) :
    ((Index.indexPrimary env db m o p f fc).1.TakenAt.zero = true ∨
     (Index.indexPrimary env db m o p f fc).1.TakenAtLocal.zero = true) →
    (Index.indexPrimary env db m o p f fc).1.TakenAt = m.dateCreated ∧
    (Index.indexPrimary env db m o p f fc).1.TakenAtLocal = m.dateCreated := by
  unfold Index.indexPrimary
  simp only []
  exact zeroAdopt _ _

lemma indexUpdates_core (env : Env) (db : DB) (m : MediaFile) (o : IndexOptions)
    (n : String) (p : entity.Photo) (f : entity.File) (fh : String) (fc pe : Bool) :
    photoCore p (Index.indexUpdates env db m o n p f fh fc pe).1 := by
  unfold Index.indexUpdates photoCore
  cases m.colors <;> simp

lemma indexUpdates_title (env : Env) (db : DB) (m : MediaFile) (o : IndexOptions)
    (n : String) (p : entity.Photo) (f : entity.File) (fh : String) (fc pe : Bool)
    (hMT : p.ModifiedTitle = true) (hTit : ¬ p.PhotoTitle = "") :
    ((Index.indexUpdates env db m o n p f fh fc pe).1).PhotoTitle = p.PhotoTitle := by
  unfold Index.indexUpdates
  cases m.colors <;> simp [indexPrimary_title, indexXMP_title, hMT, hTit]

lemma indexUpdates_date (env : Env) (db : DB) (m : MediaFile) (o : IndexOptions)
    (n : String) (p : entity.Photo) (f : entity.File) (fh : String) (fc pe : Bool)
    (hMD : p.ModifiedDate = true) (hz1 : p.TakenAt.zero = false)
    (hz2 : p.TakenAtLocal.zero = false) :
    photoDate p (Index.indexUpdates env db m o n p f fh fc pe).1 := by
  unfold Index.indexUpdates photoDate
  cases m.colors <;> simp [hMD, hz1, hz2]

lemma indexUpdates_loc (env : Env) (db : DB) (m : MediaFile) (o : IndexOptions)
    (n : String) (p : entity.Photo) (f : entity.File) (fh : String) (fc pe : Bool)
    (hML : p.ModifiedLocation = true) :
    photoLoc p (Index.indexUpdates env db m o n p f fh fc pe).1 := by
  unfold Index.indexUpdates photoLoc
  cases m.colors <;> simp [hML]

lemma indexUpdates_cam (env : Env) (db : DB) (m : MediaFile) (o : IndexOptions)
    (n : String) (p : entity.Photo) (f : entity.File) (fh : String) (fc pe : Bool)
    (hMC : p.ModifiedCamera = true) :
    photoCam p (Index.indexUpdates env db m o n p f fh fc pe).1 := by
  unfold Index.indexUpdates photoCam
  cases m.colors <;> simp [hMC]

lemma indexUpdates_file_ID (env : Env) (db : DB) (m : MediaFile) (o : IndexOptions)
    (n : String) (p : entity.Photo) (f : entity.File) (fh : String) (fc pe : Bool) :
    ((Index.indexUpdates env db m o n p f fh fc pe).2.1).ID = f.ID := by
  unfold Index.indexUpdates
  cases m.colors <;> simp

lemma indexUpdates_fileUUID (env : Env) (db : DB) (m : MediaFile) (o : IndexOptions)
    (n : String) (p : entity.Photo) (f : entity.File) (fh : String) (fc pe : Bool)
    (hU : shortUID m) :
    ((Index.indexUpdates env db m o n p f fh fc pe).2.1).FileUUID = f.FileUUID := by
  unfold Index.indexUpdates
  cases m.colors <;> simp [hU]

lemma indexUpdates_filePrimary (env : Env) (db : DB) (m : MediaFile) (o : IndexOptions)
    (n : String) (p : entity.Photo) (f : entity.File) (fh : String) (fc pe : Bool) :
    ((Index.indexUpdates env db m o n p f fh fc pe).2.1).FilePrimary =
      (f.FilePrimary || (m.isJpeg && (!pe || (db.firstPrimaryJpgFile p.ID).isNone))) := by
  unfold Index.indexUpdates
  cases m.colors <;> simp [electPrimary_FilePrimary]

lemma indexUpdates_db (env : Env) (db : DB) (m : MediaFile) (o : IndexOptions)
    (n : String) (p : entity.Photo) (f : entity.File) (fh : String) (fc pe : Bool) :
    ((Index.indexUpdates env db m o n p f fh fc pe).2.2.2.1).photos = db.photos ∧
    ((Index.indexUpdates env db m o n p f fh fc pe).2.2.2.1).files = db.files := by
  unfold Index.indexUpdates
  cases m.colors <;> simp

lemma indexUpdates_events (env : Env) (db : DB) (m : MediaFile) (o : IndexOptions)
    (n : String) (p : entity.Photo) (f : entity.File) (fh : String) (fc pe : Bool) :
    ∀ h s nm b, Event.indexing h s nm b ∉ (Index.indexUpdates env db m o n p f fh fc pe).2.2.2.2 := by
  intro h s nm b
  unfold Index.indexUpdates
  simp only []
  split
  · exact indexPrimary_events env db m o _ _ fc h s nm b
  · simp

lemma indexUpdates_yearMonth (env : Env) (db : DB) (m : MediaFile) (o : IndexOptions)
    (n : String) (p : entity.Photo) (f : entity.File) (fh : String) (fc pe : Bool) :
    ((Index.indexUpdates env db m o n p f fh fc pe).1).PhotoYear =
      ((Index.indexUpdates env db m o n p f fh fc pe).1).TakenAt.year ∧
    ((Index.indexUpdates env db m o n p f fh fc pe).1).PhotoMonth =
      ((Index.indexUpdates env db m o n p f fh fc pe).1).TakenAt.month := by
  unfold Index.indexUpdates
  cases m.colors <;> simp

lemma indexUpdates_mirror (env : Env) (db : DB) (m : MediaFile) (o : IndexOptions)
    (n : String) (p : entity.Photo) (f : entity.File) (fh : String) (fc pe : Bool) :
    ((Index.indexUpdates env db m o n p f fh fc pe).2.1).FilePrimary = true →
    (((Index.indexUpdates env db m o n p f fh fc pe).1).TakenAt.zero = true ∨
     ((Index.indexUpdates env db m o n p f fh fc pe).1).TakenAtLocal.zero = true) →
    ((Index.indexUpdates env db m o n p f fh fc pe).1).TakenAt = m.dateCreated ∧
    ((Index.indexUpdates env db m o n p f fh fc pe).1).TakenAtLocal = m.dateCreated := by
  unfold Index.indexUpdates
  simp only []
  intro hfp hz
  by_cases hP : (Index.electPrimary db m
      { p with PhotoPath := m.relPath, PhotoName := m.base } f pe).FilePrimary = true
  · cases hm : m.colors <;> simp only [hm] at hz ⊢ <;> simp [hP] at hz ⊢ <;>
      exact indexPrimary_zeroDate env db m o _ _ fc hz
  · exfalso
    cases hm : m.colors <;> simp only [hm] at hfp <;> simp [hP] at hfp

/-! Lookup lemmas for save and create. -/

lemma photoById_some_id {db : DB} {pid : Nat} {q : entity.Photo}
    (h : db.photoById pid = some q) : q.ID = pid := by
  have := List.find?_some h
  simpa using this

lemma fileById_some_id {db : DB} {fid : Nat} {g : entity.File}
    (h : db.fileById fid = some g) : g.ID = fid := by
  have := List.find?_some h
  simpa using this

lemma photoById_mem {db : DB} {pid : Nat} {q : entity.Photo}
    (h : db.photoById pid = some q) : q ∈ db.photos :=
  List.mem_of_find?_eq_some h

lemma fileById_mem {db : DB} {fid : Nat} {g : entity.File}
    (h : db.fileById fid = some g) : g ∈ db.files :=
  List.mem_of_find?_eq_some h

lemma find?_cons_pos {A : Type} (p : A → Bool) (a : A) (l : List A) (h : p a = true) :
    (a :: l).find? p = some a := by
  simp [List.find?_cons, h]

lemma find?_cons_neg {A : Type} (p : A → Bool) (a : A) (l : List A) (h : p a = false) :
    (a :: l).find? p = l.find? p := by
  simp [List.find?_cons, h]

lemma find?_replace_photo (l : List entity.Photo) (q : entity.Photo) (k : Nat)
    (hk : q.ID = k) (pid : Nat) :
    (l.map (fun r => if r.ID == k then q else r)).find? (fun r : entity.Photo => r.ID == pid) =
      (l.find? (fun r : entity.Photo => r.ID == pid)).map (fun r => if r.ID == k then q else r) := by
  induction l with
  | nil => rfl
  | cons x xs ih =>
    simp only [List.map_cons]
    cases hx : (x.ID == k) with
    | true =>
      have hxq : x.ID = k := eq_of_beq hx
      rw [if_pos rfl]
      cases hp : (x.ID == pid) with
      | true =>
        have hqp : (q.ID == pid) = true := by rw [hk, ← hxq]; exact hp
        rw [find?_cons_pos (fun r : entity.Photo => r.ID == pid) _ _ hqp,
           find?_cons_pos (fun r : entity.Photo => r.ID == pid) _ _ hp]
        simp [Option.map_some', hx]
        rw [if_pos hxq]
      | false =>
        have hqp : (q.ID == pid) = false := by rw [hk, ← hxq]; exact hp
        rw [find?_cons_neg (fun r : entity.Photo => r.ID == pid) _ _ hqp,
           find?_cons_neg (fun r : entity.Photo => r.ID == pid) _ _ hp]
        exact ih
    | false =>
      rw [if_neg Bool.false_ne_true]
      cases hp : (x.ID == pid) with
      | true =>
        rw [find?_cons_pos (fun r : entity.Photo => r.ID == pid) _ _ hp,
           find?_cons_pos (fun r : entity.Photo => r.ID == pid) _ _ hp]
        simp [Option.map_some', hx]
        rw [if_neg (by simpa using hx)]
      | false =>
        rw [find?_cons_neg (fun r : entity.Photo => r.ID == pid) _ _ hp,
           find?_cons_neg (fun r : entity.Photo => r.ID == pid) _ _ hp]
        exact ih

lemma find?_replace_file (l : List entity.File) (q : entity.File) (k : Nat)
    (hk : q.ID = k) (fid : Nat) :
    (l.map (fun r => if r.ID == k then q else r)).find? (fun r : entity.File => r.ID == fid) =
      (l.find? (fun r : entity.File => r.ID == fid)).map (fun r => if r.ID == k then q else r) := by
  induction l with
  | nil => rfl
  | cons x xs ih =>
    simp only [List.map_cons]
    cases hx : (x.ID == k) with
    | true =>
      have hxq : x.ID = k := eq_of_beq hx
      rw [if_pos rfl]
      cases hp : (x.ID == fid) with
      | true =>
        have hqp : (q.ID == fid) = true := by rw [hk, ← hxq]; exact hp
        rw [find?_cons_pos (fun r : entity.File => r.ID == fid) _ _ hqp,
           find?_cons_pos (fun r : entity.File => r.ID == fid) _ _ hp]
        simp [Option.map_some', hx]
        rw [if_pos hxq]
      | false =>
        have hqp : (q.ID == fid) = false := by rw [hk, ← hxq]; exact hp
        rw [find?_cons_neg (fun r : entity.File => r.ID == fid) _ _ hqp,
           find?_cons_neg (fun r : entity.File => r.ID == fid) _ _ hp]
        exact ih
    | false =>
      rw [if_neg Bool.false_ne_true]
      cases hp : (x.ID == fid) with
      | true =>
        rw [find?_cons_pos (fun r : entity.File => r.ID == fid) _ _ hp,
           find?_cons_pos (fun r : entity.File => r.ID == fid) _ _ hp]
        simp [Option.map_some', hx]
        rw [if_neg (by simpa using hx)]
      | false =>
        rw [find?_cons_neg (fun r : entity.File => r.ID == fid) _ _ hp,
           find?_cons_neg (fun r : entity.File => r.ID == fid) _ _ hp]
        exact ih

lemma savePhoto_photoById (db : DB) (q : entity.Photo) (pid : Nat) :
    (db.savePhoto q).photoById pid =
      (db.photoById pid).map (fun r => if r.ID == q.ID then q else r) := by
  unfold DB.savePhoto DB.photoById
  exact find?_replace_photo db.photos q q.ID rfl pid

lemma saveFile_fileById (db : DB) (q : entity.File) (fid : Nat) :
    (db.saveFile q).fileById fid =
      (db.fileById fid).map (fun r => if r.ID == q.ID then q else r) := by
  unfold DB.saveFile DB.fileById
  exact find?_replace_file db.files q q.ID rfl fid

lemma createPhoto_photoById_of_some (db : DB) (q : entity.Photo) (pid : Nat)
    (r : entity.Photo) (h : db.photoById pid = some r) :
    ((db.createPhoto q).2).photoById pid = some r := by
  unfold DB.createPhoto DB.photoById at *
  simp [List.find?_append, h]

lemma createFile_fileById_of_some (db : DB) (q : entity.File) (fid : Nat)
    (r : entity.File) (h : db.fileById fid = some r) :
    ((db.createFile q).2).fileById fid = some r := by
  unfold DB.createFile DB.fileById at *
  simp [List.find?_append, h]

lemma createPhoto_photoById_new (db : DB) (q : entity.Photo)
    (hWf : ∀ r ∈ db.photos, r.ID < db.nextPhotoID) :
    ((db.createPhoto q).2).photoById ((db.createPhoto q).1).ID =
      some ((db.createPhoto q).1) := by
  unfold DB.createPhoto DB.photoById
  simp only [List.find?_append]
  have hnone : db.photos.find? (fun r => r.ID == db.nextPhotoID) = none := by
    rw [List.find?_eq_none]
    intro x hx
    have := hWf x hx
    simp only [beq_iff_eq]
    omega
  rw [hnone]
  simp [List.find?_cons]

lemma createFile_fileById_new (db : DB) (q : entity.File)
    (hWf : ∀ r ∈ db.files, r.ID < db.nextFileID) :
    ((db.createFile q).2).fileById ((db.createFile q).1).ID =
      some ((db.createFile q).1) := by
  unfold DB.createFile DB.fileById
  simp only [List.find?_append]
  have hnone : db.files.find? (fun r => r.ID == db.nextFileID) = none := by
    rw [List.find?_eq_none]
    intro x hx
    have := hWf x hx
    simp only [beq_iff_eq]
    omega
  rw [hnone]
  simp [List.find?_cons]

lemma find?_id_of_mem_unique_photo (l : List entity.Photo) (q : entity.Photo)
    (hpw : l.Pairwise (fun a b => a.ID ≠ b.ID)) (hmem : q ∈ l) :
    l.find? (fun r : entity.Photo => r.ID == q.ID) = some q := by
  induction l with
  | nil => cases hmem
  | cons x xs ih =>
    rcases List.mem_cons.mp hmem with h | h
    · subst h
      simp [List.find?_cons]
    · have hne : x.ID ≠ q.ID := (List.pairwise_cons.mp hpw).1 q h
      rw [List.find?_cons_of_neg _ (by simpa using hne)]
      exact ih (List.pairwise_cons.mp hpw).2 h

lemma find?_id_of_mem_unique_file (l : List entity.File) (q : entity.File)
    (hpw : l.Pairwise (fun a b => a.ID ≠ b.ID)) (hmem : q ∈ l) :
    l.find? (fun r : entity.File => r.ID == q.ID) = some q := by
  induction l with
  | nil => cases hmem
  | cons x xs ih =>
    rcases List.mem_cons.mp hmem with h | h
    · subst h
      simp [List.find?_cons]
    · have hne : x.ID ≠ q.ID := (List.pairwise_cons.mp hpw).1 q h
      rw [List.find?_cons_of_neg _ (by simpa using hne)]
      exact ih (List.pairwise_cons.mp hpw).2 h

lemma photoById_of_mem_unique {db : DB} {q : entity.Photo}
    (hpw : db.photos.Pairwise (fun a b => a.ID ≠ b.ID)) (hmem : q ∈ db.photos) :
    db.photoById q.ID = some q :=
  find?_id_of_mem_unique_photo db.photos q hpw hmem

lemma fileById_of_mem_unique {db : DB} {q : entity.File}
    (hpw : db.files.Pairwise (fun a b => a.ID ≠ b.ID)) (hmem : q ∈ db.files) :
    db.fileById q.ID = some q :=
  find?_id_of_mem_unique_file db.files q hpw hmem

/-- Well-formedness of the store: row ids are pairwise distinct and below the
auto-increment counters. -/
def DB.Wf (db : DB) : Prop :=
  db.photos.Pairwise (fun a b => a.ID ≠ b.ID) ∧
  db.files.Pairwise (fun a b => a.ID ≠ b.ID) ∧
  (∀ p ∈ db.photos, p.ID < db.nextPhotoID) ∧
  (∀ f ∈ db.files, f.ID < db.nextFileID)

instance (db : DB) : Decidable db.Wf := by
  unfold DB.Wf
  infer_instance

/-! Auto-increment counters untouched by unrelated operations. -/

@[simp] lemma DB.ite_nextPhotoID (c : Prop) [Decidable c] (a b : DB) :
    (if c then a else b).nextPhotoID = if c then a.nextPhotoID else b.nextPhotoID :=
  apply_ite _ c a b

@[simp] lemma DB.ite_nextFileID (c : Prop) [Decidable c] (a b : DB) :
    (if c then a else b).nextFileID = if c then a.nextFileID else b.nextFileID :=
  apply_ite _ c a b

@[simp] lemma DB.savePhoto_nextPhotoID (db : DB) (p : entity.Photo) :
    (db.savePhoto p).nextPhotoID = db.nextPhotoID := rfl

@[simp] lemma DB.savePhoto_nextFileID (db : DB) (p : entity.Photo) :
    (db.savePhoto p).nextFileID = db.nextFileID := rfl

@[simp] lemma DB.createPhoto_nextFileID (db : DB) (p : entity.Photo) :
    ((db.createPhoto p).2).nextFileID = db.nextFileID := rfl

@[simp] lemma DB.saveLabel_nextPhotoID (db : DB) (l : entity.Label) :
    (db.saveLabel l).nextPhotoID = db.nextPhotoID := rfl

@[simp] lemma DB.saveLabel_nextFileID (db : DB) (l : entity.Label) :
    (db.saveLabel l).nextFileID = db.nextFileID := rfl

@[simp] lemma DB.savePhotoLabel_nextPhotoID (db : DB) (pl : entity.PhotoLabel) :
    (db.savePhotoLabel pl).nextPhotoID = db.nextPhotoID := rfl

@[simp] lemma DB.savePhotoLabel_nextFileID (db : DB) (pl : entity.PhotoLabel) :
    (db.savePhotoLabel pl).nextFileID = db.nextFileID := rfl

@[simp] lemma DB.appendCategory_nextPhotoID (db : DB) (a b : Nat) :
    (db.appendCategory a b).nextPhotoID = db.nextPhotoID := by
  unfold DB.appendCategory; split <;> rfl

@[simp] lemma DB.appendCategory_nextFileID (db : DB) (a b : Nat) :
    (db.appendCategory a b).nextFileID = db.nextFileID := by
  unfold DB.appendCategory; split <;> rfl

@[simp] lemma DB.setDownloadFileID_nextPhotoID (db : DB) (n : String) (i : Nat) :
    (db.setDownloadFileID n i).nextPhotoID = db.nextPhotoID := rfl

@[simp] lemma DB.setDownloadFileID_nextFileID (db : DB) (n : String) (i : Nat) :
    (db.setDownloadFileID n i).nextFileID = db.nextFileID := rfl

@[simp] lemma entity.Camera.cameraFOC_nextPhotoID (db : DB) (a b : String) :
    ((entity.Camera.firstOrCreate db a b).2).nextPhotoID = db.nextPhotoID := by
  unfold entity.Camera.firstOrCreate; split <;> rfl

@[simp] lemma entity.Camera.cameraFOC_nextFileID (db : DB) (a b : String) :
    ((entity.Camera.firstOrCreate db a b).2).nextFileID = db.nextFileID := by
  unfold entity.Camera.firstOrCreate; split <;> rfl

@[simp] lemma entity.Lens.lensFOC_nextPhotoID (db : DB) (a b : String) :
    ((entity.Lens.firstOrCreate db a b).2).nextPhotoID = db.nextPhotoID := by
  unfold entity.Lens.firstOrCreate; split <;> rfl

@[simp] lemma entity.Lens.lensFOC_nextFileID (db : DB) (a b : String) :
    ((entity.Lens.firstOrCreate db a b).2).nextFileID = db.nextFileID := by
  unfold entity.Lens.firstOrCreate; split <;> rfl

@[simp] lemma entity.Label.labelFOC_nextPhotoID (db : DB) (a : String) (p : Int) :
    ((entity.Label.firstOrCreate db a p).2).nextPhotoID = db.nextPhotoID := by
  unfold entity.Label.firstOrCreate; split <;> rfl

@[simp] lemma entity.Label.labelFOC_nextFileID (db : DB) (a : String) (p : Int) :
    ((entity.Label.firstOrCreate db a p).2).nextFileID = db.nextFileID := by
  unfold entity.Label.firstOrCreate; split <;> rfl

@[simp] lemma entity.PhotoLabel.photoLabelFOC_nextPhotoID (db : DB) (a b : Nat) (u : Int)
    (s : String) : ((entity.PhotoLabel.firstOrCreate db a b u s).2).nextPhotoID =
      db.nextPhotoID := by
  unfold entity.PhotoLabel.firstOrCreate; split <;> rfl

@[simp] lemma entity.PhotoLabel.photoLabelFOC_nextFileID (db : DB) (a b : Nat) (u : Int)
    (s : String) : ((entity.PhotoLabel.firstOrCreate db a b u s).2).nextFileID =
      db.nextFileID := by
  unfold entity.PhotoLabel.firstOrCreate; split <;> rfl

@[simp] lemma entity.Country.countryFOC_nextPhotoID (db : DB) (a b : String) :
    ((entity.Country.firstOrCreate db a b).2).nextPhotoID = db.nextPhotoID := by
  unfold entity.Country.firstOrCreate; split <;> rfl

@[simp] lemma entity.Country.countryFOC_nextFileID (db : DB) (a b : String) :
    ((entity.Country.firstOrCreate db a b).2).nextFileID = db.nextFileID := by
  unfold entity.Country.firstOrCreate; split <;> rfl

lemma categoriesFold_nextPhotoID (env : Env) (lmId : Nat) (cats : List String) (db : DB) :
    (cats.foldl (fun db category =>
      let (sn, db) := entity.Label.firstOrCreate db (env.txtTitle category) (-3)
      db.appendCategory lmId sn.ID) db).nextPhotoID = db.nextPhotoID := by
  induction cats generalizing db with
  | nil => rfl
  | cons c cs ih => rw [List.foldl_cons, ih]; simp

lemma categoriesFold_nextFileID (env : Env) (lmId : Nat) (cats : List String) (db : DB) :
    (cats.foldl (fun db category =>
      let (sn, db) := entity.Label.firstOrCreate db (env.txtTitle category) (-3)
      db.appendCategory lmId sn.ID) db).nextFileID = db.nextFileID := by
  induction cats generalizing db with
  | nil => rfl
  | cons c cs ih => rw [List.foldl_cons, ih]; simp

@[simp] lemma Index.addLabel_nextPhotoID (env : Env) (photoId : Nat) (db : DB)
    (label : classify.Label) :
    ((Index.addLabel env photoId db label).1).nextPhotoID = db.nextPhotoID := by
  unfold Index.addLabel
  simp only []
  split <;> simp_all [categoriesFold_nextPhotoID] <;> split <;>
    simp_all [categoriesFold_nextPhotoID]

@[simp] lemma Index.addLabel_nextFileID (env : Env) (photoId : Nat) (db : DB)
    (label : classify.Label) :
    ((Index.addLabel env photoId db label).1).nextFileID = db.nextFileID := by
  unfold Index.addLabel
  simp only []
  split <;> simp_all [categoriesFold_nextFileID] <;> split <;>
    simp_all [categoriesFold_nextFileID]

@[simp] lemma Index.addLabels_nextPhotoID (env : Env) (photoId : Nat) (db : DB)
    (labels : List classify.Label) :
    ((Index.addLabels env photoId db labels).1).nextPhotoID = db.nextPhotoID := by
  induction labels generalizing db with
  | nil => rfl
  | cons l ls ih => simp [Index.addLabels, ih]

@[simp] lemma Index.addLabels_nextFileID (env : Env) (photoId : Nat) (db : DB)
    (labels : List classify.Label) :
    ((Index.addLabels env photoId db labels).1).nextFileID = db.nextFileID := by
  induction labels generalizing db with
  | nil => rfl
  | cons l ls ih => simp [Index.addLabels, ih]

@[simp] lemma indexCamera_nextPhotoID (db : DB) (m : MediaFile) (p : entity.Photo) :
    ((Index.indexCamera db m p).2).nextPhotoID = db.nextPhotoID := by
  unfold Index.indexCamera; simp

@[simp] lemma indexCamera_nextFileID (db : DB) (m : MediaFile) (p : entity.Photo) :
    ((Index.indexCamera db m p).2).nextFileID = db.nextFileID := by
  unfold Index.indexCamera; simp

@[simp] lemma indexLocation_nextPhotoID (env : Env) (db : DB) (m : MediaFile)
    (p : entity.Photo) (labels : List classify.Label) (fc : Bool) (o : IndexOptions) :
    ((Index.indexLocation env db m p labels fc o).2.2.2.1).nextPhotoID = db.nextPhotoID := by
  unfold Index.indexLocation
  cases env.findLocation <;> simp

@[simp] lemma indexLocation_nextFileID (env : Env) (db : DB) (m : MediaFile)
    (p : entity.Photo) (labels : List classify.Label) (fc : Bool) (o : IndexOptions) :
    ((Index.indexLocation env db m p labels fc o).2.2.2.1).nextFileID = db.nextFileID := by
  unfold Index.indexLocation
  cases env.findLocation <;> simp

@[simp] lemma indexPrimary_nextPhotoID (env : Env) (db : DB) (m : MediaFile)
    (o : IndexOptions) (p : entity.Photo) (f : entity.File) (fc : Bool) :
    ((Index.indexPrimary env db m o p f fc).2.2.2.2.1).nextPhotoID = db.nextPhotoID := by
  unfold Index.indexPrimary
  simp

@[simp] lemma indexPrimary_nextFileID (env : Env) (db : DB) (m : MediaFile)
    (o : IndexOptions) (p : entity.Photo) (f : entity.File) (fc : Bool) :
    ((Index.indexPrimary env db m o p f fc).2.2.2.2.1).nextFileID = db.nextFileID := by
  unfold Index.indexPrimary
  simp

lemma indexUpdates_nextIDs (env : Env) (db : DB) (m : MediaFile) (o : IndexOptions)
    (n : String) (p : entity.Photo) (f : entity.File) (fh : String) (fc pe : Bool) :
    ((Index.indexUpdates env db m o n p f fh fc pe).2.2.2.1).nextPhotoID = db.nextPhotoID ∧
    ((Index.indexUpdates env db m o n p f fh fc pe).2.2.2.1).nextFileID = db.nextFileID := by
  unfold Index.indexUpdates
  cases m.colors <;> simp

lemma addLabel_events_shape (env : Env) (photoId : Nat) (db : DB) (label : classify.Label) :
    ∀ e ∈ (Index.addLabel env photoId db label).2,
      e = Event.entitiesCreatedLabels ∨ e = Event.countLabels 1 := by
  intro e he
  unfold Index.addLabel at he
  simp only [] at he
  split at he
  · split at he <;> simp_all
  · simp_all

lemma addLabels_events_shape (env : Env) (photoId : Nat) (db : DB)
    (labels : List classify.Label) :
    ∀ e ∈ (Index.addLabels env photoId db labels).2,
      e = Event.entitiesCreatedLabels ∨ e = Event.countLabels 1 := by
  induction labels generalizing db with
  | nil => intro e he; cases he
  | cons l ls ih =>
    intro e he
    unfold Index.addLabels at he
    simp only [List.mem_append] at he
    rcases he with he | he
    · exact addLabel_events_shape env photoId db l e he
    · exact ih _ e he

lemma DB.photoById_ext {db1 db2 : DB} (h : db1.photos = db2.photos) (pid : Nat) :
    db1.photoById pid = db2.photoById pid := by
  unfold DB.photoById; rw [h]

lemma DB.fileById_ext {db1 db2 : DB} (h : db1.files = db2.files) (fid : Nat) :
    db1.fileById fid = db2.fileById fid := by
  unfold DB.fileById; rw [h]

/-! Fields of freshly created rows. -/

@[simp] lemma DB.createPhoto_fst_ID (db : DB) (p : entity.Photo) :
    ((db.createPhoto p).1).ID = db.nextPhotoID := rfl

@[simp] lemma DB.createPhoto_fst_PhotoUUID (db : DB) (p : entity.Photo) :
    ((db.createPhoto p).1).PhotoUUID = p.PhotoUUID := rfl

@[simp] lemma DB.createPhoto_fst_PhotoYear (db : DB) (p : entity.Photo) :
    ((db.createPhoto p).1).PhotoYear = p.PhotoYear := rfl

@[simp] lemma DB.createPhoto_fst_PhotoMonth (db : DB) (p : entity.Photo) :
    ((db.createPhoto p).1).PhotoMonth = p.PhotoMonth := rfl

@[simp] lemma DB.createPhoto_fst_TakenAt (db : DB) (p : entity.Photo) :
    ((db.createPhoto p).1).TakenAt = p.TakenAt := rfl

@[simp] lemma DB.createPhoto_fst_TakenAtLocal (db : DB) (p : entity.Photo) :
    ((db.createPhoto p).1).TakenAtLocal = p.TakenAtLocal := rfl

@[simp] lemma DB.createPhoto_fst_PhotoTitle (db : DB) (p : entity.Photo) :
    ((db.createPhoto p).1).PhotoTitle = p.PhotoTitle := rfl

@[simp] lemma DB.createFile_fst_ID (db : DB) (f : entity.File) :
    ((db.createFile f).1).ID = db.nextFileID := rfl

@[simp] lemma DB.createFile_fst_FileUUID (db : DB) (f : entity.File) :
    ((db.createFile f).1).FileUUID = f.FileUUID := rfl

@[simp] lemma DB.createFile_fst_FilePrimary (db : DB) (f : entity.File) :
    ((db.createFile f).1).FilePrimary = f.FilePrimary := rfl

@[simp] lemma DB.createFile_fst_PhotoID (db : DB) (f : entity.File) :
    ((db.createFile f).1).PhotoID = f.PhotoID := rfl

@[simp] lemma DB.createFile_fst_PhotoUUID (db : DB) (f : entity.File) :
    ((db.createFile f).1).PhotoUUID = f.PhotoUUID := rfl

lemma indexPersist_result_photoIDs (env : Env) (db : DB) (o : IndexOptions)
    (n fn : String) (p : entity.Photo) (f : entity.File) (labels : List classify.Label)
    (fe : Bool) :
    ((Index.indexPersist env db o n fn p f labels fe true).1).PhotoUUID = p.PhotoUUID ∧
    ((Index.indexPersist env db o n fn p f labels fe true).1).PhotoID = p.ID := by
  unfold Index.indexPersist
  simp

lemma indexPersist_status (env : Env) (db : DB) (o : IndexOptions)
    (n fn : String) (p : entity.Photo) (f : entity.File) (labels : List classify.Label)
    (fe pe : Bool) :
    ((Index.indexPersist env db o n fn p f labels fe pe).1).Status =
      (if fe then IndexUpdated else IndexAdded) := by
  unfold Index.indexPersist
  rfl

lemma indexPersist_error (env : Env) (db : DB) (o : IndexOptions)
    (n fn : String) (p : entity.Photo) (f : entity.File) (labels : List classify.Label)
    (fe pe : Bool) :
    ((Index.indexPersist env db o n fn p f labels fe pe).1).Error = none := by
  unfold Index.indexPersist
  rfl

lemma indexPersist_events (env : Env) (db : DB) (o : IndexOptions)
    (n fn : String) (p : entity.Photo) (f : entity.File) (labels : List classify.Label)
    (fe pe : Bool) :
    ∀ h s nm b, Event.indexing h s nm b ∉ (Index.indexPersist env db o n fn p f labels fe pe).2.2 := by
  intro h s nm b hmem
  unfold Index.indexPersist at hmem
  simp only [List.mem_append] at hmem
  rcases hmem with hmem | hmem
  · split at hmem <;> simp_all
  · split at hmem
    · have := addLabels_events_shape env _ _ labels _ hmem
      rcases this with hc | hc <;> cases hc
    · cases hmem

lemma indexPersist_photoById_exists (env : Env) (db : DB) (o : IndexOptions)
    (n fn : String) (p : entity.Photo) (f : entity.File) (labels : List classify.Label)
    (fe : Bool) (pid : Nat) :
    ((Index.indexPersist env db o n fn p f labels fe true).2.1).photoById pid =
      (db.photoById pid).map (fun r => if r.ID == p.ID then
        (if o.UpdateLocation && p.NoLocation then Index.estimateLocation env db p else p)
        else r) := by
  have hphotos : ((Index.indexPersist env db o n fn p f labels fe true).2.1).photos =
      (db.savePhoto (if o.UpdateLocation && p.NoLocation then
        Index.estimateLocation env db p else p)).photos := by
    unfold Index.indexPersist
    simp
  rw [DB.photoById_ext hphotos pid, savePhoto_photoById]
  have hid : (if o.UpdateLocation && p.NoLocation then
      Index.estimateLocation env db p else p).ID = p.ID := by simp
  simp only [hid]

lemma indexPersist_photoById_not_exists (env : Env) (db : DB) (o : IndexOptions)
    (n fn : String) (p : entity.Photo) (f : entity.File) (labels : List classify.Label)
    (fe : Bool) (pid : Nat) (r : entity.Photo) (h : db.photoById pid = some r) :
    ((Index.indexPersist env db o n fn p f labels fe false).2.1).photoById pid = some r := by
  unfold Index.indexPersist
  simp only []
  have hfiles : ∀ d : DB, d.photos = ((db.createPhoto { p with PhotoFavorite := false }).2).photos →
      d.photoById pid = some r := by
    intro d hd
    unfold DB.photoById
    rw [hd]
    unfold DB.createPhoto
    simp only []
    unfold DB.photoById at h
    simp [List.find?_append, h]
  apply hfiles
  simp

lemma indexPersist_fileRow (env : Env) (db : DB) (o : IndexOptions)
    (n fn : String) (p : entity.Photo) (f : entity.File) (labels : List classify.Label)
    (fe pe : Bool)
    (hfe : fe = true → (db.fileById f.ID).isSome)
    (hWfF : ∀ g ∈ db.files, g.ID < db.nextFileID) :
    ∃ f1, ((Index.indexPersist env db o n fn p f labels fe pe).2.1).fileById
        ((Index.indexPersist env db o n fn p f labels fe pe).1).FileID = some f1 ∧
      f1.FilePrimary = f.FilePrimary ∧
      f1.FileUUID = f.FileUUID ∧
      f1.PhotoID = ((Index.indexPersist env db o n fn p f labels fe pe).1).PhotoID ∧
      f1.PhotoUUID = ((Index.indexPersist env db o n fn p f labels fe pe).1).PhotoUUID ∧
      ((Index.indexPersist env db o n fn p f labels fe pe).1).FileUUID = f.FileUUID := by
  cases fe with
  | true =>
    obtain ⟨r, hr⟩ := Option.isSome_iff_exists.mp (hfe rfl)
    have hrid : r.ID = f.ID := fileById_some_id hr
    refine ⟨{ f with
        PhotoID := (Index.indexPersist env db o n fn p f labels true pe).1.PhotoID,
        PhotoUUID := (Index.indexPersist env db o n fn p f labels true pe).1.PhotoUUID },
      ?_, rfl, rfl, rfl, rfl, ?_⟩
    · have hfiles : ((Index.indexPersist env db o n fn p f labels true pe).2.1).files =
          db.files.map (fun q => if q.ID == f.ID then
            { f with
              PhotoID := (Index.indexPersist env db o n fn p f labels true pe).1.PhotoID,
              PhotoUUID := (Index.indexPersist env db o n fn p f labels true pe).1.PhotoUUID }
            else q) := by
        unfold Index.indexPersist DB.saveFile
        simp
      have hfid : ((Index.indexPersist env db o n fn p f labels true pe).1).FileID = f.ID := by
        unfold Index.indexPersist
        rfl
      rw [hfid]
      unfold DB.fileById
      rw [hfiles]
      rw [find?_replace_file db.files ({ f with
        PhotoID := (Index.indexPersist env db o n fn p f labels true pe).1.PhotoID,
        PhotoUUID := (Index.indexPersist env db o n fn p f labels true pe).1.PhotoUUID })
        f.ID rfl f.ID]
      unfold DB.fileById at hr
      rw [hr]
      have hc : (r.ID == f.ID) = true := by simp [hrid]
      simp only [Option.map_some', hc, if_pos]
    · unfold Index.indexPersist
      rfl
  | false =>
    refine ⟨?_, ?_, ?_, ?_, ?_, ?_, ?_⟩
    case _ => exact { f with
        PhotoID := (Index.indexPersist env db o n fn p f labels false pe).1.PhotoID,
        PhotoUUID := (Index.indexPersist env db o n fn p f labels false pe).1.PhotoUUID,
        ID := (Index.indexPersist env db o n fn p f labels false pe).1.FileID }
    case _ =>
      have hfiles : ((Index.indexPersist env db o n fn p f labels false pe).2.1).files =
          db.files ++ [{ f with
            PhotoID := (Index.indexPersist env db o n fn p f labels false pe).1.PhotoID,
            PhotoUUID := (Index.indexPersist env db o n fn p f labels false pe).1.PhotoUUID,
            ID := (Index.indexPersist env db o n fn p f labels false pe).1.FileID }] := by
        unfold Index.indexPersist DB.createFile
        simp
      have hfid : ((Index.indexPersist env db o n fn p f labels false pe).1).FileID =
          db.nextFileID := by
        unfold Index.indexPersist
        simp
      unfold DB.fileById
      rw [hfiles, List.find?_append]
      have hnone : db.files.find? (fun q => q.ID ==
          (Index.indexPersist env db o n fn p f labels false pe).1.FileID) = none := by
        rw [List.find?_eq_none]
        intro x hx
        have := hWfF x hx
        rw [hfid]
        simp only [beq_iff_eq]
        omega
      rw [hnone]
      simp [List.find?_cons]
    case _ => rfl
    case _ => rfl
    case _ => rfl
    case _ => rfl
    case _ =>
      unfold Index.indexPersist
      rfl

lemma indexPersist_photoRow (env : Env) (db : DB) (o : IndexOptions)
    (n fn : String) (p : entity.Photo) (f : entity.File) (labels : List classify.Label)
    (fe pe : Bool)
    (hpe : pe = true → (db.photoById p.ID).isSome)
    (hWfP : ∀ q ∈ db.photos, q.ID < db.nextPhotoID) :
    ∃ p1, ((Index.indexPersist env db o n fn p f labels fe pe).2.1).photoById
        ((Index.indexPersist env db o n fn p f labels fe pe).1).PhotoID = some p1 ∧
      p1.PhotoYear = p.PhotoYear ∧ p1.PhotoMonth = p.PhotoMonth ∧
      p1.TakenAt = p.TakenAt ∧ p1.TakenAtLocal = p.TakenAtLocal ∧
      p1.PhotoUUID = p.PhotoUUID ∧ p1.PhotoTitle = p.PhotoTitle := by
  cases pe with
  | true =>
    obtain ⟨r, hr⟩ := Option.isSome_iff_exists.mp (hpe rfl)
    have hrid : r.ID = p.ID := photoById_some_id hr
    have hpid : ((Index.indexPersist env db o n fn p f labels fe true).1).PhotoID = p.ID := by
      unfold Index.indexPersist
      simp
    refine ⟨(if o.UpdateLocation && p.NoLocation then Index.estimateLocation env db p else p),
      ?_, by simp, by simp, by simp, by simp, by simp, by simp⟩
    rw [hpid, indexPersist_photoById_exists, hr]
    have hc : (r.ID == p.ID) = true := by simp [hrid]
    simp only [Option.map_some', hc, if_pos]
  | false =>
    have hpid : ((Index.indexPersist env db o n fn p f labels fe false).1).PhotoID =
        db.nextPhotoID := by
      unfold Index.indexPersist
      simp
    refine ⟨{ p with PhotoFavorite := false, ID := db.nextPhotoID },
      ?_, rfl, rfl, rfl, rfl, rfl, rfl⟩
    have hphotos : ((Index.indexPersist env db o n fn p f labels fe false).2.1).photos =
        db.photos ++ [{ p with PhotoFavorite := false, ID := db.nextPhotoID }] := by
      unfold Index.indexPersist DB.createPhoto
      simp
    unfold DB.photoById
    rw [hphotos, hpid, List.find?_append]
    have hnone : db.photos.find? (fun q => q.ID == db.nextPhotoID) = none := by
      rw [List.find?_eq_none]
      intro x hx
      have := hWfP x hx
      simp only [beq_iff_eq]
      omega
    rw [hnone]
    simp [List.find?_cons]

lemma lookupPhoto_self (db : DB) (m : MediaFile) (file : entity.File) (fileExists : Bool)
    (fs : Int) (fm : GoTime)
    (hWf : db.photos.Pairwise (fun a b => a.ID ≠ b.ID))
    (hex : (Index.lookupPhoto db m file fileExists fs fm).2.1 = true) :
    db.photoById ((Index.lookupPhoto db m file fileExists fs fm).1).ID =
      some (Index.lookupPhoto db m file fileExists fs fm).1 := by
  unfold Index.lookupPhoto at hex ⊢
  cases fileExists with
  | true =>
    rw [show (!true) = false from rfl] at hex ⊢
    rw [if_neg Bool.false_ne_true] at hex ⊢
    cases hq : db.photoById file.PhotoID with
    | none => simp [hq] at hex
    | some r =>
      simp only [hq, Option.getD_some]
      have hrid : r.ID = file.PhotoID := photoById_some_id hq
      rw [hrid]
      exact hq
  | false =>
    rw [show (!false) = true from rfl] at hex ⊢
    rw [if_pos rfl] at hex ⊢
    cases hq : db.firstPhotoByPathName m.relPath m.base with
    | some r =>
      simp only [hq, Option.getD_some]
      have hmem : r ∈ db.photos := List.mem_of_find?_eq_some hq
      exact photoById_of_mem_unique hWf hmem
    | none =>
      simp only [hq] at hex ⊢
      by_cases htp : m.hasTimeAndPlace = true
      · rw [if_pos htp] at hex ⊢
        cases hq2 : db.firstPhotoByLatLngTakenAt (m.metaData.getD default).Lat
            (m.metaData.getD default).Lng (m.metaData.getD default).TakenAt with
        | some r =>
          simp only [hq2, Option.getD_some]
          have hmem : r ∈ db.photos := List.mem_of_find?_eq_some hq2
          exact photoById_of_mem_unique hWf hmem
        | none => simp [hq2] at hex
      · rw [if_neg htp] at hex
        cases hex

lemma lookupFile_self (db : DB) (m : MediaFile)
    (hWf : db.files.Pairwise (fun a b => a.ID ≠ b.ID))
    (hex : (Index.lookupFile db m).2.2 = true) :
    db.fileById ((Index.lookupFile db m).1).ID = some (Index.lookupFile db m).1 := by
  unfold Index.lookupFile at hex ⊢
  cases hq : db.firstFileByName m.relName with
  | some r =>
    simp only [hq]
    have hmem : r ∈ db.files := List.mem_of_find?_eq_some hq
    exact fileById_of_mem_unique hWf hmem
  | none =>
    simp only [hq] at hex ⊢
    split at hex
    · rename_i hcond
      rw [if_pos hcond]
      cases hq2 : db.firstFileByHash m.hash with
      | some r =>
        simp only [hq2]
        exact fileById_of_mem_unique hWf (List.mem_of_find?_eq_some hq2)
      | none => simp [hq2] at hex
    · cases hex

lemma indexPersist_fileById_saved (env : Env) (db : DB) (o : IndexOptions)
    (n fn : String) (p : entity.Photo) (f : entity.File) (labels : List classify.Label)
    (pe : Bool) (fid : Nat) :
    ((Index.indexPersist env db o n fn p f labels true pe).2.1).fileById fid =
      (db.fileById fid).map (fun r => if r.ID == f.ID then
        { f with PhotoID := (Index.indexPersist env db o n fn p f labels true pe).1.PhotoID,
                 PhotoUUID := (Index.indexPersist env db o n fn p f labels true pe).1.PhotoUUID }
        else r) := by
  have hfiles : ((Index.indexPersist env db o n fn p f labels true pe).2.1).files =
      db.files.map (fun q => if q.ID == f.ID then
        { f with
          PhotoID := (Index.indexPersist env db o n fn p f labels true pe).1.PhotoID,
          PhotoUUID := (Index.indexPersist env db o n fn p f labels true pe).1.PhotoUUID }
        else q) := by
    unfold Index.indexPersist DB.saveFile
    simp
  unfold DB.fileById
  rw [hfiles]
  exact find?_replace_file db.files ({ f with
    PhotoID := (Index.indexPersist env db o n fn p f labels true pe).1.PhotoID,
    PhotoUUID := (Index.indexPersist env db o n fn p f labels true pe).1.PhotoUUID })
    f.ID rfl fid

lemma indexPersist_fileById_created (env : Env) (db : DB) (o : IndexOptions)
    (n fn : String) (p : entity.Photo) (f : entity.File) (labels : List classify.Label)
    (pe : Bool) (fid : Nat) (r : entity.File) (h : db.fileById fid = some r) :
    ((Index.indexPersist env db o n fn p f labels false pe).2.1).fileById fid = some r := by
  have hfiles : ((Index.indexPersist env db o n fn p f labels false pe).2.1).files =
      db.files ++ [{ f with
        PhotoID := (Index.indexPersist env db o n fn p f labels false pe).1.PhotoID,
        PhotoUUID := (Index.indexPersist env db o n fn p f labels false pe).1.PhotoUUID,
        ID := (Index.indexPersist env db o n fn p f labels false pe).1.FileID }] := by
    unfold Index.indexPersist DB.createFile
    simp
  unfold DB.fileById
  rw [hfiles, List.find?_append]
  unfold DB.fileById at h
  simp [h]

lemma DB.photoLabelBy_ext {db1 db2 : DB} (h : db1.photoLabels = db2.photoLabels)
    (pid lid : Nat) : db1.photoLabelBy pid lid = db2.photoLabelBy pid lid := by
  unfold DB.photoLabelBy; rw [h]

lemma find?_replace_photoLabel (l : List entity.PhotoLabel) (q : entity.PhotoLabel)
    (a b : Nat) (hka : q.PhotoID = a) (hkb : q.LabelID = b) (pid lid : Nat) :
    (l.map (fun r => if r.PhotoID == a && r.LabelID == b then q else r)).find?
        (fun r => r.PhotoID == pid && r.LabelID == lid) =
      (l.find? (fun r => r.PhotoID == pid && r.LabelID == lid)).map
        (fun r => if r.PhotoID == a && r.LabelID == b then q else r) := by
  induction l with
  | nil => rfl
  | cons x xs ih =>
    simp only [List.map_cons]
    cases hx : (x.PhotoID == a && x.LabelID == b) with
    | true =>
      have hx1 : x.PhotoID = a := eq_of_beq (Bool.and_elim_left hx)
      have hx2 : x.LabelID = b := eq_of_beq (Bool.and_elim_right hx)
      rw [if_pos rfl]
      cases hp : (x.PhotoID == pid && x.LabelID == lid) with
      | true =>
        have hqp : (q.PhotoID == pid && q.LabelID == lid) = true := by
          rw [hka, hkb, ← hx1, ← hx2]
          exact hp
        rw [find?_cons_pos (fun r : entity.PhotoLabel => r.PhotoID == pid && r.LabelID == lid) _ _ hqp,
           find?_cons_pos (fun r : entity.PhotoLabel => r.PhotoID == pid && r.LabelID == lid) _ _ hp]
        simp only [Option.map_some']
        rw [if_pos hx]
      | false =>
        have hqp : (q.PhotoID == pid && q.LabelID == lid) = false := by
          rw [hka, hkb, ← hx1, ← hx2]
          exact hp
        rw [find?_cons_neg (fun r : entity.PhotoLabel => r.PhotoID == pid && r.LabelID == lid) _ _ hqp,
           find?_cons_neg (fun r : entity.PhotoLabel => r.PhotoID == pid && r.LabelID == lid) _ _ hp]
        exact ih
    | false =>
      rw [if_neg Bool.false_ne_true]
      cases hp : (x.PhotoID == pid && x.LabelID == lid) with
      | true =>
        rw [find?_cons_pos (fun r : entity.PhotoLabel => r.PhotoID == pid && r.LabelID == lid) _ _ hp,
           find?_cons_pos (fun r : entity.PhotoLabel => r.PhotoID == pid && r.LabelID == lid) _ _ hp]
        simp only [Option.map_some']
        rw [if_neg (by simp [hx])]
      | false =>
        rw [find?_cons_neg (fun r : entity.PhotoLabel => r.PhotoID == pid && r.LabelID == lid) _ _ hp,
           find?_cons_neg (fun r : entity.PhotoLabel => r.PhotoID == pid && r.LabelID == lid) _ _ hp]
        exact ih

lemma savePhotoLabel_photoLabelBy (db : DB) (q : entity.PhotoLabel) (pid lid : Nat) :
    (db.savePhotoLabel q).photoLabelBy pid lid =
      (db.photoLabelBy pid lid).map
        (fun r => if r.PhotoID == q.PhotoID && r.LabelID == q.LabelID then q else r) := by
  unfold DB.savePhotoLabel DB.photoLabelBy
  exact find?_replace_photoLabel db.photoLabels q q.PhotoID q.LabelID rfl rfl pid lid

lemma photoLabelFOC_photoLabelBy_of_some (db : DB) (a b : Nat) (u : Int) (s : String)
    (pid lid : Nat) (r : entity.PhotoLabel) (h : db.photoLabelBy pid lid = some r) :
    ((entity.PhotoLabel.firstOrCreate db a b u s).2).photoLabelBy pid lid = some r := by
  unfold entity.PhotoLabel.firstOrCreate
  cases hq : db.photoLabelBy a b with
  | some pl => exact h
  | none =>
    unfold DB.photoLabelBy at h ⊢
    simp [List.find?_append, h]

lemma photoLabelBy_some_keys {db : DB} {pid lid : Nat} {r : entity.PhotoLabel}
    (h : db.photoLabelBy pid lid = some r) : r.PhotoID = pid ∧ r.LabelID = lid := by
  have := List.find?_some h
  constructor
  · exact eq_of_beq (Bool.and_elim_left this)
  · exact eq_of_beq (Bool.and_elim_right this)

lemma photoLabelFOC_keys (db : DB) (a b : Nat) (u : Int) (s : String) :
    ((entity.PhotoLabel.firstOrCreate db a b u s).1).PhotoID = a ∧
    ((entity.PhotoLabel.firstOrCreate db a b u s).1).LabelID = b := by
  unfold entity.PhotoLabel.firstOrCreate
  cases hq : db.photoLabelBy a b with
  | some r =>
    simp only []
    exact photoLabelBy_some_keys hq
  | none => exact ⟨rfl, rfl⟩

lemma photoLabelFOC_found (db : DB) (a b : Nat) (u : Int) (s : String)
    (r : entity.PhotoLabel) (h : db.photoLabelBy a b = some r) :
    (entity.PhotoLabel.firstOrCreate db a b u s).1 = r := by
  unfold entity.PhotoLabel.firstOrCreate
  rw [h]

lemma addLabel_photoLabelBy (env : Env) (photoId : Nat) (db : DB) (label : classify.Label)
    (pid lid : Nat) (pl0 : entity.PhotoLabel)
    (h : db.photoLabelBy pid lid = some pl0) :
    ∃ pl1, ((Index.addLabel env photoId db label).1).photoLabelBy pid lid = some pl1 ∧
      (pl1 = pl0 ∨ (pl0.LabelUncertainty > label.Uncertainty ∧
        pl1.LabelUncertainty = label.Uncertainty ∧ pl1.LabelSource = label.Source)) := by
  unfold Index.addLabel
  simp only []
  have h1 : ((entity.Label.firstOrCreate db (env.txtTitle label.Name) label.Priority).2).photoLabelBy
      pid lid = some pl0 := by
    rw [DB.photoLabelBy_ext (by simp :
      ((entity.Label.firstOrCreate db (env.txtTitle label.Name) label.Priority).2).photoLabels =
        db.photoLabels) pid lid]
    exact h
  set db1 := (entity.Label.firstOrCreate db (env.txtTitle label.Name) label.Priority).2 with hdb1
  set lm := (entity.Label.firstOrCreate db (env.txtTitle label.Name) label.Priority).1 with hlm
  set db2 := if (!(lm.LabelPriority == label.Priority)) = true then
      db1.saveLabel { lm with LabelPriority := label.Priority } else db1 with hdb2
  have h2 : db2.photoLabelBy pid lid = some pl0 := by
    rw [hdb2]
    split
    · rw [DB.photoLabelBy_ext (by simp :
        (db1.saveLabel { lm with LabelPriority := label.Priority }).photoLabels =
          db1.photoLabels) pid lid]
      exact h1
    · exact h1
  set lm2 := if (!(lm.LabelPriority == label.Priority)) = true then
      { lm with LabelPriority := label.Priority } else lm with hlm2
  have h3 : ((entity.PhotoLabel.firstOrCreate db2 photoId lm2.ID label.Uncertainty
      label.Source).2).photoLabelBy pid lid = some pl0 :=
    photoLabelFOC_photoLabelBy_of_some db2 photoId lm2.ID label.Uncertainty label.Source
      pid lid pl0 h2
  set plm := (entity.PhotoLabel.firstOrCreate db2 photoId lm2.ID label.Uncertainty
      label.Source).1 with hplm
  set db3 := (entity.PhotoLabel.firstOrCreate db2 photoId lm2.ID label.Uncertainty
      label.Source).2 with hdb3
  set db4 := label.Categories.foldl (fun db category =>
    let (sn, db) := entity.Label.firstOrCreate db (env.txtTitle category) (-3)
    db.appendCategory lm2.ID sn.ID) db3 with hdb4
  have h4 : db4.photoLabelBy pid lid = some pl0 := by
    rw [hdb4, DB.photoLabelBy_ext (categoriesFold_photoLabels env lm2.ID label.Categories db3)
      pid lid]
    exact h3
  by_cases hguard : plm.LabelUncertainty > label.Uncertainty
  · rw [if_pos hguard]
    rw [savePhotoLabel_photoLabelBy, h4]
    simp only [Option.map_some']
    by_cases hmatch : (pl0.PhotoID == plm.PhotoID && pl0.LabelID == plm.LabelID) = true
    · rw [if_pos hmatch]
      refine ⟨_, rfl, Or.inr ?_⟩
      have hk0 := photoLabelBy_some_keys h
      have hkp := photoLabelFOC_keys db2 photoId lm2.ID label.Uncertainty label.Source
      rw [← hplm] at hkp
      have hm1 : pl0.PhotoID = plm.PhotoID := eq_of_beq (Bool.and_elim_left hmatch)
      have hm2 : pl0.LabelID = plm.LabelID := eq_of_beq (Bool.and_elim_right hmatch)
      have hpid : photoId = pid := by rw [← hk0.1, hm1, hkp.1]
      have hlid : lm2.ID = lid := by rw [← hk0.2, hm2, hkp.2]
      have hfound : plm = pl0 := by
        rw [hplm]
        apply photoLabelFOC_found
        rw [hpid, hlid]
        exact h2
      rw [hfound] at hguard
      exact ⟨hguard, rfl, rfl⟩
    · rw [if_neg (by simpa using hmatch)]
      exact ⟨pl0, rfl, Or.inl rfl⟩
  · rw [if_neg hguard]
    exact ⟨pl0, h4, Or.inl rfl⟩

lemma addLabels_photoLabelBy (env : Env) (photoId : Nat) (db : DB)
    (labels : List classify.Label) (pid lid : Nat) (pl0 : entity.PhotoLabel)
    (h : db.photoLabelBy pid lid = some pl0) :
    ∃ pl1, ((Index.addLabels env photoId db labels).1).photoLabelBy pid lid = some pl1 ∧
      pl1.LabelUncertainty ≤ pl0.LabelUncertainty ∧
      (pl1 ≠ pl0 → ∃ lab ∈ labels, pl0.LabelUncertainty > lab.Uncertainty ∧
        pl1.LabelUncertainty = lab.Uncertainty ∧ pl1.LabelSource = lab.Source) := by
  induction labels generalizing db pl0 with
  | nil => exact ⟨pl0, h, le_refl _, fun hc => absurd rfl hc⟩
  | cons lab rest ih =>
    obtain ⟨plm, hplm, hdisj⟩ := addLabel_photoLabelBy env photoId db lab pid lid pl0 h
    obtain ⟨pl1, hpl1, hle, hch⟩ := ih _ plm hplm
    refine ⟨pl1, ?_, ?_, ?_⟩
    · unfold Index.addLabels
      simp only []
      exact hpl1
    · rcases hdisj with hd | hd
      · rw [← hd]; exact hle
      · calc pl1.LabelUncertainty ≤ plm.LabelUncertainty := hle
          _ = lab.Uncertainty := hd.2.1
          _ ≤ pl0.LabelUncertainty := le_of_lt hd.1
    · intro hne
      by_cases hplm0 : plm = pl0
      · rw [hplm0] at hle hch
        obtain ⟨l, hl, hrest⟩ := hch hne
        exact ⟨l, List.mem_cons_of_mem _ hl, hrest⟩
      · rcases hdisj with hd | hd
        · exact absurd hd hplm0
        · by_cases hne1 : pl1 = plm
          · subst hne1
            exact ⟨lab, List.mem_cons_self _ _, hd.1, hd.2.1, hd.2.2⟩
          · obtain ⟨l, hl, hu, he, hs⟩ := hch hne1
            refine ⟨l, List.mem_cons_of_mem _ hl, ?_, he, hs⟩
            calc l.Uncertainty < plm.LabelUncertainty := hu
              _ = lab.Uncertainty := hd.2.1
              _ < pl0.LabelUncertainty := hd.1

/-! Concrete fixtures used by witnesses and counterexamples. -/

/-- A baseline environment with trivial external collaborators. -/
def fixEnv : Env where
  tensorFlowDisabled := true
  detectNSFW := false
  tensorFlowFile := fun _ => none
  nsfwResult := false
  findLocation := none
  recentPhoto := fun _ => none
  labelsTitle := fun _ _ => ""
  txtTitle := fun s => s
  txtKeywords := fun _ => []
  uniqueWords := fun w => w
  labelsKeywords := fun _ => []
  nonCanonical := fun _ => false

/-- A fixed non-zero time (June 2021, noon). -/
def fixTime : GoTime := { unix := 100, year := 2021, month := 6, hour := 12, zero := false }

/-- A baseline JPEG media file. -/
def fixJpeg : MediaFile where
  base := "a.jpg"
  relPath := "p"
  relName := "p/a.jpg"
  hash := "h1"
  statSize := 100
  statModified := fixTime
  isSidecar := false
  isJpeg := true
  isXMP := false
  isVideo := false
  hasTimeAndPlace := false
  metaData := none
  dateCreated := fixTime
  fileType := "jpg"
  mimeType := "image/jpeg"
  orientation := 1
  cameraModel := ""
  cameraMake := ""
  lensModel := ""
  lensMake := ""
  focalLength := 0
  fNumber := 0
  iso := 0
  exposure := ""
  width := 0
  height := 0
  aspect := 1
  colors := none
  xmp := none

/-- A catalogued photo with a user-modified (but empty) title. -/
def fixPhotoC1 : entity.Photo := { (default : entity.Photo) with
  ID := 1, PhotoUUID := "pu1", ModifiedTitle := true, PhotoTitle := "" }

/-- The catalogued file row of the baseline photo (stored size differs from
the stat size, so the file counts as changed). -/
def fixFileC1 : entity.File := { (default : entity.File) with
  ID := 1, PhotoID := 1, FileName := "p/a.jpg", FileHash := "h1", FileUUID := "fu1",
  FilePrimary := true, FileSize := 50, FileModified := fixTime, FileType := "jpg" }

/-- The store for the C1 counterexample. -/
def fixDBC1 : DB := { (default : DB) with
  photos := [fixPhotoC1], files := [fixFileC1], nextPhotoID := 2, nextFileID := 2 }

/-- All-off index options. -/
def fixOpts : IndexOptions := default

/-- C2 counterexample labels: the first sorted label has uncertainty 100,
so its confidence is 0 and the running confidence latches on the second
label instead of the first. -/
def fixLabelA : classify.Label :=
  { Name := "a", Source := "image", Uncertainty := 100, Priority := 5, Categories := [] }

/-- C2 counterexample label with confidence 60. -/
def fixLabelB : classify.Label :=
  { Name := "b", Source := "image", Uncertainty := 40, Priority := 0, Categories := [] }

/-- C2 counterexample label with confidence 10. -/
def fixLabelC : classify.Label :=
  { Name := "c", Source := "image", Uncertainty := 90, Priority := 0, Categories := [] }

/-- An environment whose classifier returns the three C2 labels on the tile
thumbnail. -/
def fixEnvC2 : Env := { fixEnv with
  tensorFlowFile := fun t => if t == "tile_224" then some [fixLabelA, fixLabelB, fixLabelC]
    else none }

/-- The spec scenario S6 labels. -/
def fixLabelCat : classify.Label :=
  { Name := "cat", Source := "image", Uncertainty := 20, Priority := 0, Categories := [] }

/-- The spec scenario S6 dog label. -/
def fixLabelDog : classify.Label :=
  { Name := "dog", Source := "image", Uncertainty := 90, Priority := 0, Categories := [] }

/-- C4 fixture: an unchanged catalogued file row. -/
def fixFileC4 : entity.File := { fixFileC1 with FileSize := 100 }

/-- C4 fixture store. -/
def fixDBC4 : DB := { fixDBC1 with files := [fixFileC4] }

/-- Options with only SkipUnchanged set. -/
def fixOptsSkip : IndexOptions := { (default : IndexOptions) with SkipUnchanged := true }

/-- C2: the claim predicts retention by a threshold taken from the first
label of the sorted list; the code latches the threshold on the first label
with nonzero confidence, so for sorted input a(u=100,p=5), b(u=40,p=0),
c(u=90,p=0) the claim keeps b and c while classifyImage keeps only b. -/
theorem C2_counterexample :
    Index.classifyImage fixEnvC2 fixJpeg = [fixLabelB] ∧
    classifySpecSelect [fixLabelA, fixLabelB, fixLabelC] = [fixLabelB, fixLabelC] ∧
    Index.classifyImage fixEnvC2 fixJpeg ≠
      classifySpecSelect [fixLabelA, fixLabelB, fixLabelC] := by
  refine ⟨by decide, by decide, by decide⟩

/-- C2 (amended): classifyImage sorts the concatenated labels by (priority
descending, uncertainty ascending) and keeps exactly the labels whose
confidence 100-uncertainty strictly exceeds conf0/3 (Go integer division),
where conf0 is the confidence of the first label of the sorted list whose
confidence is nonzero (equivalently, with uncertainty other than 100); when
every label has confidence zero nothing is kept. This holds whenever all
uncertainties are at most 100. classifySelect is exactly the sort-and-retain
step applied by Index.classifyImage to the concatenated labels. -/
theorem C2_classify_retention (labels : List classify.Label)
    (h : ∀ l ∈ labels, l.Uncertainty ≤ 100) :
    classifySelect labels = (classify.sortLabels labels).filter
      (fun l => decide (100 - l.Uncertainty >
        goDiv (classify.firstConf (classify.sortLabels labels)) 3)) := by
  unfold classifySelect
  apply classifyLoop_zero
  intro l hl
  have := h l (mem_sortLabels hl)
  omega

/-- C2 witness: the spec's S6 example, cat(u=20) kept, dog(u=90) dropped. -/
theorem C2_witness :
    (∀ l ∈ [fixLabelCat, fixLabelDog], l.Uncertainty ≤ 100) ∧
    classifySelect [fixLabelCat, fixLabelDog] =
      (classify.sortLabels [fixLabelCat, fixLabelDog]).filter
        (fun l => decide (100 - l.Uncertainty >
          goDiv (classify.firstConf (classify.sortLabels [fixLabelCat, fixLabelDog])) 3)) :=
  ⟨by decide, C2_classify_retention [fixLabelCat, fixLabelDog] (by decide)⟩

/-- C4: whenever the file lookup finds an existing row (by name or by
content hash) that is unchanged (stored size and modified time equal the
stat values), its owning photo exists and SkipUnchanged is set,
Index.MediaFile returns Status skipped immediately, leaves the store
untouched and publishes only the index.indexing event. -/
theorem C4_skip_unchanged (env : Env) (db : DB) (m : MediaFile) (o : IndexOptions)
    (n : String)
    (hfe : (Index.lookupFile db m).2.2 = true)
    (hch : entity.File.Changed (Index.lookupFile db m).1 m.statSize m.statModified = false)
    (hph : (db.photoById (Index.lookupFile db m).1.PhotoID).isSome = true)
    (hskip : o.SkipUnchanged = true) :
    (Index.MediaFile env db (some m) o n).1.Status = IndexSkipped ∧
    (Index.MediaFile env db (some m) o n).2.1 = db ∧
    (Index.MediaFile env db (some m) o n).2.2 =
      [Event.indexing "" m.statSize m.relName (filepathBase m.relName)] := by
  unfold Index.MediaFile
  simp only []
  revert hfe hch hph
  generalize hLF : Index.lookupFile db m = LF
  intro hfe hch hph
  have hlp : Index.lookupPhoto db m LF.1 LF.2.2 m.statSize m.statModified =
      ((db.photoById LF.1.PhotoID).getD default, (db.photoById LF.1.PhotoID).isSome,
        entity.File.Changed LF.1 m.statSize m.statModified) := by
    unfold Index.lookupPhoto
    rw [hfe]
    rw [show (!true) = false from rfl, if_neg Bool.false_ne_true]
  rw [hlp]
  simp [hch, hph, hskip]

/-- C4 witness: the baseline photo's unchanged file with SkipUnchanged. -/
theorem C4_witness :
    ((Index.lookupFile fixDBC4 fixJpeg).2.2 = true ∧
     entity.File.Changed (Index.lookupFile fixDBC4 fixJpeg).1 fixJpeg.statSize
       fixJpeg.statModified = false ∧
     (fixDBC4.photoById (Index.lookupFile fixDBC4 fixJpeg).1.PhotoID).isSome = true ∧
     fixOptsSkip.SkipUnchanged = true) ∧
    ((Index.MediaFile fixEnv fixDBC4 (some fixJpeg) fixOptsSkip "").1.Status = IndexSkipped ∧
     (Index.MediaFile fixEnv fixDBC4 (some fixJpeg) fixOptsSkip "").2.1 = fixDBC4 ∧
     (Index.MediaFile fixEnv fixDBC4 (some fixJpeg) fixOptsSkip "").2.2 =
       [Event.indexing "" fixJpeg.statSize fixJpeg.relName (filepathBase fixJpeg.relName)]) :=
  ⟨⟨by decide, by decide, by decide, by decide⟩,
   C4_skip_unchanged fixEnv fixDBC4 fixJpeg fixOptsSkip ""
     (by decide) (by decide) (by decide) (by decide)⟩

/-- C9: every index.indexing event published by Index.MediaFile carries an
empty fileHash field (the code always passes an empty string there). -/
theorem C9_indexing_event_empty_hash (env : Env) (db : DB) (mopt : Option MediaFile)
    (o : IndexOptions) (n : String) (h : String) (s : Int) (nm b : String)
    (hmem : Event.indexing h s nm b ∈ (Index.MediaFile env db mopt o n).2.2) :
    h = "" := by
  cases mopt with
  | none => cases hmem
  | some m =>
    unfold Index.MediaFile at hmem
    simp only [] at hmem
    split at hmem
    · simp only [List.mem_singleton, Event.indexing.injEq] at hmem
      exact hmem.1
    · simp only [List.mem_append] at hmem
      rcases hmem with (hmem | hmem) | hmem
      · simp only [List.mem_singleton, Event.indexing.injEq] at hmem
        exact hmem.1
      · exact absurd hmem (indexUpdates_events _ _ _ _ _ _ _ _ _ _ h s nm b)
      · exact absurd hmem (indexPersist_events _ _ _ _ _ _ _ _ _ _ h s nm b)

/-- Helper: the concrete event trace of the fixture skip run. -/
theorem fixSkipRun_events :
    (Index.MediaFile fixEnv fixDBC4 (some fixJpeg) fixOptsSkip "").2.2 =
      [Event.indexing "" 100 "p/a.jpg" (filepathBase "p/a.jpg")] := by
  have hlf : Index.lookupFile fixDBC4 fixJpeg = (fixFileC4, "", true) := by decide
  have hlp : Index.lookupPhoto fixDBC4 fixJpeg fixFileC4 true fixJpeg.statSize
      fixJpeg.statModified = (fixPhotoC1, true, false) := by decide
  unfold Index.MediaFile
  simp only [hlf]
  rw [hlp]
  simp [fixOptsSkip]
  exact ⟨rfl, rfl, rfl⟩

theorem C9_witness :
    Event.indexing "" 100 "p/a.jpg" (filepathBase "p/a.jpg") ∈
      (Index.MediaFile fixEnv fixDBC4 (some fixJpeg) fixOptsSkip "").2.2 ∧
    ("" : String) = "" := by
  have hmem : Event.indexing "" 100 "p/a.jpg" (filepathBase "p/a.jpg") ∈
      (Index.MediaFile fixEnv fixDBC4 (some fixJpeg) fixOptsSkip "").2.2 := by
    rw [fixSkipRun_events]
    exact List.mem_singleton.mpr rfl
  exact ⟨hmem,
    C9_indexing_event_empty_hash fixEnv fixDBC4 (some fixJpeg) fixOptsSkip "" "" 100
      "p/a.jpg" (filepathBase "p/a.jpg") hmem⟩

/-- C10: whenever the returned IndexResult has Status skipped, its Error is
nil, FileID and PhotoID are zero, FileUUID and PhotoUUID are empty, and
Success is false (skip results are built as the bare status). -/
theorem C10_skipped_result_empty (env : Env) (db : DB) (mopt : Option MediaFile)
    (o : IndexOptions) (n : String)
    (h : (Index.MediaFile env db mopt o n).1.Status = IndexSkipped) :
    (Index.MediaFile env db mopt o n).1.Error = none ∧
    (Index.MediaFile env db mopt o n).1.FileID = 0 ∧
    (Index.MediaFile env db mopt o n).1.FileUUID = "" ∧
    (Index.MediaFile env db mopt o n).1.PhotoID = 0 ∧
    (Index.MediaFile env db mopt o n).1.PhotoUUID = "" ∧
    (Index.MediaFile env db mopt o n).1.Success = false := by
  cases mopt with
  | none =>
    rw [show (Index.MediaFile env db none o n).1.Status = IndexFailed from rfl] at h
    exact absurd h (by decide)
  | some m =>
    unfold Index.MediaFile at h ⊢
    simp only [] at h ⊢
    split at h <;> rename_i hc
    · rw [if_pos hc]
      exact ⟨rfl, rfl, rfl, rfl, rfl, rfl⟩
    · exfalso
      rw [indexPersist_status] at h
      split at h <;> exact absurd h (by decide)

/-- C10 witness: the C4 skip run has Status skipped, and the theorem yields
the empty result fields there. -/
theorem C10_witness :
    (Index.MediaFile fixEnv fixDBC4 (some fixJpeg) fixOptsSkip "").1.Status = IndexSkipped ∧
    (Index.MediaFile fixEnv fixDBC4 (some fixJpeg) fixOptsSkip "").1.PhotoUUID = "" :=
  ⟨by decide,
   (C10_skipped_result_empty fixEnv fixDBC4 (some fixJpeg) fixOptsSkip "" (by decide)).2.2.2.2.1⟩

/-- C3 fixture: the catalogued file row sits under an old name but carries
the same content hash as the incoming file, and is unchanged on disk. -/
def fixFileC3 : entity.File := { fixFileC1 with FileName := "p/old.jpg", FileSize := 100 }

/-- C3 fixture store. -/
def fixDBC3 : DB := { fixDBC1 with files := [fixFileC3] }

/-- C3: the claim promises the moved file re-indexes to the owning photo's
PhotoUUID with no further proviso, but with SkipUnchanged set and an
unchanged file the run is skipped and the result carries an empty PhotoUUID
instead of the photo's "pu1". -/
theorem C3_counterexample :
    fixJpeg.isSidecar = false ∧
    fixDBC3.firstFileByName fixJpeg.relName = none ∧
    fixDBC3.firstFileByHash fixJpeg.hash = some fixFileC3 ∧
    fixDBC3.photoById fixFileC3.PhotoID = some fixPhotoC1 ∧
    (Index.MediaFile fixEnv fixDBC3 (some fixJpeg) fixOptsSkip "").1.PhotoUUID = "" ∧
    fixPhotoC1.PhotoUUID = "pu1" := by
  refine ⟨by decide, by decide, by decide, by decide, ?_, by decide⟩
  decide

/-- C3 (amended): for every non-sidecar media file whose relative name
matches no File row but whose hash matches an existing File row owned by an
existing Photo, and whose run is not skipped (the file changed on disk, or
SkipUnchanged is off), Index.MediaFile returns that Photo's unchanged
PhotoUUID. -/
theorem C3_dedup_by_hash (env : Env) (db : DB) (m : MediaFile) (o : IndexOptions)
    (n : String) (f0 : entity.File) (p0 : entity.Photo)
    (hside : m.isSidecar = false)
    (hname : db.firstFileByName m.relName = none)
    (hhash : db.firstFileByHash m.hash = some f0)
    (hph : db.photoById f0.PhotoID = some p0)
    (hnoskip : entity.File.Changed f0 m.statSize m.statModified = true ∨
      o.SkipUnchanged = false) :
    (Index.MediaFile env db (some m) o n).1.PhotoUUID = p0.PhotoUUID := by
  have hlf : Index.lookupFile db m = (f0, m.hash, true) := by
    unfold Index.lookupFile
    rw [hname, hside]
    simp [hhash]
  have hlp : Index.lookupPhoto db m f0 true m.statSize m.statModified =
      (p0, true, entity.File.Changed f0 m.statSize m.statModified) := by
    unfold Index.lookupPhoto
    rw [show (!true) = false from rfl, if_neg Bool.false_ne_true, hph]
    rfl
  unfold Index.MediaFile
  simp only [hlf]
  rw [hlp]
  split
  · rename_i hc
    exfalso
    rcases hnoskip with h1 | h1 <;> simp [h1] at hc
  · exact ((indexPersist_result_photoIDs env _ o n m.relName _ _ _ _).1).trans
      ((indexUpdates_core env db m o n p0 _ _ _ _).2.1)

/-- C3 witness: the moved fixture file re-indexed without SkipUnchanged
lands on the photo with UUID pu1. -/
theorem C3_witness :
    (fixJpeg.isSidecar = false ∧
     fixDBC3.firstFileByName fixJpeg.relName = none ∧
     fixDBC3.firstFileByHash fixJpeg.hash = some fixFileC3 ∧
     fixDBC3.photoById fixFileC3.PhotoID = some fixPhotoC1 ∧
     (entity.File.Changed fixFileC3 fixJpeg.statSize fixJpeg.statModified = true ∨
      fixOpts.SkipUnchanged = false)) ∧
    (Index.MediaFile fixEnv fixDBC3 (some fixJpeg) fixOpts "").1.PhotoUUID =
      fixPhotoC1.PhotoUUID :=
  ⟨⟨by decide, by decide, by decide, by decide, Or.inr (by decide)⟩,
   C3_dedup_by_hash fixEnv fixDBC3 fixJpeg fixOpts "" fixFileC3 fixPhotoC1
     (by decide) (by decide) (by decide) (by decide) (Or.inr (by decide))⟩

/-- Every catalogued photo row survives a run with its identity and its
user-edited fields intact: PhotoUUID always; the title when ModifiedTitle
is set and the title is nonempty; the taken-at triple when ModifiedDate is
set and both stamps are nonzero; the coordinates when ModifiedLocation is
set; the camera block when ModifiedCamera is set. -/
lemma MediaFile_photoRow_preserved (env : Env) (db : DB) (m : MediaFile)
    (o : IndexOptions) (n : String)
    (hWf : db.photos.Pairwise (fun a b => a.ID ≠ b.ID))
    (pid : Nat) (p0 : entity.Photo) (hp0 : db.photoById pid = some p0) :
    ∃ p1, ((Index.MediaFile env db (some m) o n).2.1).photoById pid = some p1 ∧
      p1.PhotoUUID = p0.PhotoUUID ∧
      (p0.ModifiedTitle = true → ¬ p0.PhotoTitle = "" → p1.PhotoTitle = p0.PhotoTitle) ∧
      (p0.ModifiedDate = true → p0.TakenAt.zero = false → p0.TakenAtLocal.zero = false →
        photoDate p0 p1) ∧
      (p0.ModifiedLocation = true → photoLoc p0 p1) ∧
      (p0.ModifiedCamera = true → photoCam p0 p1) := by
  unfold Index.MediaFile
  simp only []
  generalize hLF : Index.lookupFile db m = LF
  generalize hLP : Index.lookupPhoto db m LF.1 LF.2.2 m.statSize m.statModified = LP
  split
  · exact ⟨p0, hp0, rfl, fun _ _ => rfl, fun _ _ _ => ⟨rfl, rfl, rfl⟩,
      fun _ => ⟨rfl, rfl, rfl⟩, fun _ => ⟨rfl, rfl, rfl, rfl, rfl, rfl⟩⟩
  · cases hpe : LP.2.1 with
    | false =>
      have hdb1 := DB.photoById_ext
        (indexUpdates_db env db m o n LP.1 LF.1 LF.2.1 LP.2.2 false).1 pid
      refine ⟨p0, ?_, rfl, fun _ _ => rfl, fun _ _ _ => ⟨rfl, rfl, rfl⟩,
        fun _ => ⟨rfl, rfl, rfl⟩, fun _ => ⟨rfl, rfl, rfl, rfl, rfl, rfl⟩⟩
      apply indexPersist_photoById_not_exists
      exact hdb1.trans hp0
    | true =>
      have hdb1 := DB.photoById_ext
        (indexUpdates_db env db m o n LP.1 LF.1 LF.2.1 LP.2.2 true).1 pid
      rw [indexPersist_photoById_exists env _ o n m.relName _ _ _ _ pid]
      rw [hdb1, hp0]
      simp only [Option.map_some']
      by_cases hid : (p0.ID ==
          (Index.indexUpdates env db m o n LP.1 LF.1 LF.2.1 LP.2.2 true).1.ID) = true
      · have hcore := indexUpdates_core env db m o n LP.1 LF.1 LF.2.1 LP.2.2 true
        have h1 : p0.ID = pid := photoById_some_id hp0
        rw [beq_iff_eq] at hid
        have h3 : p0.ID = LP.1.ID := hid.trans hcore.1
        have hself := lookupPhoto_self db m LF.1 LF.2.2 m.statSize m.statModified hWf
          (by rw [hLP]; exact hpe)
        rw [hLP] at hself
        have h4 : LP.1.ID = pid := by rw [← h3]; exact h1
        rw [h4, hp0] at hself
        have hup : LP.1 = p0 := (Option.some.inj hself).symm
        rw [if_pos (beq_iff_eq.mpr hid)]
        refine ⟨_, rfl, ?_, ?_, ?_, ?_, ?_⟩
        · have h5 : (Index.indexUpdates env db m o n LP.1 LF.1 LF.2.1 LP.2.2 true).1.PhotoUUID =
              p0.PhotoUUID := by rw [← hup]; exact hcore.2.1
          split
          · rw [estimateLocation_eq_PhotoUUID]; exact h5
          · exact h5
        · intro hMT hTit
          rw [← hup] at hMT hTit
          have h5 := indexUpdates_title env db m o n LP.1 LF.1 LF.2.1 LP.2.2 true hMT hTit
          rw [← hup]
          split
          · rw [estimateLocation_eq_PhotoTitle]; exact h5
          · exact h5
        · intro hMD hz1 hz2
          rw [← hup] at hMD hz1 hz2
          have h5 := indexUpdates_date env db m o n LP.1 LF.1 LF.2.1 LP.2.2 true hMD hz1 hz2
          unfold photoDate at h5 ⊢
          rw [← hup]
          split
          · simp only [estimateLocation_eq_TakenAt, estimateLocation_eq_TakenAtLocal,
              estimateLocation_eq_TimeZone]
            exact h5
          · exact h5
        · intro hML
          rw [← hup] at hML
          have h5 := indexUpdates_loc env db m o n LP.1 LF.1 LF.2.1 LP.2.2 true hML
          unfold photoLoc at h5 ⊢
          rw [← hup]
          split
          · simp only [estimateLocation_eq_PhotoLat, estimateLocation_eq_PhotoLng,
              estimateLocation_eq_PhotoAltitude]
            exact h5
          · exact h5
        · intro hMC
          rw [← hup] at hMC
          have h5 := indexUpdates_cam env db m o n LP.1 LF.1 LF.2.1 LP.2.2 true hMC
          unfold photoCam at h5 ⊢
          rw [← hup]
          split
          · simp only [estimateLocation_eq_Camera, estimateLocation_eq_Lens,
              estimateLocation_eq_PhotoFocalLength, estimateLocation_eq_PhotoFNumber,
              estimateLocation_eq_PhotoIso, estimateLocation_eq_PhotoExposure]
            exact h5
          · exact h5
      · rw [if_neg hid]
        exact ⟨p0, rfl, rfl, fun _ _ => rfl, fun _ _ _ => ⟨rfl, rfl, rfl⟩,
          fun _ => ⟨rfl, rfl, rfl⟩, fun _ => ⟨rfl, rfl, rfl, rfl, rfl, rfl⟩⟩

/-- Every catalogued file row survives a run with its FileUUID intact,
provided the incoming metadata carries no UniqueID longer than 15
characters. -/
lemma MediaFile_fileRow_preserved (env : Env) (db : DB) (m : MediaFile)
    (o : IndexOptions) (n : String)
    (hWfF : db.files.Pairwise (fun a b => a.ID ≠ b.ID)) (hU : shortUID m)
    (fid : Nat) (f0 : entity.File) (hf0 : db.fileById fid = some f0) :
    ∃ f1, ((Index.MediaFile env db (some m) o n).2.1).fileById fid = some f1 ∧
      f1.FileUUID = f0.FileUUID := by
  unfold Index.MediaFile
  simp only []
  generalize hLF : Index.lookupFile db m = LF
  generalize hLP : Index.lookupPhoto db m LF.1 LF.2.2 m.statSize m.statModified = LP
  split
  · exact ⟨f0, hf0, rfl⟩
  · have hdb1 := DB.fileById_ext
      (indexUpdates_db env db m o n LP.1 LF.1 LF.2.1 LP.2.2 LP.2.1).2 fid
    cases hfe : LF.2.2 with
    | false =>
      refine ⟨f0, ?_, rfl⟩
      apply indexPersist_fileById_created
      exact hdb1.trans hf0
    | true =>
      rw [indexPersist_fileById_saved env _ o n m.relName _ _ _ _ fid]
      rw [hdb1, hf0]
      simp only [Option.map_some']
      by_cases hid : (f0.ID ==
          (Index.indexUpdates env db m o n LP.1 LF.1 LF.2.1 LP.2.2 LP.2.1).2.1.ID) = true
      · have hFid := indexUpdates_file_ID env db m o n LP.1 LF.1 LF.2.1 LP.2.2 LP.2.1
        have hfid0 : f0.ID = fid := fileById_some_id hf0
        have hself := lookupFile_self db m hWfF (by rw [hLF]; exact hfe)
        rw [hLF] at hself
        rw [beq_iff_eq] at hid
        have h3 : LF.1.ID = fid := by rw [← hFid, ← hid]; exact hfid0
        rw [h3, hf0] at hself
        have hf0LF : LF.1 = f0 := (Option.some.inj hself).symm
        rw [if_pos (beq_iff_eq.mpr hid)]
        refine ⟨_, rfl, ?_⟩
        have h5 := indexUpdates_fileUUID env db m o n LP.1 LF.1 LF.2.1 LP.2.2 LP.2.1 hU
        rw [← hf0LF]
        exact h5
      · rw [if_neg hid]
        exact ⟨f0, rfl, rfl⟩

/-- C7 counterexample metadata: a 16-character UniqueID. -/
def fixMetaC7 : MetaData := { (default : MetaData) with UniqueID := "ABCDEFGHIJKLMNOP" }

/-- C7 counterexample media file: the baseline JPEG now carries metadata
with the long UniqueID. -/
def fixJpegC7 : MediaFile := { fixJpeg with metaData := some fixMetaC7 }

/-- C7: the claim promises FileUUID is never rewritten for any extracted
metadata, but when the metadata carries a UniqueID longer than 15
characters the EXIF merge adopts it as the FileUUID: re-indexing the
catalogued file (stored FileUUID fu1) leaves the row with the UniqueID
instead. -/
theorem C7_counterexample :
    fixDBC1.fileById 1 = some fixFileC1 ∧
    fixFileC1.FileUUID = "fu1" ∧
    ((((Index.MediaFile fixEnv fixDBC1 (some fixJpegC7) fixOpts "").2.1).fileById 1).getD
      default).FileUUID = "ABCDEFGHIJKLMNOP" ∧
    (((Index.MediaFile fixEnv fixDBC1 (some fixJpegC7) fixOpts "").2.1).fileById 1).isSome =
      true := by
  refine ⟨by decide, by decide, ?_, ?_⟩ <;> decide

/-- C7 (amended): a run of Index.MediaFile keeps the PhotoUUID of every
catalogued photo row, and - provided the extracted metadata carries no
UniqueID longer than 15 characters - also the FileUUID of every catalogued
file row. -/
theorem C7_uuid_stability (env : Env) (db : DB) (m : MediaFile) (o : IndexOptions)
    (n : String) (hWf : db.Wf) (hU : shortUID m) :
    (∀ pid p0, db.photoById pid = some p0 →
      ∃ p1, ((Index.MediaFile env db (some m) o n).2.1).photoById pid = some p1 ∧
        p1.PhotoUUID = p0.PhotoUUID) ∧
    (∀ fid f0, db.fileById fid = some f0 →
      ∃ f1, ((Index.MediaFile env db (some m) o n).2.1).fileById fid = some f1 ∧
        f1.FileUUID = f0.FileUUID) := by
  refine ⟨fun pid p0 hp0 => ?_,
    fun fid f0 hf0 => MediaFile_fileRow_preserved env db m o n hWf.2.1 hU fid f0 hf0⟩
  obtain ⟨p1, h1, h2, _⟩ := MediaFile_photoRow_preserved env db m o n hWf.1 pid p0 hp0
  exact ⟨p1, h1, h2⟩

/-- C7 witness: re-indexing the baseline fixture (metadata-free, so the
UniqueID proviso holds vacuously) keeps PhotoUUID pu1 on row 1. -/
theorem C7_witness :
    (fixDBC1.Wf ∧ fixDBC1.photoById 1 = some fixPhotoC1) ∧
    (∃ p1, ((Index.MediaFile fixEnv fixDBC1 (some fixJpeg) fixOpts "").2.1).photoById 1 =
        some p1 ∧ p1.PhotoUUID = fixPhotoC1.PhotoUUID) :=
  ⟨⟨by decide, by decide⟩,
   (C7_uuid_stability fixEnv fixDBC1 fixJpeg fixOpts "" (by decide)
     (fun md h => Option.noConfusion h)).1 1 fixPhotoC1 (by decide)⟩

/-- A second fixed non-zero time (January 2020), distinct from fixTime. -/
def fixTime2 : GoTime := { unix := 200, year := 2020, month := 1, hour := 3, zero := false }

/-- C1 counterexample photo: ModifiedTitle with an empty title, and
ModifiedDate with a zero TakenAt stamp. -/
def fixPhotoC1X : entity.Photo := { fixPhotoC1 with ModifiedDate := true }

/-- C1 counterexample store for the empty-title and zero-TakenAt runs. -/
def fixDBC1X : DB := { fixDBC1 with photos := [fixPhotoC1X] }

/-- C1 counterexample photo: ModifiedDate with a nonzero TakenAt but a zero
TakenAtLocal stamp. -/
def fixPhotoC1Y : entity.Photo := { fixPhotoC1 with
  ModifiedTitle := false, ModifiedDate := true, TakenAt := fixTime2 }

/-- C1 counterexample store for the zero-TakenAtLocal run. -/
def fixDBC1Y : DB := { fixDBC1 with photos := [fixPhotoC1Y] }

/-- C1: the claim says a field guarded by a true Modified flag is always
unchanged; three guarded fields are overwritten anyway. With
ModifiedTitle=true and an empty title the indexer writes a synthesized
title. With ModifiedDate=true the zero-date adoption still overwrites the
taken-at stamps: when TakenAt is zero, and also when TakenAt is nonzero but
TakenAtLocal is zero, TakenAt ends up as the media file's creation date. -/
theorem C1_counterexample :
    (fixPhotoC1X.ModifiedTitle = true ∧
     fixPhotoC1X.PhotoTitle = "" ∧
     fixPhotoC1X.ModifiedDate = true ∧
     fixPhotoC1X.TakenAt.zero = true ∧
     fixDBC1X.photoById 1 = some fixPhotoC1X ∧
     (((Index.MediaFile fixEnv fixDBC1X (some fixJpeg) fixOpts "").2.1).photoById 1).isSome =
       true ∧
     ((((Index.MediaFile fixEnv fixDBC1X (some fixJpeg) fixOpts "").2.1).photoById 1).getD
       default).PhotoTitle ≠ fixPhotoC1X.PhotoTitle ∧
     ((((Index.MediaFile fixEnv fixDBC1X (some fixJpeg) fixOpts "").2.1).photoById 1).getD
       default).TakenAt ≠ fixPhotoC1X.TakenAt) ∧
    (fixPhotoC1Y.ModifiedDate = true ∧
     fixPhotoC1Y.TakenAt.zero = false ∧
     fixPhotoC1Y.TakenAtLocal.zero = true ∧
     fixDBC1Y.photoById 1 = some fixPhotoC1Y ∧
     (((Index.MediaFile fixEnv fixDBC1Y (some fixJpeg) fixOpts "").2.1).photoById 1).isSome =
       true ∧
     ((((Index.MediaFile fixEnv fixDBC1Y (some fixJpeg) fixOpts "").2.1).photoById 1).getD
       default).TakenAt ≠ fixPhotoC1Y.TakenAt) := by
  refine ⟨⟨by decide, by decide, by decide, by decide, by decide, ?_, ?_, ?_⟩,
    by decide, by decide, by decide, by decide, ?_, ?_⟩ <;> decide

/-- C1 (amended): for every catalogued photo row, a run of Index.MediaFile
preserves the title when ModifiedTitle is set and the title is nonempty,
the taken-at triple when ModifiedDate is set and both stamps are nonzero,
the coordinates when ModifiedLocation is set, and the camera block when
ModifiedCamera is set. -/
theorem C1_sticky_user_edits (env : Env) (db : DB) (m : MediaFile) (o : IndexOptions)
    (n : String) (hWf : db.Wf) (pid : Nat) (p0 : entity.Photo)
    (hp0 : db.photoById pid = some p0) :
    ∃ p1, ((Index.MediaFile env db (some m) o n).2.1).photoById pid = some p1 ∧
      (p0.ModifiedTitle = true → ¬ p0.PhotoTitle = "" → p1.PhotoTitle = p0.PhotoTitle) ∧
      (p0.ModifiedDate = true → p0.TakenAt.zero = false → p0.TakenAtLocal.zero = false →
        photoDate p0 p1) ∧
      (p0.ModifiedLocation = true → photoLoc p0 p1) ∧
      (p0.ModifiedCamera = true → photoCam p0 p1) := by
  obtain ⟨p1, h1, _, h3, h4, h5, h6⟩ :=
    MediaFile_photoRow_preserved env db m o n hWf.1 pid p0 hp0
  exact ⟨p1, h1, h3, h4, h5, h6⟩

/-- C1 witness photo: all four Modified flags set, nonempty title, nonzero
date stamps. -/
def fixPhotoC1W : entity.Photo := { fixPhotoC1 with
  PhotoTitle := "Sunset", ModifiedDate := true, ModifiedLocation := true,
  ModifiedCamera := true, TakenAt := fixTime, TakenAtLocal := fixTime }

/-- C1 witness store. -/
def fixDBC1W : DB := { fixDBC1 with photos := [fixPhotoC1W] }

theorem C1_witness :
    (fixDBC1W.Wf ∧ fixDBC1W.photoById 1 = some fixPhotoC1W) ∧
    (∃ p1, ((Index.MediaFile fixEnv fixDBC1W (some fixJpeg) fixOpts "").2.1).photoById 1 =
        some p1 ∧
      (fixPhotoC1W.ModifiedTitle = true → ¬ fixPhotoC1W.PhotoTitle = "" →
        p1.PhotoTitle = fixPhotoC1W.PhotoTitle) ∧
      (fixPhotoC1W.ModifiedDate = true → fixPhotoC1W.TakenAt.zero = false →
        fixPhotoC1W.TakenAtLocal.zero = false → photoDate fixPhotoC1W p1) ∧
      (fixPhotoC1W.ModifiedLocation = true → photoLoc fixPhotoC1W p1) ∧
      (fixPhotoC1W.ModifiedCamera = true → photoCam fixPhotoC1W p1)) :=
  ⟨⟨by decide, by decide⟩,
   C1_sticky_user_edits fixEnv fixDBC1W fixJpeg fixOpts "" (by decide) 1 fixPhotoC1W
     (by decide)⟩

/-- C5: on every non-skipped run, the file row stored under the result's
FileID has FilePrimary true exactly when the looked-up file row already was
primary, or the media file is a JPEG and the photo does not exist or has no
primary jpg file row. -/
theorem C5_primary_election (env : Env) (db : DB) (m : MediaFile) (o : IndexOptions)
    (n : String) (hWf : db.Wf)
    (hns : (Index.lookupPhoto db m (Index.lookupFile db m).1 (Index.lookupFile db m).2.2
        m.statSize m.statModified).2.2 = true ∨
      (Index.lookupPhoto db m (Index.lookupFile db m).1 (Index.lookupFile db m).2.2
        m.statSize m.statModified).2.1 = false ∨
      o.SkipUnchanged = false) :
    ∃ f1, ((Index.MediaFile env db (some m) o n).2.1).fileById
        ((Index.MediaFile env db (some m) o n).1).FileID = some f1 ∧
      f1.FilePrimary = ((Index.lookupFile db m).1.FilePrimary ||
        (m.isJpeg && (!(Index.lookupPhoto db m (Index.lookupFile db m).1
            (Index.lookupFile db m).2.2 m.statSize m.statModified).2.1 ||
          (db.firstPrimaryJpgFile (Index.lookupPhoto db m (Index.lookupFile db m).1
            (Index.lookupFile db m).2.2 m.statSize m.statModified).1.ID).isNone))) := by
  unfold Index.MediaFile
  simp only []
  revert hns
  generalize hLF : Index.lookupFile db m = LF
  generalize hLP : Index.lookupPhoto db m LF.1 LF.2.2 m.statSize m.statModified = LP
  intro hns
  split
  · rename_i hc
    exfalso
    rcases hns with h | h | h <;> simp [h] at hc
  · have hdb1files := (indexUpdates_db env db m o n LP.1 LF.1 LF.2.1 LP.2.2 LP.2.1).2
    have hnext := (indexUpdates_nextIDs env db m o n LP.1 LF.1 LF.2.1 LP.2.2 LP.2.1).2
    obtain ⟨f1, hf1, hprim, -⟩ := indexPersist_fileRow env
      (Index.indexUpdates env db m o n LP.1 LF.1 LF.2.1 LP.2.2 LP.2.1).2.2.2.1 o n m.relName
      (Index.indexUpdates env db m o n LP.1 LF.1 LF.2.1 LP.2.2 LP.2.1).1
      (Index.indexUpdates env db m o n LP.1 LF.1 LF.2.1 LP.2.2 LP.2.1).2.1
      (Index.indexUpdates env db m o n LP.1 LF.1 LF.2.1 LP.2.2 LP.2.1).2.2.1
      LF.2.2 LP.2.1
      (by
        intro h
        rw [DB.fileById_ext hdb1files]
        rw [indexUpdates_file_ID]
        have hself := lookupFile_self db m hWf.2.1 (by rw [hLF]; exact h)
        rw [hLF] at hself
        simp [hself])
      (by
        intro g hg
        rw [hnext]
        rw [hdb1files] at hg
        exact hWf.2.2.2 g hg)
    refine ⟨f1, hf1, ?_⟩
    rw [hprim]
    exact indexUpdates_filePrimary env db m o n LP.1 LF.1 LF.2.1 LP.2.2 LP.2.1

/-- C5 witness: the baseline fixture run (SkipUnchanged off); the stored
row was already primary, so FilePrimary stays true. -/
theorem C5_witness :
    (fixDBC1.Wf ∧ fixOpts.SkipUnchanged = false) ∧
    (∃ f1, ((Index.MediaFile fixEnv fixDBC1 (some fixJpeg) fixOpts "").2.1).fileById
        ((Index.MediaFile fixEnv fixDBC1 (some fixJpeg) fixOpts "").1).FileID = some f1 ∧
      f1.FilePrimary = ((Index.lookupFile fixDBC1 fixJpeg).1.FilePrimary ||
        (fixJpeg.isJpeg && (!(Index.lookupPhoto fixDBC1 fixJpeg
            (Index.lookupFile fixDBC1 fixJpeg).1 (Index.lookupFile fixDBC1 fixJpeg).2.2
            fixJpeg.statSize fixJpeg.statModified).2.1 ||
          (fixDBC1.firstPrimaryJpgFile (Index.lookupPhoto fixDBC1 fixJpeg
            (Index.lookupFile fixDBC1 fixJpeg).1 (Index.lookupFile fixDBC1 fixJpeg).2.2
            fixJpeg.statSize fixJpeg.statModified).1.ID).isNone)))) :=
  ⟨⟨by decide, by decide⟩,
   C5_primary_election fixEnv fixDBC1 fixJpeg fixOpts "" (by decide)
     (Or.inr (Or.inr (by decide)))⟩

/-- C8: on every non-skipped run (the photo is saved or created), the
persisted photo row satisfies PhotoYear = TakenAt.year and PhotoMonth =
TakenAt.month; moreover, when the stored file row is primary and the
persisted photo still carries a zero stamp, both TakenAt and TakenAtLocal
equal the media file's creation date (the zero-date adoption mirrored the
date into TakenAtLocal). -/
theorem C8_year_month_derivation (env : Env) (db : DB) (m : MediaFile) (o : IndexOptions)
    (n : String) (hWf : db.Wf)
    (hns : (Index.lookupPhoto db m (Index.lookupFile db m).1 (Index.lookupFile db m).2.2
        m.statSize m.statModified).2.2 = true ∨
      (Index.lookupPhoto db m (Index.lookupFile db m).1 (Index.lookupFile db m).2.2
        m.statSize m.statModified).2.1 = false ∨
      o.SkipUnchanged = false) :
    ∃ p1, ((Index.MediaFile env db (some m) o n).2.1).photoById
        ((Index.MediaFile env db (some m) o n).1).PhotoID = some p1 ∧
      p1.PhotoYear = p1.TakenAt.year ∧ p1.PhotoMonth = p1.TakenAt.month ∧
      ∃ f1, ((Index.MediaFile env db (some m) o n).2.1).fileById
          ((Index.MediaFile env db (some m) o n).1).FileID = some f1 ∧
        (f1.FilePrimary = true →
          p1.TakenAt.zero = true ∨ p1.TakenAtLocal.zero = true →
          p1.TakenAt = m.dateCreated ∧ p1.TakenAtLocal = m.dateCreated) := by
  unfold Index.MediaFile
  simp only []
  revert hns
  generalize hLF : Index.lookupFile db m = LF
  generalize hLP : Index.lookupPhoto db m LF.1 LF.2.2 m.statSize m.statModified = LP
  intro hns
  split
  · rename_i hc
    exfalso
    rcases hns with h | h | h <;> simp [h] at hc
  · have hdb1photos := (indexUpdates_db env db m o n LP.1 LF.1 LF.2.1 LP.2.2 LP.2.1).1
    have hdb1files := (indexUpdates_db env db m o n LP.1 LF.1 LF.2.1 LP.2.2 LP.2.1).2
    have hnextP := (indexUpdates_nextIDs env db m o n LP.1 LF.1 LF.2.1 LP.2.2 LP.2.1).1
    have hnextF := (indexUpdates_nextIDs env db m o n LP.1 LF.1 LF.2.1 LP.2.2 LP.2.1).2
    obtain ⟨p1, hp1, hY, hM, hTA, hTAL, -, -⟩ := indexPersist_photoRow env
      (Index.indexUpdates env db m o n LP.1 LF.1 LF.2.1 LP.2.2 LP.2.1).2.2.2.1 o n m.relName
      (Index.indexUpdates env db m o n LP.1 LF.1 LF.2.1 LP.2.2 LP.2.1).1
      (Index.indexUpdates env db m o n LP.1 LF.1 LF.2.1 LP.2.2 LP.2.1).2.1
      (Index.indexUpdates env db m o n LP.1 LF.1 LF.2.1 LP.2.2 LP.2.1).2.2.1
      LF.2.2 LP.2.1
      (by
        intro h
        rw [DB.photoById_ext hdb1photos]
        have hcore := indexUpdates_core env db m o n LP.1 LF.1 LF.2.1 LP.2.2 LP.2.1
        rw [hcore.1]
        have hself := lookupPhoto_self db m LF.1 LF.2.2 m.statSize m.statModified hWf.1
          (by rw [hLP]; exact h)
        rw [hLP] at hself
        simp [hself])
      (by
        intro q hq
        rw [hnextP]
        rw [hdb1photos] at hq
        exact hWf.2.2.1 q hq)
    obtain ⟨f1, hf1, hprim, -⟩ := indexPersist_fileRow env
      (Index.indexUpdates env db m o n LP.1 LF.1 LF.2.1 LP.2.2 LP.2.1).2.2.2.1 o n m.relName
      (Index.indexUpdates env db m o n LP.1 LF.1 LF.2.1 LP.2.2 LP.2.1).1
      (Index.indexUpdates env db m o n LP.1 LF.1 LF.2.1 LP.2.2 LP.2.1).2.1
      (Index.indexUpdates env db m o n LP.1 LF.1 LF.2.1 LP.2.2 LP.2.1).2.2.1
      LF.2.2 LP.2.1
      (by
        intro h
        rw [DB.fileById_ext hdb1files]
        rw [indexUpdates_file_ID]
        have hself := lookupFile_self db m hWf.2.1 (by rw [hLF]; exact h)
        rw [hLF] at hself
        simp [hself])
      (by
        intro g hg
        rw [hnextF]
        rw [hdb1files] at hg
        exact hWf.2.2.2 g hg)
    refine ⟨p1, hp1, ?_, ?_, f1, hf1, ?_⟩
    · rw [hY, hTA]
      exact (indexUpdates_yearMonth env db m o n LP.1 LF.1 LF.2.1 LP.2.2 LP.2.1).1
    · rw [hM, hTA]
      exact (indexUpdates_yearMonth env db m o n LP.1 LF.1 LF.2.1 LP.2.2 LP.2.1).2
    · intro hfp hz
      rw [hprim] at hfp
      rw [hTA, hTAL] at hz
      have hmir := indexUpdates_mirror env db m o n LP.1 LF.1 LF.2.1 LP.2.2 LP.2.1 hfp hz
      exact ⟨hTA.trans hmir.1, hTAL.trans hmir.2⟩

/-- C8 witness: the baseline fixture run; the persisted photo carries the
derived year 2021 and month 6. -/
theorem C8_witness :
    (fixDBC1.Wf ∧ fixOpts.SkipUnchanged = false) ∧
    (∃ p1, ((Index.MediaFile fixEnv fixDBC1 (some fixJpeg) fixOpts "").2.1).photoById
        ((Index.MediaFile fixEnv fixDBC1 (some fixJpeg) fixOpts "").1).PhotoID = some p1 ∧
      p1.PhotoYear = p1.TakenAt.year ∧ p1.PhotoMonth = p1.TakenAt.month ∧
      ∃ f1, ((Index.MediaFile fixEnv fixDBC1 (some fixJpeg) fixOpts "").2.1).fileById
          ((Index.MediaFile fixEnv fixDBC1 (some fixJpeg) fixOpts "").1).FileID = some f1 ∧
        (f1.FilePrimary = true →
          p1.TakenAt.zero = true ∨ p1.TakenAtLocal.zero = true →
          p1.TakenAt = fixJpeg.dateCreated ∧ p1.TakenAtLocal = fixJpeg.dateCreated)) :=
  ⟨⟨by decide, by decide⟩,
   C8_year_month_derivation fixEnv fixDBC1 fixJpeg fixOpts "" (by decide)
     (Or.inr (Or.inr (by decide)))⟩

/-- C6: for every PhotoLabel edge present before addLabels runs, the edge
afterwards has uncertainty no greater than before, and whenever it changed
at all, the change came from an incoming label with strictly smaller
uncertainty, whose uncertainty and source were adopted: the smallest
uncertainty seen wins, and uncertainty never increases across calls. -/
theorem C6_confidence_wins (env : Env) (photoId : Nat) (db : DB)
    (labels : List classify.Label) (pid lid : Nat) (pl0 : entity.PhotoLabel)
    (h : db.photoLabelBy pid lid = some pl0) :
    ∃ pl1, ((Index.addLabels env photoId db labels).1).photoLabelBy pid lid = some pl1 ∧
      pl1.LabelUncertainty ≤ pl0.LabelUncertainty ∧
      (pl1 ≠ pl0 → ∃ lab ∈ labels, pl0.LabelUncertainty > lab.Uncertainty ∧
        pl1.LabelUncertainty = lab.Uncertainty ∧ pl1.LabelSource = lab.Source) :=
  addLabels_photoLabelBy env photoId db labels pid lid pl0 h

/-- C6 witness fixture: an existing edge with uncertainty 80. -/
def fixPhotoLabel : entity.PhotoLabel :=
  { PhotoID := 1, LabelID := 1, LabelUncertainty := 80, LabelSource := "image" }

/-- C6 witness store. -/
def fixDBC6 : DB := { (default : DB) with photoLabels := [fixPhotoLabel] }

theorem C6_witness :
    fixDBC6.photoLabelBy 1 1 = some fixPhotoLabel ∧
    (∃ pl1, ((Index.addLabels fixEnv 1 fixDBC6 [fixLabelCat]).1).photoLabelBy 1 1 =
        some pl1 ∧
      pl1.LabelUncertainty ≤ fixPhotoLabel.LabelUncertainty ∧
      (pl1 ≠ fixPhotoLabel → ∃ lab ∈ [fixLabelCat],
        fixPhotoLabel.LabelUncertainty > lab.Uncertainty ∧
        pl1.LabelUncertainty = lab.Uncertainty ∧ pl1.LabelSource = lab.Source)) :=
  ⟨by decide,
   C6_confidence_wins fixEnv 1 fixDBC6 [fixLabelCat] 1 1 fixPhotoLabel (by decide)⟩
